import Mathlib

/-!
# ECC benchmark harness of the K32W0 `ecc-testing` example

Shallow embedding of `examples/ecc-testing/nxp/k32w/k32w0/main/main.cpp`.

The three benchmark routines call into the CHIP crypto layer and read the
OpenThread millisecond alarm.  Both are external to the file, so a run is
taken relative to an environment `Env` that fixes, for every call site of the
source and every loop iteration, the status the call returns and the two
timer values read around it.  A routine yields the ordered trace of what it
did (timer reads, crypto calls, busy-wait delays, log lines) together with
the value it returns.

`uint32_t` values are natural numbers; every operation that can wrap carries
its reduction modulo `2 ^ 32` explicitly.
-/

namespace EccTesting

/-! ## Error codes and the exit macros -/

/-- Storage of a `CHIP_ERROR`: an unsigned 32-bit value. -/
abbrev CHIP_ERROR := Nat

/-- Modelled from the spec: `CHIP_NO_ERROR` is declared in `lib/core/CHIPError.h`,
which is not part of the sources at hand; it is the success value `0` that
every "typed success/failure result" is compared with. -/
def CHIP_NO_ERROR : CHIP_ERROR := 0

/-- Modelled from the spec: `CHIP_ERROR_INTERNAL` is declared in
`lib/core/CHIPError.h` (`CHIP_CORE_ERROR(0xac)`), not part of the sources at
hand; it is the "generic internal-error indicator", a value other than
success. -/
def CHIP_ERROR_INTERNAL : CHIP_ERROR := 0xAC

/-- Modelled from the spec: `SuccessOrExit(aStatus)` of `lib/support/CodeUtils.h`
(not part of the sources at hand) expands to a jump to `exit` unless
`ChipError::IsSuccess(aStatus)`, i.e. unless the status is the success value:
"the harness checks after each call and fail-fasts ... on first error". -/
def IsSuccess (aStatus : Nat) : Bool := aStatus == 0

/-- Integral conversion of a C++ `bool` (to `uint8_t`, or to the storage type of
an error when a comparison result is handed to `SuccessOrExit`). -/
def boolToInt (b : Bool) : Nat := if b then 1 else 0

/-! ## Fixed-width arithmetic -/

/-- Addition of two `uint32_t`. -/
def add32 (a b : Nat) : Nat := (a + b) % 2 ^ 32

/-- Subtraction of two `uint32_t` (`stop - start`). -/
def sub32 (a b : Nat) : Nat := (a + (2 ^ 32 - b % 2 ^ 32)) % 2 ^ 32

/-- Multiplication of two `uint32_t`. -/
def mul32 (a b : Nat) : Nat := (a * b) % 2 ^ 32

/-- Division of two `uint32_t`; `none` when the divisor is zero, which is
undefined behaviour in the source language. -/
def div32 (a b : Nat) : Option Nat := if b = 0 then none else some (a / b)

/-- Conversion of an `int` to `uint8_t`. -/
def toUInt8 (x : Int) : Nat := (x % 256).toNat

/-! ## Environment and traces -/

/-- Call sites of crypto operations in `main.cpp`. -/
inductive Site
  /-- Call `keypair.Initialize()` in `TestECDSA_KeyGeneration` (line 82). -/
  | keyGenInitialize
  /-- Call `keypair.Initialize()` in `TestECDSA_Sign_and_Verify` (line 113). -/
  | signVerifyInitialize
  /-- Call `keypair.ECDSA_sign_msg` (line 119). -/
  | sign
  /-- Call `keypair.Pubkey().ECDSA_validate_msg_signature` (line 128). -/
  | validate
  /-- Call `keypair1.Initialize()` in `TestECDH_EstablishSecret` (line 172). -/
  | ecdhInitialize1
  /-- Call `keypair2.Initialize()` in `TestECDH_EstablishSecret` (line 175). -/
  | ecdhInitialize2
  /-- Call `keypair2.ECDH_derive_secret(keypair1.Pubkey(), out_secret1)` (line 179). -/
  | derive1
  /-- Call `keypair1.ECDH_derive_secret(keypair2.Pubkey(), out_secret2)` (line 187). -/
  | derive2
  deriving DecidableEq, Repr

/-- Contents of a `P256ECDHDerivedSecret`: the bytes of the buffer and the
length set by the operation that filled it. -/
structure Secret where
  bytes : List Nat
  length : Nat
  deriving DecidableEq, Repr

/-- Capacity of a `P256ECDHDerivedSecret` (`kMax_ECDH_Secret_Length`, the size
of a P-256 field element). -/
def kMax_ECDH_Secret_Length : Nat := 32

/-- Everything a run depends on that the file does not define.  The second
argument of the per-site functions is the loop iteration (0 for a call made
outside a loop). -/
structure Env where
  /-- Status returned by the crypto call at a site. -/
  status : Site → Nat → CHIP_ERROR
  /-- Value of `otPlatAlarmMilliGetNow()` read just before the call. -/
  start : Site → Nat → Nat
  /-- Value of `otPlatAlarmMilliGetNow()` read just after the call. -/
  stop : Site → Nat → Nat
  /-- Contents of `out_secret1` after the first derivation of an iteration. -/
  secret1 : Nat → Secret
  /-- Contents of `out_secret2` after the second derivation of an iteration. -/
  secret2 : Nat → Secret
  /-- Uninitialised bytes of `out_secret1` after its first byte. -/
  garbage1 : List Nat
  /-- Uninitialised bytes of `out_secret2` after its first byte. -/
  garbage2 : List Nat
  /-- The C library's `memcmp` on two buffers and a byte count. -/
  memcmp : List Nat → List Nat → Nat → Int

/-- What a routine does, in program order. -/
inductive Event
  /-- A read of `otPlatAlarmMilliGetNow()` and the value read. -/
  | now (value : Nat)
  /-- A crypto call: its site, the loop iteration and the status returned. -/
  | call (site : Site) (iteration : Nat) (status : CHIP_ERROR)
  /-- A call of `delay()`. -/
  | delay
  /-- A `K32W_LOG` line: the format string and its `%lu` argument, if any. -/
  | log (fmt : String) (arg : Option Nat)
  deriving DecidableEq, Repr

/-- Result of running a routine: the trace and the value returned.  `ret` is
`none` when the routine divided by zero. -/
structure Run where
  trace : List Event
  ret : Option CHIP_ERROR
  deriving DecidableEq, Repr

/-- How a `for` loop was left. -/
inductive Flow (σ : Type)
  /-- The loop condition became false; `vars` are the loop-carried variables. -/
  | done (vars : σ)
  /-- A `SuccessOrExit`/`VerifyOrExit` jumped to `exit` with this value in
  the variable `error`. -/
  | exit (error : CHIP_ERROR)
  deriving DecidableEq, Repr

/-- The crypto call an event stands for, if it is one. -/
def Event.asCall : Event → Option (Site × Nat × CHIP_ERROR)
  | Event.call s i e => some (s, i, e)
  | _ => none

/-- The log line an event stands for, if it is one. -/
def Event.asLog : Event → Option (String × Option Nat)
  | Event.log f a => some (f, a)
  | _ => none

/-- The crypto calls of a trace, in order. -/
def cryptoCalls (tr : List Event) : List (Site × Nat × CHIP_ERROR) :=
  tr.filterMap Event.asCall

/-- The log lines of a trace, in order. -/
def logLines (tr : List Event) : List (String × Option Nat) :=
  tr.filterMap Event.asLog

/-! ## `TestECDSA_KeyGeneration` -/

/-- The `for` loop of `TestECDSA_KeyGeneration`: `n` iterations are left, the
counter is `i`, and `sum`, `error` are the current values of the variables.
The loop variables on completion are `(sum, error)`.

In all three loops the source compares the `int` counter with the `uint32_t`
bound as unsigned values, and the body changes neither; the loop therefore
runs `iterations` times (for a bound of `2 ^ 31` or more, with the counter
wrapping as a two's-complement value), and is written here by recursion on the
number of iterations left. -/
def keyGenLoop (env : Env) : Nat → Nat → Nat → CHIP_ERROR → List Event × Flow (Nat × CHIP_ERROR)
  | 0, _, sum, error => ([], Flow.done (sum, error))
  | n + 1, i, sum, _ =>
    let start := env.start Site.keyGenInitialize i
    let error := env.status Site.keyGenInitialize i
    let stop := env.stop Site.keyGenInitialize i
    let evs := [Event.now start, Event.call Site.keyGenInitialize i error, Event.now stop]
    -- SuccessOrExit(error != CHIP_NO_ERROR);
    if IsSuccess (boolToInt (error != CHIP_NO_ERROR)) then
      let r := keyGenLoop env n (i + 1) (add32 sum (sub32 stop start)) error
      (evs ++ r.1, r.2)
    else
      (evs, Flow.exit error)

/-- Routine `CHIP_ERROR TestECDSA_KeyGeneration(uint32_t iterations)`. -/
def TestECDSA_KeyGeneration (env : Env) (iterations : Nat) : Run :=
  let pre := [Event.log "Start ECDSA key generation test" none]
  match keyGenLoop env iterations 0 0 CHIP_NO_ERROR with
  | (tr, Flow.exit error) => ⟨pre ++ tr, some error⟩
  | (tr, Flow.done (sum, error)) =>
    match div32 sum iterations with
    | none => ⟨pre ++ tr, none⟩
    | some time =>
      ⟨pre ++ tr ++ [Event.log "ECDSA key generation time: %lu" (some time)], some error⟩

/-! ## `TestECDSA_Sign_and_Verify` -/

/-- The `for` loop of `TestECDSA_Sign_and_Verify`.  `error` holds the status of
the initial `Initialize`; the loop never assigns it.  The loop variables on
completion are `(sign_sum, verify_sum)`. -/
def signVerifyLoop (env : Env) (error : CHIP_ERROR) :
    Nat → Nat → Nat → Nat → List Event × Flow (Nat × Nat)
  | 0, _, sign_sum, verify_sum => ([], Flow.done (sign_sum, verify_sum))
  | n + 1, i, sign_sum, verify_sum =>
    let start := env.start Site.sign i
    let signing_error := env.status Site.sign i
    let stop := env.stop Site.sign i
    let evs1 := [Event.now start, Event.call Site.sign i signing_error, Event.now stop]
    -- SuccessOrExit(signing_error);
    if IsSuccess signing_error then
      let sign_sum := add32 sign_sum (sub32 stop start)
      let start := env.start Site.validate i
      let validation_error := env.status Site.validate i
      let stop := env.stop Site.validate i
      let evs2 := evs1 ++ [Event.delay, Event.now start,
        Event.call Site.validate i validation_error, Event.now stop]
      -- SuccessOrExit(validation_error);
      if IsSuccess validation_error then
        let verify_sum := add32 verify_sum (sub32 stop start)
        let r := signVerifyLoop env error n (i + 1) sign_sum verify_sum
        (evs2 ++ Event.delay :: r.1, r.2)
      else
        (evs2, Flow.exit error)
    else
      (evs1, Flow.exit error)

/-- Routine `CHIP_ERROR TestECDSA_Sign_and_Verify(uint32_t iterations)`. -/
def TestECDSA_Sign_and_Verify (env : Env) (iterations : Nat) : Run :=
  let error := env.status Site.signVerifyInitialize 0
  let pre := [Event.log "Start ECDSA Sign and Verify test" none,
    Event.call Site.signVerifyInitialize 0 error]
  -- SuccessOrExit(error);
  if IsSuccess error then
    match signVerifyLoop env error iterations 0 0 0 with
    | (tr, Flow.exit error) => ⟨pre ++ tr, some error⟩
    | (tr, Flow.done (sign_sum, verify_sum)) =>
      match div32 sign_sum iterations, div32 verify_sum iterations with
      | some sign_time, some verify_time =>
        ⟨pre ++ tr ++ [Event.log "ECDSA sign time: %lu" (some sign_time),
          Event.log "ECDSA validate signature time: %lu" (some verify_time)], some error⟩
      | _, _ => ⟨pre ++ tr, none⟩
  else
    ⟨pre, some error⟩

/-! ## `TestECDH_EstablishSecret` -/

/-- The `for` loop of `TestECDH_EstablishSecret`.  The loop variables on
completion are `(sum, error)`. -/
def ecdhLoop (env : Env) : Nat → Nat → Nat → CHIP_ERROR → List Event × Flow (Nat × CHIP_ERROR)
  | 0, _, sum, error => ([], Flow.done (sum, error))
  | n + 1, i, sum, _ =>
    let error := env.status Site.ecdhInitialize1 i
    let evs1 := [Event.call Site.ecdhInitialize1 i error]
    if IsSuccess error then
      let error := env.status Site.ecdhInitialize2 i
      let evs2 := evs1 ++ [Event.call Site.ecdhInitialize2 i error]
      if IsSuccess error then
        let start := env.start Site.derive1 i
        let error := env.status Site.derive1 i
        let stop := env.stop Site.derive1 i
        let evs3 := evs2 ++ [Event.now start, Event.call Site.derive1 i error, Event.now stop]
        if IsSuccess error then
          let out_secret1 := env.secret1 i
          let sum := add32 sum (sub32 stop start)
          let start := env.start Site.derive2 i
          let error := env.status Site.derive2 i
          let stop := env.stop Site.derive2 i
          let evs4 := evs3 ++ [Event.delay, Event.now start,
            Event.call Site.derive2 i error, Event.now stop]
          if IsSuccess error then
            let out_secret2 := env.secret2 i
            let sum := add32 sum (sub32 stop start)
            let evs5 := evs4 ++ [Event.delay]
            -- ret = out_secret1.Length() == out_secret2.Length();
            let ret := boolToInt (out_secret1.length == out_secret2.length)
            -- VerifyOrExit(ret != 0, error = CHIP_ERROR_INTERNAL);
            if ret != 0 then
              -- ret = memcmp(..., out_secret1.Length());  (ret is a uint8_t)
              let ret := toUInt8 (env.memcmp out_secret1.bytes out_secret2.bytes out_secret1.length)
              -- VerifyOrExit(ret == 0, error = CHIP_ERROR_INTERNAL);
              if ret == 0 then
                let r := ecdhLoop env n (i + 1) sum error
                (evs5 ++ r.1, r.2)
              else
                (evs5, Flow.exit CHIP_ERROR_INTERNAL)
            else
              (evs5, Flow.exit CHIP_ERROR_INTERNAL)
          else
            (evs4, Flow.exit error)
        else
          (evs3, Flow.exit error)
      else
        (evs2, Flow.exit error)
    else
      (evs1, Flow.exit error)

/-- Routine `CHIP_ERROR TestECDH_EstablishSecret(uint32_t iterations)`. -/
def TestECDH_EstablishSecret (env : Env) (iterations : Nat) : Run :=
  -- out_secret1[0] = 0; out_secret2[0] = 1; the other bytes are not initialised
  let ret := toUInt8 (env.memcmp (0 :: env.garbage1) (1 :: env.garbage2) kMax_ECDH_Secret_Length)
  -- VerifyOrExit(ret != 0, error = CHIP_ERROR_INTERNAL);
  if ret != 0 then
    let pre := [Event.log "Start ECDH Establish Secret test" none]
    match ecdhLoop env iterations 0 0 CHIP_NO_ERROR with
    | (tr, Flow.exit error) => ⟨pre ++ tr, some error⟩
    | (tr, Flow.done (sum, error)) =>
      match div32 sum (mul32 2 iterations) with
      | none => ⟨pre ++ tr, none⟩
      | some time =>
        ⟨pre ++ tr ++ [Event.log "ECDH Establish Secret time: %lu" (some time)], some error⟩
  else
    ⟨[], some CHIP_ERROR_INTERNAL⟩

/-! ## Notions used to state the properties -/

/-- Running sum of a `uint32_t` accumulator over `n` iterations from `i`. -/
def accumulate (d : Nat → Nat) : Nat → Nat → Nat → Nat
  | 0, _, sum => sum
  | n + 1, i, sum => accumulate d n (i + 1) (add32 sum (d i))

/-- A list of crypto calls stops at its first failing call. -/
def FailFast (calls : List (Site × Nat × CHIP_ERROR)) : Prop :=
  ∀ pre c post, calls = pre ++ c :: post → c.2.2 ≠ CHIP_NO_ERROR → post = []

/-- Iteration `i` of the loop of `TestECDH_EstablishSecret` passes every check:
the four crypto calls succeed, the two secrets have the same length and the
truncated `memcmp` result is zero. -/
def ecdhIterationOk (env : Env) (i : Nat) : Prop :=
  env.status Site.ecdhInitialize1 i = CHIP_NO_ERROR ∧
  env.status Site.ecdhInitialize2 i = CHIP_NO_ERROR ∧
  env.status Site.derive1 i = CHIP_NO_ERROR ∧
  env.status Site.derive2 i = CHIP_NO_ERROR ∧
  (env.secret1 i).length = (env.secret2 i).length ∧
  toUInt8 (env.memcmp (env.secret1 i).bytes (env.secret2 i).bytes (env.secret1 i).length) = 0

/-! ## Concrete environments -/

/-- A `memcmp` that returns the difference of the first two bytes that differ. -/
def memcmpBytes : List Nat → List Nat → Nat → Int
  | a :: as, b :: bs, n + 1 => if a = b then memcmpBytes as bs n else (a : Int) - (b : Int)
  | _, _, _ => 0

/-- A `memcmp` whose result has the sign the C standard asks for (zero on equal
buffers, negative when the first differing byte is smaller in the first
buffer, positive otherwise) and whose positive result is 256. -/
def memcmpWide : List Nat → List Nat → Nat → Int
  | a :: as, b :: bs, n + 1 =>
    if a = b then memcmpWide as bs n else if a < b then -1 else 256
  | _, _, _ => 0

/-- Time at which the timer is read before a call, in a sample schedule. -/
def sampleStart (s : Site) (i : Nat) : Nat :=
  1000 * i + (if s = Site.validate ∨ s = Site.derive2 then 100 else 0)

/-- Time at which the timer is read after a call, in a sample schedule: signing
and the first derivation take 4 ms, validation and the second derivation 9 ms. -/
def sampleStop (s : Site) (i : Nat) : Nat :=
  sampleStart s i + (if s = Site.validate ∨ s = Site.derive2 then 9 else 4)

/-- An environment in which every crypto call succeeds and both derivations
yield the same 32-byte secret. -/
def envOk : Env where
  status := fun _ _ => CHIP_NO_ERROR
  start := sampleStart
  stop := sampleStop
  secret1 := fun _ => ⟨List.replicate 32 0x5A, 32⟩
  secret2 := fun _ => ⟨List.replicate 32 0x5A, 32⟩
  garbage1 := List.replicate 31 0
  garbage2 := List.replicate 31 0
  memcmp := memcmpBytes

/-- An environment in which `ECDSA_sign_msg` fails with `CHIP_ERROR_INTERNAL`
and every other call succeeds. -/
def envSignFails : Env :=
  { envOk with
    status := fun s _ => if s = Site.sign then CHIP_ERROR_INTERNAL else CHIP_NO_ERROR }

/-- An environment in which every call succeeds, the two derived secrets differ
in their first byte, and the C library's `memcmp` is `memcmpWide`. -/
def envSecretsDiffer : Env :=
  { envOk with
    secret1 := fun _ => ⟨1 :: List.replicate 31 0, 32⟩
    secret2 := fun _ => ⟨0 :: List.replicate 31 0, 32⟩
    memcmp := memcmpWide }

/-- An environment in which the third key generation, the second signature
validation and the second derivation of the second ECDH iteration fail. -/
def envLateFailures : Env :=
  { envOk with
    status := fun s i =>
      if (s = Site.keyGenInitialize ∧ i = 2) ∨ (s = Site.validate ∧ i = 1) ∨
          (s = Site.derive2 ∧ i = 1) then CHIP_ERROR_INTERNAL else CHIP_NO_ERROR }

/-- An environment in which every call succeeds and the timer wraps during each
timed call: it reads `2 ^ 32 - 3` before the call and 5 after it, 8 ms later. -/
def envTimerWraps : Env :=
  { envOk with
    start := fun _ _ => 2 ^ 32 - 3
    stop := fun _ _ => 5 }

/-! ## A clock behind the timer -/

/-- A wall clock for a run: how long each crypto call and each call of
`delay()` takes.  Time passes only inside these; the timer shows the clock
modulo `2 ^ 32`. -/
structure Timing where
  /-- Milliseconds taken by the crypto call at a site in an iteration. -/
  opTime : Site → Nat → Nat
  /-- Milliseconds taken by the `k`-th call of `delay()` of the run. -/
  delayTime : Nat → Nat

/-- The clock and the number of delays so far, after the events of a trace that
starts at time `t` with `k` delays behind it. -/
def Timing.after (tm : Timing) : Nat → Nat → List Event → Nat × Nat
  | t, k, [] => (t, k)
  | t, k, Event.call s i _ :: rest => tm.after (t + tm.opTime s i) k rest
  | t, k, Event.delay :: rest => tm.after (t + tm.delayTime k) (k + 1) rest
  | t, k, _ :: rest => tm.after t k rest

/-- Whether every timer read of a trace shows the clock, for a trace that
starts at time `t` with `k` delays behind it. -/
def Timing.agrees (tm : Timing) : Nat → Nat → List Event → Bool
  | _, _, [] => true
  | t, k, Event.now v :: rest => v == t % 2 ^ 32 && tm.agrees t k rest
  | t, k, Event.call s i _ :: rest => tm.agrees (t + tm.opTime s i) k rest
  | t, k, Event.delay :: rest => tm.agrees (t + tm.delayTime k) (k + 1) rest
  | t, k, Event.log _ _ :: rest => tm.agrees t k rest

/-- The clock behind `envOk`: signing and the first derivation take 4 ms,
validation and the second derivation 9 ms, the other calls no time; the first
`delay()` of an iteration takes 96 ms and the second 891 ms. -/
def sampleTiming : Timing where
  opTime := fun s _ =>
    if s = Site.sign ∨ s = Site.derive1 then 4
    else if s = Site.validate ∨ s = Site.derive2 then 9 else 0
  delayTime := fun k => if k % 2 = 0 then 96 else 891

/-- The clock of `sampleTiming` with every `delay()` taking 50 ms. -/
def shortDelayTiming : Timing :=
  { sampleTiming with delayTime := fun _ => 50 }

/-- The environment `envOk` with the timer values read under `shortDelayTiming`. -/
def envShortDelay : Env :=
  { envOk with
    start := fun s i => 113 * i + (if s = Site.validate ∨ s = Site.derive2 then 54 else 0)
    stop := fun s i => 113 * i + (if s = Site.validate ∨ s = Site.derive2 then 63 else 4) }

/-! ## `TestECC_Operations` and `main_task` -/

/-- The three benchmark routines. -/
inductive Routine
  | TestECDSA_KeyGeneration
  | TestECDSA_Sign_and_Verify
  | TestECDH_EstablishSecret
  deriving DecidableEq, Repr

/-- What `TestECC_Operations` does, in program order. -/
inductive SuiteEvent
  /-- A `K32W_LOG` line: the format string and its `%lu` argument, if any. -/
  | log (fmt : String) (arg : Option Nat)
  /-- A call of a benchmark routine: the argument passed and what the call did. -/
  | invoke (routine : Routine) (iterations : Nat) (run : Run)
  deriving DecidableEq, Repr

/-- Result of running `TestECC_Operations`: the trace, and whether the function
returned; it does not when a routine it called divided by zero. -/
structure SuiteRun where
  trace : List SuiteEvent
  returned : Bool
  deriving DecidableEq, Repr

/-- Routine `void TestECC_Operations(uint32_t iterations)`.  The first argument
says whether the file is compiled with `MBEDTLS_USE_TINYCRYPT` defined. -/
def TestECC_Operations (MBEDTLS_USE_TINYCRYPT : Bool) (env : Env) (iterations : Nat) :
    SuiteRun :=
  let t0 := [SuiteEvent.log
      (if MBEDTLS_USE_TINYCRYPT then "Tinycrypt used" else "Standard mbedtls used") none,
    SuiteEvent.log "Iterations: %lu" (some iterations)]
  -- ret = TestECDSA_KeyGeneration(iterations);
  let run1 := TestECDSA_KeyGeneration env iterations
  let t1 := t0 ++ [SuiteEvent.invoke Routine.TestECDSA_KeyGeneration iterations run1]
  match run1.ret with
  | none => ⟨t1, false⟩
  | some ret =>
    let t1 := if ret != CHIP_NO_ERROR then
      t1 ++ [SuiteEvent.log "TestECDSA_KeyGeneration error" none] else t1
    -- ret = TestECDSA_Sign_and_Verify(iterations);
    let run2 := TestECDSA_Sign_and_Verify env iterations
    let t2 := t1 ++ [SuiteEvent.invoke Routine.TestECDSA_Sign_and_Verify iterations run2]
    match run2.ret with
    | none => ⟨t2, false⟩
    | some ret =>
      let t2 := if ret != CHIP_NO_ERROR then
        t2 ++ [SuiteEvent.log "TestECDSA_Sign_and_Verify error" none] else t2
      -- ret = TestECDH_EstablishSecret(iterations);
      let run3 := TestECDH_EstablishSecret env iterations
      let t3 := t2 ++ [SuiteEvent.invoke Routine.TestECDH_EstablishSecret iterations run3]
      match run3.ret with
      | none => ⟨t3, false⟩
      | some ret =>
        let t3 := if ret != CHIP_NO_ERROR then
          t3 ++ [SuiteEvent.log "TestECDH_EstablishSecret error" none] else t3
        ⟨t3, true⟩

/-- The four bring-up calls of `main_task` whose status is checked. -/
inductive BringUp
  /-- Call `PlatformMgr().InitChipStack()`. -/
  | InitChipStack
  /-- Call `ThreadStackMgr().InitThreadStack()`. -/
  | InitThreadStack
  /-- Call `ConnectivityMgr().SetThreadDeviceType(kThreadDeviceType_MinimalEndDevice)`. -/
  | SetThreadDeviceType
  /-- Call `PlatformMgr().StartEventLoopTask()`. -/
  | StartEventLoopTask
  deriving DecidableEq, Repr

/-- What `main_task` does, in program order. -/
inductive MainEvent
  /-- A platform call whose result `main_task` does not look at. -/
  | platform (call : String)
  /-- A `K32W_LOG` line. -/
  | log (msg : String)
  /-- A checked bring-up call and the status it returned. -/
  | bringUp (step : BringUp) (ret : CHIP_ERROR)
  /-- A call of `TestECC_Operations`: the argument passed and what the call did. -/
  | suite (iterations : Nat) (run : SuiteRun)
  deriving DecidableEq, Repr

/-- The part of `main_task` before the first checked call. -/
def mainPrelude : List MainEvent :=
  [MainEvent.platform "__init_array", MainEvent.platform "mbedtls_platform_set_calloc_free",
   MainEvent.platform "otSysInit", MainEvent.log "Welcome to NXP Lighting Demo App",
   MainEvent.platform "freertos_mbedtls_mutex_init",
   MainEvent.platform "chip::Platform::MemoryInit"]

/-- Routine `void main_task(void const * argument)` of the ecc-testing example.
`status` gives what each checked bring-up call returns. -/
def main_task (MBEDTLS_USE_TINYCRYPT : Bool) (status : BringUp → CHIP_ERROR) (env : Env) :
    List MainEvent :=
  let ret := status BringUp.InitChipStack
  let t := mainPrelude ++ [MainEvent.bringUp BringUp.InitChipStack ret]
  if ret != CHIP_NO_ERROR then
    t ++ [MainEvent.log "Error during PlatformMgr().InitWeaveStack()"]
  else
    let ret := status BringUp.InitThreadStack
    let t := t ++ [MainEvent.bringUp BringUp.InitThreadStack ret]
    if ret != CHIP_NO_ERROR then
      t ++ [MainEvent.log "Error during ThreadStackMgr().InitThreadStack()"]
    else
      let ret := status BringUp.SetThreadDeviceType
      let t := t ++ [MainEvent.bringUp BringUp.SetThreadDeviceType ret]
      if ret != CHIP_NO_ERROR then
        t
      else
        let ret := status BringUp.StartEventLoopTask
        let t := t ++ [MainEvent.bringUp BringUp.StartEventLoopTask ret]
        if ret != CHIP_NO_ERROR then
          t ++ [MainEvent.log "Error during PlatformMgr().StartEventLoopTask();"]
        else
          -- TestECC_Operations(30);
          t ++ [MainEvent.suite 30 (TestECC_Operations MBEDTLS_USE_TINYCRYPT env 30)]

end EccTesting

/-!
# The tinycrypt test of the K32W0 `tinycrypt-test` example

Shallow embedding of `examples/tinycrypt-test/nxp/k32w/k32w0/main/main.cpp`.
The micro-ecc functions and `DRBG_get_bytes` are external to the file; a run is
taken relative to an environment that fixes what each call returns.
-/

namespace TinycryptTest

open EccTesting (CHIP_ERROR CHIP_NO_ERROR CHIP_ERROR_INTERNAL)

/-- Number of bytes of a P-256 field element (`NUM_ECC_BYTES` of
`tinycrypt/ecc.h`): the size of a private key, of a hash and of a shared
secret here. -/
def NUM_ECC_BYTES : Nat := 32

/-- Conversion of an `unsigned int` to `int` (two's complement, 32 bits). -/
def toInt (u : Nat) : Int :=
  if u % 2 ^ 32 < 2 ^ 31 then ((u % 2 ^ 32 : Nat) : Int) else ((u % 2 ^ 32 : Nat) : Int) - 2 ^ 32

/-- Function `static int uecc_rng_wrapper(uint8_t *dest, unsigned int size)`;
`drbg` is what `chip::Crypto::DRBG_get_bytes(dest, size)` returns. -/
def uecc_rng_wrapper (drbg : CHIP_ERROR) (size : Nat) : Int :=
  let ret := drbg
  -- return (ret == CHIP_NO_ERROR)?size:0;
  toInt (if ret == CHIP_NO_ERROR then size else 0)

/-- Call sites of micro-ecc functions in `main.cpp`. -/
inductive Site
  /-- Call `uECC_make_key( public1, private1 )` in `test_ecdh` (line 91). -/
  | makeKey1
  /-- Call `uECC_make_key( public2, private2 )` in `test_ecdh` (line 96). -/
  | makeKey2
  /-- Call `uECC_shared_secret( public2, private1, secret1 )` (line 101). -/
  | sharedSecret1
  /-- Call `uECC_shared_secret( public1, private2, secret2 )` (line 106). -/
  | sharedSecret2
  /-- Call `uECC_make_key( public_key, private_key )` in `test_ecdsa` (line 135). -/
  | makeKey
  /-- Call `uECC_sign( private_key, hash, sizeof( hash ), sig )` (line 140). -/
  | sign
  /-- Call `uECC_verify( public_key, hash, sizeof( hash ), sig )` (line 145). -/
  | verify
  deriving DecidableEq, Repr

/-- Everything a run depends on that the file does not define. -/
structure Env where
  /-- The constant `UECC_SUCCESS` of `tinycrypt/ecc.h`. -/
  UECC_SUCCESS : Int
  /-- The `int` returned by the micro-ecc call at a site. -/
  result : Site → Int
  /-- What `DRBG_get_bytes(hash, NUM_ECC_BYTES)` returns in `test_ecdsa`. -/
  drbg : CHIP_ERROR
  /-- Contents of `secret1` after the first `uECC_shared_secret`. -/
  secret1 : List Nat
  /-- Contents of `secret2` after the second `uECC_shared_secret`. -/
  secret2 : List Nat
  /-- The C library's `memcmp` on two buffers and a byte count. -/
  memcmp : List Nat → List Nat → Nat → Int

/-- What a test does, in program order. -/
inductive Event
  /-- The call `uECC_set_rng( &uecc_rng_wrapper )`. -/
  | setRng
  /-- A `ChipLogError(Crypto, ...)` line. -/
  | log (msg : String)
  /-- The call `uecc_rng_wrapper(hash, NUM_ECC_BYTES)` and the `int` it returned. -/
  | fillHash (result : Int)
  /-- A micro-ecc call and the `int` it returned. -/
  | call (site : Site) (result : Int)
  /-- The call of `memcmp` on the two secrets and the `int` it returned. -/
  | compare (result : Int)
  deriving DecidableEq, Repr

/-- Result of running a test: the trace and the value returned. -/
structure Run where
  trace : List Event
  ret : CHIP_ERROR
  deriving DecidableEq, Repr

/-- Function `CHIP_ERROR test_ecdh()`. -/
def test_ecdh (env : Env) : Run :=
  let t := [Event.setRng, Event.log "before uECC_make_key"]
  let result := env.result Site.makeKey1
  let t := t ++ [Event.call Site.makeKey1 result, Event.log "after uECC_make_key"]
  -- VerifyOrExit(result == UECC_SUCCESS, error = CHIP_ERROR_INTERNAL);
  if result == env.UECC_SUCCESS then
    let result := env.result Site.makeKey2
    let t := t ++ [Event.log "before uECC_make_key", Event.call Site.makeKey2 result,
      Event.log "after uECC_make_key"]
    if result == env.UECC_SUCCESS then
      let result := env.result Site.sharedSecret1
      let t := t ++ [Event.log "before uECC_shared_secret",
        Event.call Site.sharedSecret1 result, Event.log "after uECC_shared_secret"]
      if result == env.UECC_SUCCESS then
        let result := env.result Site.sharedSecret2
        let t := t ++ [Event.log "before uECC_shared_secret",
          Event.call Site.sharedSecret2 result, Event.log "after uECC_shared_secret"]
        if result == env.UECC_SUCCESS then
          -- result = memcmp( secret1, secret2, sizeof( secret1 ) );
          let result := env.memcmp env.secret1 env.secret2 NUM_ECC_BYTES
          let t := t ++ [Event.compare result]
          -- VerifyOrExit(result == 0, error = CHIP_ERROR_INTERNAL);
          if result == 0 then ⟨t, CHIP_NO_ERROR⟩ else ⟨t, CHIP_ERROR_INTERNAL⟩
        else ⟨t, CHIP_ERROR_INTERNAL⟩
      else ⟨t, CHIP_ERROR_INTERNAL⟩
    else ⟨t, CHIP_ERROR_INTERNAL⟩
  else ⟨t, CHIP_ERROR_INTERNAL⟩

/-- Function `CHIP_ERROR test_ecdsa()`. -/
def test_ecdsa (env : Env) : Run :=
  -- result = uecc_rng_wrapper(hash, NUM_ECC_BYTES);
  let result := uecc_rng_wrapper env.drbg NUM_ECC_BYTES
  let t := [Event.setRng, Event.fillHash result]
  -- VerifyOrExit(result == NUM_ECC_BYTES, error = CHIP_ERROR_INTERNAL);
  if result == (NUM_ECC_BYTES : Int) then
    let result := env.result Site.makeKey
    let t := t ++ [Event.log "before uECC_make_key", Event.call Site.makeKey result,
      Event.log "before uECC_make_key"]
    if result == env.UECC_SUCCESS then
      let result := env.result Site.sign
      let t := t ++ [Event.log "before uECC_sign", Event.call Site.sign result,
        Event.log "after uECC_sign"]
      if result == env.UECC_SUCCESS then
        let result := env.result Site.verify
        let t := t ++ [Event.log "before uECC_verify", Event.call Site.verify result,
          Event.log "after uECC_verify"]
        if result == env.UECC_SUCCESS then ⟨t, CHIP_NO_ERROR⟩ else ⟨t, CHIP_ERROR_INTERNAL⟩
      else ⟨t, CHIP_ERROR_INTERNAL⟩
    else ⟨t, CHIP_ERROR_INTERNAL⟩
  else ⟨t, CHIP_ERROR_INTERNAL⟩

/-- The steps of a trace that a test checks: the fill of the hash, the
micro-ecc calls and the comparison, in order. -/
def steps (tr : List Event) : List Event :=
  tr.filter (fun e =>
    match e with
    | Event.fillHash _ => true
    | Event.call _ _ => true
    | Event.compare _ => true
    | _ => false)

/-- Whether the check that follows a step lets the test go on. -/
def stepPasses (env : Env) : Event → Bool
  | Event.fillHash r => r == (NUM_ECC_BYTES : Int)
  | Event.call _ r => r == env.UECC_SUCCESS
  | Event.compare r => r == 0
  | _ => true

/-- The elements of a list up to and including the first that fails a test. -/
def throughFirstFailure {α : Type} (passes : α → Bool) : List α → List α
  | [] => []
  | a :: rest => if passes a then a :: throughFirstFailure passes rest else [a]

/-- An environment in which `UECC_SUCCESS` is 0, every call succeeds and the two
secrets are the same 32 bytes. -/
def envGood : Env where
  UECC_SUCCESS := 0
  result := fun _ => 0
  drbg := CHIP_NO_ERROR
  secret1 := List.replicate 32 0x5A
  secret2 := List.replicate 32 0x5A
  memcmp := EccTesting.memcmpBytes

/-- The environment `envGood` with the first `uECC_shared_secret` and `uECC_sign`
returning a failure code. -/
def envCallFails : Env :=
  { envGood with
    result := fun s => if s = Site.sharedSecret1 ∨ s = Site.sign then 0x75555555 else 0 }

/-- The environment `envGood` with two secrets that differ in their first byte. -/
def envSecretsDiffer : Env :=
  { envGood with secret2 := 0x5B :: List.replicate 31 0x5A }

/-- The environment `envGood` with a failing `DRBG_get_bytes`. -/
def envNoRandom : Env :=
  { envGood with drbg := CHIP_ERROR_INTERNAL }

/-- What `main_task` does, in program order. -/
inductive MainEvent
  /-- A platform call whose result `main_task` does not look at. -/
  | platform (call : String)
  /-- A `K32W_LOG` line. -/
  | log (msg : String)
  /-- A checked bring-up call and the status it returned. -/
  | bringUp (step : EccTesting.BringUp) (ret : CHIP_ERROR)
  /-- A call of `test_ecdh` and what the call did. -/
  | test_ecdh (run : Run)
  /-- A call of `test_ecdsa` and what the call did. -/
  | test_ecdsa (run : Run)
  deriving DecidableEq, Repr

/-- The part of `main_task` before the first checked call. -/
def mainPrelude : List MainEvent :=
  [MainEvent.platform "__init_array", MainEvent.platform "mbedtls_platform_set_calloc_free",
   MainEvent.platform "otSysInit", MainEvent.log "Welcome to NXP Lighting Demo App",
   MainEvent.platform "freertos_mbedtls_mutex_init",
   MainEvent.platform "chip::Platform::MemoryInit"]

/-- Routine `void main_task(void const * argument)` of the tinycrypt-test
example.  `status` gives what each checked bring-up call returns. -/
def main_task (status : EccTesting.BringUp → CHIP_ERROR) (env : Env) : List MainEvent :=
  let ret := status EccTesting.BringUp.InitChipStack
  let t := mainPrelude ++ [MainEvent.bringUp EccTesting.BringUp.InitChipStack ret]
  if ret != CHIP_NO_ERROR then
    t ++ [MainEvent.log "Error during PlatformMgr().InitWeaveStack()"]
  else
    let ret := status EccTesting.BringUp.InitThreadStack
    let t := t ++ [MainEvent.bringUp EccTesting.BringUp.InitThreadStack ret]
    if ret != CHIP_NO_ERROR then
      t ++ [MainEvent.log "Error during ThreadStackMgr().InitThreadStack()"]
    else
      let ret := status EccTesting.BringUp.SetThreadDeviceType
      let t := t ++ [MainEvent.bringUp EccTesting.BringUp.SetThreadDeviceType ret]
      if ret != CHIP_NO_ERROR then
        t
      else
        let ret := status EccTesting.BringUp.StartEventLoopTask
        let t := t ++ [MainEvent.bringUp EccTesting.BringUp.StartEventLoopTask ret]
        if ret != CHIP_NO_ERROR then
          t ++ [MainEvent.log "Error during PlatformMgr().StartEventLoopTask();"]
        else
          -- ret = test_ecdh();
          let run := test_ecdh env
          let t := t ++ [MainEvent.test_ecdh run]
          if run.ret != CHIP_NO_ERROR then
            t ++ [MainEvent.log "Error test_ecdh"]
          else
            -- ret = test_ecdsa();
            let run := test_ecdsa env
            let t := t ++ [MainEvent.test_ecdsa run]
            if run.ret != CHIP_NO_ERROR then
              t ++ [MainEvent.log "Error test_ecdsa"]
            else
              t

/-- The calls of `test_ecdsa` in a trace of `main_task`. -/
def ecdsaCalls (tr : List MainEvent) : List Run :=
  tr.filterMap (fun e =>
    match e with
    | MainEvent.test_ecdsa run => some run
    | _ => none)

/-- The statuses with which the first three bring-up calls succeed and
`StartEventLoopTask` fails. -/
def statusEventLoopFails : EccTesting.BringUp → CHIP_ERROR
  | EccTesting.BringUp.StartEventLoopTask => CHIP_ERROR_INTERNAL
  | _ => CHIP_NO_ERROR

end TinycryptTest

/-!
# The generated endpoint configuration of the lighting app

Transcription of `zzz_generated/lighting-app/nxp/zap-generated/endpoint_config.h`:
the attribute, command and cluster tables and the size constants, entry by
entry and in the order of the header.  Comments of the header that a property
refers to are kept as data.
-/

namespace EndpointConfig

/-- Arguments of `ZAP_TYPE` that occur in the header. -/
inductive ZAP_TYPE
  | ARRAY
  | BITMAP32
  | INT16U
  | CHAR_STRING
  | VENDOR_ID
  | INT32U
  | STRUCT
  | BOOLEAN
  | ENUM8
  | INT8U
  | INT64U
  | OCTET_STRING
  | INT32S
  | FABRIC_IDX
  | BITMAP8
  deriving DecidableEq, Repr

/-- Arguments of `ZAP_ATTRIBUTE_MASK` that occur in the header. -/
inductive ZAP_ATTRIBUTE_MASK
  | EXTERNAL_STORAGE
  | WRITABLE
  | SINGLETON
  | TOKENIZE
  | NULLABLE
  | MIN_MAX
  deriving DecidableEq, Repr

/-- Default value of an attribute, as the header writes it. -/
inductive AttributeDefault
  /-- Written `ZAP_EMPTY_DEFAULT()`. -/
  | empty
  /-- Written `ZAP_SIMPLE_DEFAULT(x)`. -/
  | simple (x : Nat)
  /-- Written `ZAP_LONG_DEFAULTS_INDEX(index)`. -/
  | long (index : Nat)
  /-- Written `ZAP_MIN_MAX_DEFAULTS_INDEX(index)`. -/
  | minMax (index : Nat)
  deriving DecidableEq, Repr

/-- An entry of `GENERATED_ATTRIBUTES` (an `EmberAfAttributeMetadata`): attribute
id, type, size in bytes, mask (the flags joined by `|`; `0` is the empty list)
and default value. -/
structure EmberAfAttributeMetadata where
  attributeId : Nat
  attributeType : ZAP_TYPE
  size : Nat
  mask : List ZAP_ATTRIBUTE_MASK
  defaultValue : AttributeDefault
  deriving DecidableEq, Repr

/-- The constant `GENERATED_ATTRIBUTE_COUNT`. -/
def GENERATED_ATTRIBUTE_COUNT : Nat := 170

/-- The entries of `GENERATED_ATTRIBUTES` under the comment
`Endpoint: 0, Cluster: Descriptor (server)`. -/
def attributes_Endpoint0_Descriptor : List EmberAfAttributeMetadata := [
  ⟨0x00000000, .ARRAY, 0, [.EXTERNAL_STORAGE], .empty⟩, -- device list
  ⟨0x00000001, .ARRAY, 0, [.EXTERNAL_STORAGE], .empty⟩, -- server list
  ⟨0x00000002, .ARRAY, 0, [.EXTERNAL_STORAGE], .empty⟩, -- client list
  ⟨0x00000003, .ARRAY, 0, [.EXTERNAL_STORAGE], .empty⟩, -- parts list
  ⟨0x0000FFFC, .BITMAP32, 4, [], (.simple 0)⟩, -- FeatureMap
  ⟨0x0000FFFD, .INT16U, 2, [.EXTERNAL_STORAGE], .empty⟩ -- ClusterRevision
]

/-- The entries of `GENERATED_ATTRIBUTES` under the comment
`Endpoint: 0, Cluster: Access Control (server)`. -/
def attributes_Endpoint0_AccessControl : List EmberAfAttributeMetadata := [
  ⟨0x00000000, .ARRAY, 0, [.EXTERNAL_STORAGE, .WRITABLE], .empty⟩, -- ACL
  ⟨0x00000002, .INT16U, 2, [.EXTERNAL_STORAGE], .empty⟩, -- SubjectsPerAccessControlEntry
  ⟨0x00000003, .INT16U, 2, [.EXTERNAL_STORAGE], .empty⟩, -- TargetsPerAccessControlEntry
  ⟨0x00000004, .INT16U, 2, [.EXTERNAL_STORAGE], .empty⟩, -- AccessControlEntriesPerFabric
  ⟨0x0000FFFC, .BITMAP32, 4, [], (.simple 0)⟩, -- FeatureMap
  ⟨0x0000FFFD, .INT16U, 2, [], (.simple 1)⟩ -- ClusterRevision
]

/-- The entries of `GENERATED_ATTRIBUTES` under the comment
`Endpoint: 0, Cluster: Basic (server)`. -/
def attributes_Endpoint0_Basic : List EmberAfAttributeMetadata := [
  ⟨0x00000000, .INT16U, 2, [.EXTERNAL_STORAGE, .SINGLETON], .empty⟩, -- DataModelRevision
  ⟨0x00000001, .CHAR_STRING, 33, [.EXTERNAL_STORAGE, .SINGLETON], .empty⟩, -- VendorName
  ⟨0x00000002, .VENDOR_ID, 2, [.EXTERNAL_STORAGE, .SINGLETON], .empty⟩, -- VendorID
  ⟨0x00000003, .CHAR_STRING, 33, [.EXTERNAL_STORAGE, .SINGLETON], .empty⟩, -- ProductName
  ⟨0x00000004, .INT16U, 2, [.EXTERNAL_STORAGE, .SINGLETON], .empty⟩, -- ProductID
  ⟨0x00000005, .CHAR_STRING, 33, [.TOKENIZE, .SINGLETON, .WRITABLE], .empty⟩, -- NodeLabel
  ⟨0x00000006, .CHAR_STRING, 3, [.EXTERNAL_STORAGE, .SINGLETON, .WRITABLE], .empty⟩, -- Location
  ⟨0x00000007, .INT16U, 2, [.EXTERNAL_STORAGE, .SINGLETON], .empty⟩, -- HardwareVersion
  ⟨0x00000008, .CHAR_STRING, 65, [.EXTERNAL_STORAGE, .SINGLETON], .empty⟩, -- HardwareVersionString
  ⟨0x00000009, .INT32U, 4, [.EXTERNAL_STORAGE, .SINGLETON], .empty⟩, -- SoftwareVersion
  ⟨0x0000000A, .CHAR_STRING, 65, [.EXTERNAL_STORAGE, .SINGLETON], .empty⟩, -- SoftwareVersionString
  ⟨0x00000013, .STRUCT, 0, [.EXTERNAL_STORAGE], .empty⟩, -- CapabilityMinima
  ⟨0x0000FFFC, .BITMAP32, 4, [], (.simple 0)⟩, -- FeatureMap
  ⟨0x0000FFFD, .INT16U, 2, [.SINGLETON], (.simple 1)⟩ -- ClusterRevision
]

/-- The entries of `GENERATED_ATTRIBUTES` under the comment
`Endpoint: 0, Cluster: OTA Software Update Requestor (server)`. -/
def attributes_Endpoint0_OTASoftwareUpdateRequestor : List EmberAfAttributeMetadata := [
  ⟨0x00000000, .ARRAY, 0, [.EXTERNAL_STORAGE, .WRITABLE], .empty⟩, -- DefaultOtaProviders
  ⟨0x00000001, .BOOLEAN, 1, [], (.simple 1)⟩, -- UpdatePossible
  ⟨0x00000002, .ENUM8, 1, [], (.simple 0)⟩, -- UpdateState
  ⟨0x00000003, .INT8U, 1, [.NULLABLE], (.simple 0)⟩, -- UpdateStateProgress
  ⟨0x0000FFFC, .BITMAP32, 4, [], (.simple 0)⟩, -- FeatureMap
  ⟨0x0000FFFD, .INT16U, 2, [], (.simple 1)⟩ -- ClusterRevision
]

/-- The entries of `GENERATED_ATTRIBUTES` under the comment
`Endpoint: 0, Cluster: General Commissioning (server)`. -/
def attributes_Endpoint0_GeneralCommissioning : List EmberAfAttributeMetadata := [
  ⟨0x00000000, .INT64U, 8, [.WRITABLE], (.long 0)⟩, -- Breadcrumb
  ⟨0x00000001, .STRUCT, 0, [.EXTERNAL_STORAGE], .empty⟩, -- BasicCommissioningInfo
  ⟨0x00000002, .ENUM8, 1, [.EXTERNAL_STORAGE], .empty⟩, -- RegulatoryConfig
  ⟨0x00000003, .ENUM8, 1, [.EXTERNAL_STORAGE], .empty⟩, -- LocationCapability
  ⟨0x00000004, .BOOLEAN, 1, [.EXTERNAL_STORAGE], .empty⟩, -- SupportsConcurrentConnection
  ⟨0x0000FFFC, .BITMAP32, 4, [], (.simple 0)⟩, -- FeatureMap
  ⟨0x0000FFFD, .INT16U, 2, [], (.simple 1)⟩ -- ClusterRevision
]

/-- The entries of `GENERATED_ATTRIBUTES` under the comment
`Endpoint: 0, Cluster: Network Commissioning (server)`. -/
def attributes_Endpoint0_NetworkCommissioning : List EmberAfAttributeMetadata := [
  ⟨0x00000000, .INT8U, 1, [], .empty⟩, -- MaxNetworks
  ⟨0x00000001, .ARRAY, 0, [.EXTERNAL_STORAGE], .empty⟩, -- Networks
  ⟨0x00000002, .INT8U, 1, [], .empty⟩, -- ScanMaxTimeSeconds
  ⟨0x00000003, .INT8U, 1, [], .empty⟩, -- ConnectMaxTimeSeconds
  ⟨0x00000004, .BOOLEAN, 1, [.WRITABLE], .empty⟩, -- InterfaceEnabled
  ⟨0x00000005, .ENUM8, 1, [.NULLABLE], .empty⟩, -- LastNetworkingStatus
  ⟨0x00000006, .OCTET_STRING, 33, [.NULLABLE], .empty⟩, -- LastNetworkID
  ⟨0x00000007, .INT32S, 4, [.NULLABLE], .empty⟩, -- LastConnectErrorValue
  ⟨0x0000FFFC, .BITMAP32, 4, [], (.simple 2)⟩, -- FeatureMap
  ⟨0x0000FFFD, .INT16U, 2, [], (.simple 1)⟩ -- ClusterRevision
]

/-- The entries of `GENERATED_ATTRIBUTES` under the comment
`Endpoint: 0, Cluster: General Diagnostics (server)`. -/
def attributes_Endpoint0_GeneralDiagnostics : List EmberAfAttributeMetadata := [
  ⟨0x00000000, .ARRAY, 0, [.EXTERNAL_STORAGE], .empty⟩, -- NetworkInterfaces
  ⟨0x00000001, .INT16U, 2, [.EXTERNAL_STORAGE], .empty⟩, -- RebootCount
  ⟨0x00000008, .BOOLEAN, 1, [.EXTERNAL_STORAGE], .empty⟩, -- TestEventTriggersEnabled
  ⟨0x0000FFFC, .BITMAP32, 4, [], (.simple 0)⟩, -- FeatureMap
  ⟨0x0000FFFD, .INT16U, 2, [], (.simple 1)⟩ -- ClusterRevision
]

/-- The entries of `GENERATED_ATTRIBUTES` under the comment
`Endpoint: 0, Cluster: Software Diagnostics (server)`. -/
def attributes_Endpoint0_SoftwareDiagnostics : List EmberAfAttributeMetadata := [
  ⟨0x00000000, .ARRAY, 0, [.EXTERNAL_STORAGE], .empty⟩, -- ThreadMetrics
  ⟨0x00000001, .INT64U, 8, [.EXTERNAL_STORAGE], .empty⟩, -- CurrentHeapFree
  ⟨0x00000002, .INT64U, 8, [.EXTERNAL_STORAGE], .empty⟩, -- CurrentHeapUsed
  ⟨0x00000003, .INT64U, 8, [.EXTERNAL_STORAGE], .empty⟩, -- CurrentHeapHighWatermark
  ⟨0x0000FFFC, .BITMAP32, 4, [], (.simple 1)⟩, -- FeatureMap
  ⟨0x0000FFFD, .INT16U, 2, [], (.simple 1)⟩ -- ClusterRevision
]

/-- The entries of `GENERATED_ATTRIBUTES` under the comment
`Endpoint: 0, Cluster: Thread Network Diagnostics (server)`. -/
def attributes_Endpoint0_ThreadNetworkDiagnostics : List EmberAfAttributeMetadata := [
  ⟨0x00000000, .INT16U, 2, [.EXTERNAL_STORAGE, .NULLABLE], .empty⟩, -- channel
  ⟨0x00000001, .ENUM8, 1, [.EXTERNAL_STORAGE, .NULLABLE], .empty⟩, -- RoutingRole
  ⟨0x00000002, .CHAR_STRING, 17, [.EXTERNAL_STORAGE, .NULLABLE], .empty⟩, -- NetworkName
  ⟨0x00000003, .INT16U, 2, [.EXTERNAL_STORAGE, .NULLABLE], .empty⟩, -- PanId
  ⟨0x00000004, .INT64U, 8, [.EXTERNAL_STORAGE, .NULLABLE], .empty⟩, -- ExtendedPanId
  ⟨0x00000005, .OCTET_STRING, 18, [.EXTERNAL_STORAGE, .NULLABLE], .empty⟩, -- MeshLocalPrefix
  ⟨0x00000006, .INT64U, 8, [.EXTERNAL_STORAGE], .empty⟩, -- OverrunCount
  ⟨0x00000007, .ARRAY, 0, [.EXTERNAL_STORAGE], .empty⟩, -- NeighborTableList
  ⟨0x00000008, .ARRAY, 0, [.EXTERNAL_STORAGE], .empty⟩, -- RouteTableList
  ⟨0x00000009, .INT32U, 4, [.EXTERNAL_STORAGE, .NULLABLE], .empty⟩, -- PartitionId
  ⟨0x0000000A, .INT8U, 1, [.EXTERNAL_STORAGE, .NULLABLE], .empty⟩, -- weighting
  ⟨0x0000000B, .INT8U, 1, [.EXTERNAL_STORAGE, .NULLABLE], .empty⟩, -- DataVersion
  ⟨0x0000000C, .INT8U, 1, [.EXTERNAL_STORAGE, .NULLABLE], .empty⟩, -- StableDataVersion
  ⟨0x0000000D, .INT8U, 1, [.EXTERNAL_STORAGE, .NULLABLE], .empty⟩, -- LeaderRouterId
  ⟨0x0000000E, .INT16U, 2, [.EXTERNAL_STORAGE], .empty⟩, -- DetachedRoleCount
  ⟨0x0000000F, .INT16U, 2, [.EXTERNAL_STORAGE], .empty⟩, -- ChildRoleCount
  ⟨0x00000010, .INT16U, 2, [.EXTERNAL_STORAGE], .empty⟩, -- RouterRoleCount
  ⟨0x00000011, .INT16U, 2, [.EXTERNAL_STORAGE], .empty⟩, -- LeaderRoleCount
  ⟨0x00000012, .INT16U, 2, [.EXTERNAL_STORAGE], .empty⟩, -- AttachAttemptCount
  ⟨0x00000013, .INT16U, 2, [.EXTERNAL_STORAGE], .empty⟩, -- PartitionIdChangeCount
  ⟨0x00000014, .INT16U, 2, [.EXTERNAL_STORAGE], .empty⟩, -- BetterPartitionAttachAttemptCount
  ⟨0x00000015, .INT16U, 2, [.EXTERNAL_STORAGE], .empty⟩, -- ParentChangeCount
  ⟨0x00000016, .INT32U, 4, [.EXTERNAL_STORAGE], .empty⟩, -- TxTotalCount
  ⟨0x00000017, .INT32U, 4, [.EXTERNAL_STORAGE], .empty⟩, -- TxUnicastCount
  ⟨0x00000018, .INT32U, 4, [.EXTERNAL_STORAGE], .empty⟩, -- TxBroadcastCount
  ⟨0x00000019, .INT32U, 4, [.EXTERNAL_STORAGE], .empty⟩, -- TxAckRequestedCount
  ⟨0x0000001A, .INT32U, 4, [.EXTERNAL_STORAGE], .empty⟩, -- TxAckedCount
  ⟨0x0000001B, .INT32U, 4, [.EXTERNAL_STORAGE], .empty⟩, -- TxNoAckRequestedCount
  ⟨0x0000001C, .INT32U, 4, [.EXTERNAL_STORAGE], .empty⟩, -- TxDataCount
  ⟨0x0000001D, .INT32U, 4, [.EXTERNAL_STORAGE], .empty⟩, -- TxDataPollCount
  ⟨0x0000001E, .INT32U, 4, [.EXTERNAL_STORAGE], .empty⟩, -- TxBeaconCount
  ⟨0x0000001F, .INT32U, 4, [.EXTERNAL_STORAGE], .empty⟩, -- TxBeaconRequestCount
  ⟨0x00000020, .INT32U, 4, [.EXTERNAL_STORAGE], .empty⟩, -- TxOtherCount
  ⟨0x00000021, .INT32U, 4, [.EXTERNAL_STORAGE], .empty⟩, -- TxRetryCount
  ⟨0x00000022, .INT32U, 4, [.EXTERNAL_STORAGE], .empty⟩, -- TxDirectMaxRetryExpiryCount
  ⟨0x00000023, .INT32U, 4, [.EXTERNAL_STORAGE], .empty⟩, -- TxIndirectMaxRetryExpiryCount
  ⟨0x00000024, .INT32U, 4, [.EXTERNAL_STORAGE], .empty⟩, -- TxErrCcaCount
  ⟨0x00000025, .INT32U, 4, [.EXTERNAL_STORAGE], .empty⟩, -- TxErrAbortCount
  ⟨0x00000026, .INT32U, 4, [.EXTERNAL_STORAGE], .empty⟩, -- TxErrBusyChannelCount
  ⟨0x00000027, .INT32U, 4, [.EXTERNAL_STORAGE], .empty⟩, -- RxTotalCount
  ⟨0x00000028, .INT32U, 4, [.EXTERNAL_STORAGE], .empty⟩, -- RxUnicastCount
  ⟨0x00000029, .INT32U, 4, [.EXTERNAL_STORAGE], .empty⟩, -- RxBroadcastCount
  ⟨0x0000002A, .INT32U, 4, [.EXTERNAL_STORAGE], .empty⟩, -- RxDataCount
  ⟨0x0000002B, .INT32U, 4, [.EXTERNAL_STORAGE], .empty⟩, -- RxDataPollCount
  ⟨0x0000002C, .INT32U, 4, [.EXTERNAL_STORAGE], .empty⟩, -- RxBeaconCount
  ⟨0x0000002D, .INT32U, 4, [.EXTERNAL_STORAGE], .empty⟩, -- RxBeaconRequestCount
  ⟨0x0000002E, .INT32U, 4, [.EXTERNAL_STORAGE], .empty⟩, -- RxOtherCount
  ⟨0x0000002F, .INT32U, 4, [.EXTERNAL_STORAGE], .empty⟩, -- RxAddressFilteredCount
  ⟨0x00000030, .INT32U, 4, [.EXTERNAL_STORAGE], .empty⟩, -- RxDestAddrFilteredCount
  ⟨0x00000031, .INT32U, 4, [.EXTERNAL_STORAGE], .empty⟩, -- RxDuplicatedCount
  ⟨0x00000032, .INT32U, 4, [.EXTERNAL_STORAGE], .empty⟩, -- RxErrNoFrameCount
  ⟨0x00000033, .INT32U, 4, [.EXTERNAL_STORAGE], .empty⟩, -- RxErrUnknownNeighborCount
  ⟨0x00000034, .INT32U, 4, [.EXTERNAL_STORAGE], .empty⟩, -- RxErrInvalidSrcAddrCount
  ⟨0x00000035, .INT32U, 4, [.EXTERNAL_STORAGE], .empty⟩, -- RxErrSecCount
  ⟨0x00000036, .INT32U, 4, [.EXTERNAL_STORAGE], .empty⟩, -- RxErrFcsCount
  ⟨0x00000037, .INT32U, 4, [.EXTERNAL_STORAGE], .empty⟩, -- RxErrOtherCount
  ⟨0x0000003B, .STRUCT, 0, [.EXTERNAL_STORAGE, .NULLABLE], .empty⟩, -- SecurityPolicy
  ⟨0x0000003C, .OCTET_STRING, 5, [.EXTERNAL_STORAGE, .NULLABLE], .empty⟩, -- ChannelPage0Mask
  ⟨0x0000003D, .STRUCT, 0, [.EXTERNAL_STORAGE, .NULLABLE], .empty⟩, -- OperationalDatasetComponents
  ⟨0x0000003E, .ARRAY, 0, [.EXTERNAL_STORAGE], .empty⟩, -- ActiveNetworkFaultsList
  ⟨0x0000FFFC, .BITMAP32, 4, [], (.simple 0x000F)⟩, -- FeatureMap
  ⟨0x0000FFFD, .INT16U, 2, [], (.simple 1)⟩ -- ClusterRevision
]

/-- The entries of `GENERATED_ATTRIBUTES` under the comment
`Endpoint: 0, Cluster: AdministratorCommissioning (server)`. -/
def attributes_Endpoint0_AdministratorCommissioning : List EmberAfAttributeMetadata := [
  ⟨0x00000000, .ENUM8, 1, [.EXTERNAL_STORAGE], .empty⟩, -- WindowStatus
  ⟨0x00000001, .FABRIC_IDX, 1, [.EXTERNAL_STORAGE, .NULLABLE], .empty⟩, -- AdminFabricIndex
  ⟨0x00000002, .INT16U, 2, [.EXTERNAL_STORAGE, .NULLABLE], .empty⟩, -- AdminVendorId
  ⟨0x0000FFFC, .BITMAP32, 4, [], (.simple 0)⟩, -- FeatureMap
  ⟨0x0000FFFD, .INT16U, 2, [], (.simple 1)⟩ -- ClusterRevision
]

/-- The entries of `GENERATED_ATTRIBUTES` under the comment
`Endpoint: 0, Cluster: Operational Credentials (server)`. -/
def attributes_Endpoint0_OperationalCredentials : List EmberAfAttributeMetadata := [
  ⟨0x00000000, .ARRAY, 0, [.EXTERNAL_STORAGE], .empty⟩, -- NOCs
  ⟨0x00000001, .ARRAY, 0, [.EXTERNAL_STORAGE], .empty⟩, -- Fabrics
  ⟨0x00000002, .INT8U, 1, [.EXTERNAL_STORAGE], .empty⟩, -- SupportedFabrics
  ⟨0x00000003, .INT8U, 1, [.EXTERNAL_STORAGE], .empty⟩, -- CommissionedFabrics
  ⟨0x00000004, .ARRAY, 0, [.EXTERNAL_STORAGE], .empty⟩, -- TrustedRootCertificates
  ⟨0x00000005, .INT8U, 1, [.EXTERNAL_STORAGE], .empty⟩, -- CurrentFabricIndex
  ⟨0x0000FFFC, .BITMAP32, 4, [], (.simple 0)⟩, -- FeatureMap
  ⟨0x0000FFFD, .INT16U, 2, [], (.simple 1)⟩ -- ClusterRevision
]

/-- The entries of `GENERATED_ATTRIBUTES` under the comment
`Endpoint: 0, Cluster: Group Key Management (server)`. -/
def attributes_Endpoint0_GroupKeyManagement : List EmberAfAttributeMetadata := [
  ⟨0x00000000, .ARRAY, 0, [.EXTERNAL_STORAGE, .WRITABLE], .empty⟩, -- GroupKeyMap
  ⟨0x00000001, .ARRAY, 0, [.EXTERNAL_STORAGE], .empty⟩, -- GroupTable
  ⟨0x00000002, .INT16U, 2, [.EXTERNAL_STORAGE], .empty⟩, -- MaxGroupsPerFabric
  ⟨0x00000003, .INT16U, 2, [.EXTERNAL_STORAGE], .empty⟩, -- MaxGroupKeysPerFabric
  ⟨0x0000FFFC, .BITMAP32, 4, [], (.simple 0)⟩, -- FeatureMap
  ⟨0x0000FFFD, .INT16U, 2, [], (.simple 1)⟩ -- ClusterRevision
]

/-- The entries of `GENERATED_ATTRIBUTES` under the comment
`Endpoint: 1, Cluster: Identify (server)`. -/
def attributes_Endpoint1_Identify : List EmberAfAttributeMetadata := [
  ⟨0x00000000, .INT16U, 2, [.WRITABLE], (.simple 0x0000)⟩, -- identify time
  ⟨0x00000001, .ENUM8, 1, [], (.simple 0x0)⟩, -- identify type
  ⟨0x0000FFFC, .BITMAP32, 4, [], (.simple 0)⟩, -- FeatureMap
  ⟨0x0000FFFD, .INT16U, 2, [], (.simple 4)⟩ -- ClusterRevision
]

/-- The entries of `GENERATED_ATTRIBUTES` under the comment
`Endpoint: 1, Cluster: Groups (server)`. -/
def attributes_Endpoint1_Groups : List EmberAfAttributeMetadata := [
  ⟨0x00000000, .BITMAP8, 1, [], .empty⟩, -- name support
  ⟨0x0000FFFC, .BITMAP32, 4, [], (.simple 0)⟩, -- FeatureMap
  ⟨0x0000FFFD, .INT16U, 2, [], (.simple 4)⟩ -- ClusterRevision
]

/-- The entries of `GENERATED_ATTRIBUTES` under the comment
`Endpoint: 1, Cluster: On/Off (server)`. -/
def attributes_Endpoint1_OnOff : List EmberAfAttributeMetadata := [
  ⟨0x00000000, .BOOLEAN, 1, [.TOKENIZE], (.simple 0x00)⟩, -- OnOff
  ⟨0x00004000, .BOOLEAN, 1, [], (.simple 0x01)⟩, -- GlobalSceneControl
  ⟨0x00004001, .INT16U, 2, [.WRITABLE], (.simple 0x0000)⟩, -- OnTime
  ⟨0x00004002, .INT16U, 2, [.WRITABLE], (.simple 0x0000)⟩, -- OffWaitTime
  ⟨0x00004003, .ENUM8, 1, [.MIN_MAX, .TOKENIZE, .WRITABLE, .NULLABLE], (.minMax 0)⟩, -- StartUpOnOff
  ⟨0x0000FFFC, .BITMAP32, 4, [], (.simple 1)⟩, -- FeatureMap
  ⟨0x0000FFFD, .INT16U, 2, [], (.simple 4)⟩ -- ClusterRevision
]

/-- The entries of `GENERATED_ATTRIBUTES` under the comment
`Endpoint: 1, Cluster: Level Control (server)`. -/
def attributes_Endpoint1_LevelControl : List EmberAfAttributeMetadata := [
  ⟨0x00000000, .INT8U, 1, [.TOKENIZE, .NULLABLE], (.simple 0x01)⟩, -- CurrentLevel
  ⟨0x00000001, .INT16U, 2, [], (.simple 0x0000)⟩, -- RemainingTime
  ⟨0x00000002, .INT8U, 1, [], (.simple 0x01)⟩, -- MinLevel
  ⟨0x00000003, .INT8U, 1, [], (.simple 0xFE)⟩, -- MaxLevel
  ⟨0x0000000F, .BITMAP8, 1, [.MIN_MAX, .WRITABLE], (.minMax 1)⟩, -- Options
  ⟨0x00000011, .INT8U, 1, [.WRITABLE, .NULLABLE], (.simple 0xFF)⟩, -- OnLevel
  ⟨0x00004000, .INT8U, 1, [.TOKENIZE, .WRITABLE, .NULLABLE], (.simple 254)⟩, -- StartUpCurrentLevel
  ⟨0x0000FFFC, .BITMAP32, 4, [], (.simple 3)⟩, -- FeatureMap
  ⟨0x0000FFFD, .INT16U, 2, [], (.simple 5)⟩ -- ClusterRevision
]

/-- The entries of `GENERATED_ATTRIBUTES` under the comment
`Endpoint: 1, Cluster: Descriptor (server)`. -/
def attributes_Endpoint1_Descriptor : List EmberAfAttributeMetadata := [
  ⟨0x00000000, .ARRAY, 0, [.EXTERNAL_STORAGE], .empty⟩, -- device list
  ⟨0x00000001, .ARRAY, 0, [.EXTERNAL_STORAGE], .empty⟩, -- server list
  ⟨0x00000002, .ARRAY, 0, [.EXTERNAL_STORAGE], .empty⟩, -- client list
  ⟨0x00000003, .ARRAY, 0, [.EXTERNAL_STORAGE], .empty⟩, -- parts list
  ⟨0x0000FFFC, .BITMAP32, 4, [], (.simple 0)⟩, -- FeatureMap
  ⟨0x0000FFFD, .INT16U, 2, [.EXTERNAL_STORAGE], .empty⟩ -- ClusterRevision
]

/-- The table `GENERATED_ATTRIBUTES`: the groups of entries in the order of the
header. -/
def GENERATED_ATTRIBUTES : List EmberAfAttributeMetadata :=
  attributes_Endpoint0_Descriptor ++
  attributes_Endpoint0_AccessControl ++
  attributes_Endpoint0_Basic ++
  attributes_Endpoint0_OTASoftwareUpdateRequestor ++
  attributes_Endpoint0_GeneralCommissioning ++
  attributes_Endpoint0_NetworkCommissioning ++
  attributes_Endpoint0_GeneralDiagnostics ++
  attributes_Endpoint0_SoftwareDiagnostics ++
  attributes_Endpoint0_ThreadNetworkDiagnostics ++
  attributes_Endpoint0_AdministratorCommissioning ++
  attributes_Endpoint0_OperationalCredentials ++
  attributes_Endpoint0_GroupKeyManagement ++
  attributes_Endpoint1_Identify ++
  attributes_Endpoint1_Groups ++
  attributes_Endpoint1_OnOff ++
  attributes_Endpoint1_LevelControl ++
  attributes_Endpoint1_Descriptor

/-- The constant `chip::kInvalidCommandId`, which ends every command list
(declared in `lib/core/DataModelTypes.h` as `0xFFFF_FFFF`). -/
def kInvalidCommandId : Nat := 0xFFFFFFFF

/-- The text of `GENERATED_COMMANDS`, item by item: the two kinds of comment and
the array entries. -/
inductive CommandsItem
  /-- A comment `/* Endpoint: e, Cluster: c */`. -/
  | cluster (endpoint : Nat) (name : String)
  /-- A comment `/*   AcceptedCommandList (index=n) */` (`accepted` is true) or
  `/*   GeneratedCommandList (index=n)*/` (`accepted` is false). -/
  | list (accepted : Bool) (index : Nat)
  /-- An entry of the array. -/
  | entry (id : Nat)
  deriving DecidableEq, Repr

/-- The part of `GENERATED_COMMANDS` under the comment
`Endpoint: 0, Cluster: OTA Software Update Requestor (server)`. -/
def commands_Endpoint0_OTASoftwareUpdateRequestor : List CommandsItem := [
  .cluster 0 "OTA Software Update Requestor (server)",
  .list true 0,
  .entry 0x00000000, -- AnnounceOtaProvider
  .entry kInvalidCommandId
]

/-- The part of `GENERATED_COMMANDS` under the comment
`Endpoint: 0, Cluster: General Commissioning (server)`. -/
def commands_Endpoint0_GeneralCommissioning : List CommandsItem := [
  .cluster 0 "General Commissioning (server)",
  .list true 2,
  .entry 0x00000000, -- ArmFailSafe
  .entry 0x00000002, -- SetRegulatoryConfig
  .entry 0x00000004, -- CommissioningComplete
  .entry kInvalidCommandId,
  .list false 6,
  .entry 0x00000001, -- ArmFailSafeResponse
  .entry 0x00000003, -- SetRegulatoryConfigResponse
  .entry 0x00000005, -- CommissioningCompleteResponse
  .entry kInvalidCommandId
]

/-- The part of `GENERATED_COMMANDS` under the comment
`Endpoint: 0, Cluster: Network Commissioning (server)`. -/
def commands_Endpoint0_NetworkCommissioning : List CommandsItem := [
  .cluster 0 "Network Commissioning (server)",
  .list true 10,
  .entry 0x00000000, -- ScanNetworks
  .entry 0x00000003, -- AddOrUpdateThreadNetwork
  .entry 0x00000004, -- RemoveNetwork
  .entry 0x00000006, -- ConnectNetwork
  .entry 0x00000008, -- ReorderNetwork
  .entry kInvalidCommandId,
  .list false 16,
  .entry 0x00000001, -- ScanNetworksResponse
  .entry 0x00000005, -- NetworkConfigResponse
  .entry 0x00000007, -- ConnectNetworkResponse
  .entry kInvalidCommandId
]

/-- The part of `GENERATED_COMMANDS` under the comment
`Endpoint: 0, Cluster: General Diagnostics (server)`. -/
def commands_Endpoint0_GeneralDiagnostics : List CommandsItem := [
  .cluster 0 "General Diagnostics (server)",
  .list true 20,
  .entry 0x00000000, -- TestEventTrigger
  .entry kInvalidCommandId
]

/-- The part of `GENERATED_COMMANDS` under the comment
`Endpoint: 0, Cluster: Software Diagnostics (server)`. -/
def commands_Endpoint0_SoftwareDiagnostics : List CommandsItem := [
  .cluster 0 "Software Diagnostics (server)",
  .list true 22,
  .entry 0x00000000, -- ResetWatermarks
  .entry kInvalidCommandId
]

/-- The part of `GENERATED_COMMANDS` under the comment
`Endpoint: 0, Cluster: Thread Network Diagnostics (server)`. -/
def commands_Endpoint0_ThreadNetworkDiagnostics : List CommandsItem := [
  .cluster 0 "Thread Network Diagnostics (server)",
  .list true 24,
  .entry 0x00000000, -- ResetCounts
  .entry kInvalidCommandId
]

/-- The part of `GENERATED_COMMANDS` under the comment
`Endpoint: 0, Cluster: AdministratorCommissioning (server)`. -/
def commands_Endpoint0_AdministratorCommissioning : List CommandsItem := [
  .cluster 0 "AdministratorCommissioning (server)",
  .list true 26,
  .entry 0x00000000, -- OpenCommissioningWindow
  .entry 0x00000002, -- RevokeCommissioning
  .entry kInvalidCommandId
]

/-- The part of `GENERATED_COMMANDS` under the comment
`Endpoint: 0, Cluster: Operational Credentials (server)`. -/
def commands_Endpoint0_OperationalCredentials : List CommandsItem := [
  .cluster 0 "Operational Credentials (server)",
  .list true 29,
  .entry 0x00000000, -- AttestationRequest
  .entry 0x00000002, -- CertificateChainRequest
  .entry 0x00000004, -- CSRRequest
  .entry 0x00000006, -- AddNOC
  .entry 0x00000007, -- UpdateNOC
  .entry 0x00000009, -- UpdateFabricLabel
  .entry 0x0000000A, -- RemoveFabric
  .entry 0x0000000B, -- AddTrustedRootCertificate
  .entry kInvalidCommandId,
  .list false 38,
  .entry 0x00000001, -- AttestationResponse
  .entry 0x00000003, -- CertificateChainResponse
  .entry 0x00000005, -- CSRResponse
  .entry 0x00000008, -- NOCResponse
  .entry kInvalidCommandId
]

/-- The part of `GENERATED_COMMANDS` under the comment
`Endpoint: 0, Cluster: Group Key Management (server)`. -/
def commands_Endpoint0_GroupKeyManagement : List CommandsItem := [
  .cluster 0 "Group Key Management (server)",
  .list true 43,
  .entry 0x00000000, -- KeySetWrite
  .entry 0x00000001, -- KeySetRead
  .entry 0x00000003, -- KeySetRemove
  .entry 0x00000004, -- KeySetReadAllIndices
  .entry kInvalidCommandId,
  .list false 48,
  .entry 0x00000002, -- KeySetReadResponse
  .entry 0x00000005, -- KeySetReadAllIndicesResponse
  .entry kInvalidCommandId
]

/-- The part of `GENERATED_COMMANDS` under the comment
`Endpoint: 1, Cluster: Identify (server)`. -/
def commands_Endpoint1_Identify : List CommandsItem := [
  .cluster 1 "Identify (server)",
  .list true 51,
  .entry 0x00000000, -- Identify
  .entry 0x00000040, -- TriggerEffect
  .entry kInvalidCommandId
]

/-- The part of `GENERATED_COMMANDS` under the comment
`Endpoint: 1, Cluster: Groups (server)`. -/
def commands_Endpoint1_Groups : List CommandsItem := [
  .cluster 1 "Groups (server)",
  .list true 54,
  .entry 0x00000000, -- AddGroup
  .entry 0x00000001, -- ViewGroup
  .entry 0x00000002, -- GetGroupMembership
  .entry 0x00000003, -- RemoveGroup
  .entry 0x00000004, -- RemoveAllGroups
  .entry 0x00000005, -- AddGroupIfIdentifying
  .entry kInvalidCommandId,
  .list false 61,
  .entry 0x00000000, -- AddGroupResponse
  .entry 0x00000001, -- ViewGroupResponse
  .entry 0x00000002, -- GetGroupMembershipResponse
  .entry 0x00000003, -- RemoveGroupResponse
  .entry kInvalidCommandId
]

/-- The part of `GENERATED_COMMANDS` under the comment
`Endpoint: 1, Cluster: On/Off (server)`. -/
def commands_Endpoint1_OnOff : List CommandsItem := [
  .cluster 1 "On/Off (server)",
  .list true 66,
  .entry 0x00000000, -- Off
  .entry 0x00000001, -- On
  .entry 0x00000002, -- Toggle
  .entry 0x00000040, -- OffWithEffect
  .entry 0x00000041, -- OnWithRecallGlobalScene
  .entry 0x00000042, -- OnWithTimedOff
  .entry kInvalidCommandId
]

/-- The part of `GENERATED_COMMANDS` under the comment
`Endpoint: 1, Cluster: Level Control (server)`. -/
def commands_Endpoint1_LevelControl : List CommandsItem := [
  .cluster 1 "Level Control (server)",
  .list true 73,
  .entry 0x00000000, -- MoveToLevel
  .entry 0x00000001, -- Move
  .entry 0x00000002, -- Step
  .entry 0x00000003, -- Stop
  .entry 0x00000004, -- MoveToLevelWithOnOff
  .entry 0x00000005, -- MoveWithOnOff
  .entry 0x00000006, -- StepWithOnOff
  .entry 0x00000007, -- StopWithOnOff
  .entry kInvalidCommandId
]

/-- The macro `GENERATED_COMMANDS` with its comments: the parts in the order of
the header. -/
def GENERATED_COMMANDS_TEXT : List CommandsItem :=
  commands_Endpoint0_OTASoftwareUpdateRequestor ++
  commands_Endpoint0_GeneralCommissioning ++
  commands_Endpoint0_NetworkCommissioning ++
  commands_Endpoint0_GeneralDiagnostics ++
  commands_Endpoint0_SoftwareDiagnostics ++
  commands_Endpoint0_ThreadNetworkDiagnostics ++
  commands_Endpoint0_AdministratorCommissioning ++
  commands_Endpoint0_OperationalCredentials ++
  commands_Endpoint0_GroupKeyManagement ++
  commands_Endpoint1_Identify ++
  commands_Endpoint1_Groups ++
  commands_Endpoint1_OnOff ++
  commands_Endpoint1_LevelControl

/-- The array `GENERATED_COMMANDS`: the entries of the text, in order. -/
def GENERATED_COMMANDS : List Nat :=
  GENERATED_COMMANDS_TEXT.filterMap (fun item =>
    match item with
    | CommandsItem.entry id => some id
    | _ => none)

/-- Arguments of `ZAP_CLUSTER_MASK` that occur in the header. -/
inductive ZAP_CLUSTER_MASK
  | SERVER
  | INIT_FUNCTION
  | CLIENT
  | ATTRIBUTE_CHANGED_FUNCTION
  deriving DecidableEq, Repr

/-- An entry of `GENERATED_CLUSTERS` (an `EmberAfCluster`), preceded by the
endpoint and the cluster named in the comment of the entry.  `attributes` is
the argument of `ZAP_ATTRIBUTE_INDEX`; a command list is the argument of
`ZAP_GENERATED_COMMANDS_INDEX`, or `none` for `nullptr`; `functions` is `none`
for `NULL`. -/
structure EmberAfCluster where
  endpoint : Nat
  name : String
  clusterId : Nat
  attributes : Nat
  attributeCount : Nat
  clusterSize : Nat
  mask : List ZAP_CLUSTER_MASK
  functions : Option String
  acceptedCommandList : Option Nat
  generatedCommandList : Option Nat
  deriving DecidableEq, Repr

/-- The constant `GENERATED_CLUSTER_COUNT`. -/
def GENERATED_CLUSTER_COUNT : Nat := 18

/-- The table `GENERATED_CLUSTERS`. -/
def GENERATED_CLUSTERS : List EmberAfCluster := [
  ⟨0, "Descriptor (server)", 0x0000001D, 0, 6, 4,
    [.SERVER], none, none, none⟩,
  ⟨0, "Access Control (server)", 0x0000001F, 6, 6, 6,
    [.SERVER], none, none, none⟩,
  ⟨0, "Basic (server)", 0x00000028, 12, 14, 39,
    [.SERVER, .INIT_FUNCTION], (some "chipFuncArrayBasicServer"), none, none⟩,
  ⟨0, "OTA Software Update Provider (client)", 0x00000029, 26, 0, 0,
    [.CLIENT], none, none, none⟩,
  ⟨0, "OTA Software Update Requestor (server)", 0x0000002A, 26, 6, 9,
    [.SERVER], none, (some 0), none⟩,
  ⟨0, "General Commissioning (server)", 0x00000030, 32, 7, 14,
    [.SERVER], none, (some 2), (some 6)⟩,
  ⟨0, "Network Commissioning (server)", 0x00000031, 39, 10, 48,
    [.SERVER], none, (some 10), (some 16)⟩,
  ⟨0, "General Diagnostics (server)", 0x00000033, 49, 5, 6,
    [.SERVER], none, (some 20), none⟩,
  ⟨0, "Software Diagnostics (server)", 0x00000034, 54, 6, 6,
    [.SERVER], none, (some 22), none⟩,
  ⟨0, "Thread Network Diagnostics (server)", 0x00000035, 60, 62, 6,
    [.SERVER], none, (some 24), none⟩,
  ⟨0, "AdministratorCommissioning (server)", 0x0000003C, 122, 5, 6,
    [.SERVER], none, (some 26), none⟩,
  ⟨0, "Operational Credentials (server)", 0x0000003E, 127, 8, 6,
    [.SERVER], none, (some 29), (some 38)⟩,
  ⟨0, "Group Key Management (server)", 0x0000003F, 135, 6, 6,
    [.SERVER], none, (some 43), (some 48)⟩,
  ⟨1, "Identify (server)", 0x00000003, 141, 4, 9,
    [.SERVER, .INIT_FUNCTION, .ATTRIBUTE_CHANGED_FUNCTION], (some "chipFuncArrayIdentifyServer"), (some 51), none⟩,
  ⟨1, "Groups (server)", 0x00000004, 145, 3, 7,
    [.SERVER, .INIT_FUNCTION], (some "chipFuncArrayGroupsServer"), (some 54), (some 61)⟩,
  ⟨1, "On/Off (server)", 0x00000006, 148, 7, 13,
    [.SERVER, .INIT_FUNCTION], (some "chipFuncArrayOnOffServer"), (some 66), none⟩,
  ⟨1, "Level Control (server)", 0x00000008, 155, 9, 14,
    [.SERVER, .INIT_FUNCTION], (some "chipFuncArrayLevelControlServer"), (some 73), none⟩,
  ⟨1, "Descriptor (server)", 0x0000001D, 164, 6, 4,
    [.SERVER], none, none, none⟩
]

/-- An entry of `GENERATED_ENDPOINT_TYPES` (an `EmberAfEndpointType`): the
argument of `ZAP_CLUSTER_INDEX`, the number of clusters and the size of the
endpoint's attribute storage. -/
structure EmberAfEndpointType where
  cluster : Nat
  clusterCount : Nat
  endpointSize : Nat
  deriving DecidableEq, Repr

/-- The table `GENERATED_ENDPOINT_TYPES`. -/
def GENERATED_ENDPOINT_TYPES : List EmberAfEndpointType := [
  ⟨0, 13, 156⟩,
  ⟨13, 5, 47⟩
]

/-- The constant `ATTRIBUTE_LARGEST`: "Largest attribute size is needed for
various buffers". -/
def ATTRIBUTE_LARGEST : Nat := 66

/-- The constant `ATTRIBUTE_SINGLETONS_SIZE`: "Total size of singleton
attributes". -/
def ATTRIBUTE_SINGLETONS_SIZE : Nat := 35

/-- The constant `ATTRIBUTE_MAX_SIZE`: "Total size of attribute storage". -/
def ATTRIBUTE_MAX_SIZE : Nat := 203

/-- The constant `FIXED_ENDPOINT_COUNT`: "Number of fixed endpoints". -/
def FIXED_ENDPOINT_COUNT : Nat := 2

/-- A comment of `GENERATED_COMMANDS` that announces a command list: the
endpoint and cluster of the cluster comment it stands under, its kind, the
index it states, and its position, the number of array entries before it. -/
structure CommandListComment where
  endpoint : Nat
  name : String
  accepted : Bool
  index : Nat
  position : Nat
  deriving DecidableEq, Repr

/-- The command-list comments of a text, read from the top; `endpoint` and
`name` are those of the last cluster comment seen and `position` counts the
array entries passed. -/
def commandListComments :
    List CommandsItem → Nat → String → Nat → List CommandListComment
  | [], _, _, _ => []
  | CommandsItem.cluster e n :: rest, _, _, position =>
    commandListComments rest e n position
  | CommandsItem.list accepted index :: rest, endpoint, name, position =>
    ⟨endpoint, name, accepted, index, position⟩ ::
      commandListComments rest endpoint name position
  | CommandsItem.entry _ :: rest, endpoint, name, position =>
    commandListComments rest endpoint name (position + 1)

/-- The command lists a cluster points to: for each list that is not `nullptr`,
whether it is the accepted list and the index given. -/
def EmberAfCluster.commandLists (c : EmberAfCluster) : List (Bool × Nat) :=
  (c.acceptedCommandList.toList.map (fun k => (true, k))) ++
    (c.generatedCommandList.toList.map (fun k => (false, k)))

/-- Whether the mask of an attribute includes a flag. -/
def EmberAfAttributeMetadata.hasMask (a : EmberAfAttributeMetadata)
    (flag : ZAP_ATTRIBUTE_MASK) : Bool :=
  a.mask.contains flag

/-- The entries of `GENERATED_ATTRIBUTES` a cluster points to: `attributeCount`
entries from `ZAP_ATTRIBUTE_INDEX(attributes)` on. -/
def EmberAfCluster.attributeRange (c : EmberAfCluster) : List EmberAfAttributeMetadata :=
  (GENERATED_ATTRIBUTES.drop c.attributes).take c.attributeCount

/-- The `size` fields of a list of attributes. -/
def sizes (attrs : List EmberAfAttributeMetadata) : List Nat :=
  attrs.map (fun a => a.size)

end EndpointConfig

namespace EccTesting

/-! ## Basic facts -/

theorem IsSuccess_iff (s : Nat) : IsSuccess s = true ↔ s = 0 := by
  simp [IsSuccess]

theorem IsSuccess_ne (s : Nat) : IsSuccess (boolToInt (s != CHIP_NO_ERROR)) = true ↔ s = 0 := by
  by_cases h : s = 0 <;> simp [IsSuccess, boolToInt, CHIP_NO_ERROR, h]

theorem add32_add32 (s a b : Nat) : add32 (add32 s a) b = add32 s (a + b) := by
  unfold add32
  omega

theorem accumulate_eq (d : Nat → Nat) : ∀ (n i sum : Nat),
    accumulate d n i sum % 2 ^ 32 = (sum + ∑ k in Finset.range n, d (i + k)) % 2 ^ 32 := by
  intro n
  induction n with
  | zero => intro i sum; simp [accumulate]
  | succ n ih =>
    intro i sum
    rw [accumulate, ih, Finset.sum_range_succ']
    have : ∀ k, i + 1 + k = i + (k + 1) := by intro k; omega
    simp only [this, add32, Nat.add_zero]
    omega

theorem accumulate_lt (d : Nat → Nat) : ∀ (n i sum : Nat), sum < 2 ^ 32 →
    accumulate d n i sum < 2 ^ 32 := by
  intro n
  induction n with
  | zero => intro i sum h; simpa [accumulate] using h
  | succ n ih =>
    intro i sum _
    rw [accumulate]
    exact ih _ _ (Nat.mod_lt _ (by norm_num))

theorem accumulate_zero (d : Nat → Nat) (n : Nat) :
    accumulate d n 0 0 = (∑ k in Finset.range n, d k) % 2 ^ 32 := by
  have h1 := accumulate_eq d n 0 0
  have h2 := accumulate_lt d n 0 0 (by norm_num)
  rw [Nat.mod_eq_of_lt h2] at h1
  simpa using h1

theorem failFast_nil : FailFast [] := by
  intro pre c post h
  simp at h

theorem failFast_singleton (c : Site × Nat × CHIP_ERROR) : FailFast [c] := by
  intro pre d post h _
  cases pre with
  | nil =>
    simp at h
    exact h.2
  | cons p pre => simp at h

theorem failFast_cons (c : Site × Nat × CHIP_ERROR) (l : List (Site × Nat × CHIP_ERROR))
    (hc : c.2.2 = CHIP_NO_ERROR) (hl : FailFast l) : FailFast (c :: l) := by
  intro pre d post h hd
  cases pre with
  | nil =>
    simp at h
    exact absurd (h.1 ▸ hc) hd
  | cons p pre =>
    simp at h
    exact hl pre d post h.2 hd

theorem cryptoCalls_append (a b : List Event) :
    cryptoCalls (a ++ b) = cryptoCalls a ++ cryptoCalls b := by
  simp [cryptoCalls]

/-- The function `memcmpWide` is zero exactly on buffers that agree on their
first `n` bytes, as the C standard asks of `memcmp`. -/
theorem memcmpWide_eq_zero_iff : ∀ (a b : List Nat) (n : Nat), n ≤ a.length → n ≤ b.length →
    (memcmpWide a b n = 0 ↔ a.take n = b.take n) := by
  intro a
  induction a with
  | nil =>
    intro b n ha _
    have : n = 0 := by simpa using ha
    subst this
    simp [memcmpWide]
  | cons x xs ih =>
    intro b n ha hb
    cases n with
    | zero => simp [memcmpWide]
    | succ n =>
      cases b with
      | nil => simp at hb
      | cons y ys =>
        simp only [List.length_cons, Nat.add_le_add_iff_right] at ha hb
        rw [memcmpWide]
        by_cases hxy : x = y
        · simp [hxy, ih ys n ha hb]
        · by_cases hlt : x < y <;> simp [hxy, hlt]

theorem envOk_iterationOk (j : Nat) : ecdhIterationOk envOk j := by
  refine ⟨rfl, rfl, rfl, rfl, rfl, ?_⟩
  show toUInt8 (memcmpBytes (List.replicate 32 0x5A) (List.replicate 32 0x5A) 32) = 0
  decide

theorem envOk_sentinel :
    toUInt8 (envOk.memcmp (0 :: envOk.garbage1) (1 :: envOk.garbage2)
      kMax_ECDH_Secret_Length) ≠ 0 := by
  decide

/-! ## Facts about `TestECDSA_KeyGeneration` -/

theorem keyGenLoop_succ (env : Env) (n i sum e : Nat) :
    keyGenLoop env (n + 1) i sum e =
      if env.status Site.keyGenInitialize i = 0 then
        ([Event.now (env.start Site.keyGenInitialize i),
          Event.call Site.keyGenInitialize i (env.status Site.keyGenInitialize i),
          Event.now (env.stop Site.keyGenInitialize i)] ++
          (keyGenLoop env n (i + 1)
            (add32 sum (sub32 (env.stop Site.keyGenInitialize i)
              (env.start Site.keyGenInitialize i))) (env.status Site.keyGenInitialize i)).1,
         (keyGenLoop env n (i + 1)
            (add32 sum (sub32 (env.stop Site.keyGenInitialize i)
              (env.start Site.keyGenInitialize i))) (env.status Site.keyGenInitialize i)).2)
      else
        ([Event.now (env.start Site.keyGenInitialize i),
          Event.call Site.keyGenInitialize i (env.status Site.keyGenInitialize i),
          Event.now (env.stop Site.keyGenInitialize i)],
         Flow.exit (env.status Site.keyGenInitialize i)) := by
  rw [keyGenLoop]
  by_cases h : env.status Site.keyGenInitialize i = 0 <;> simp [IsSuccess_ne, h]

theorem keyGenLoop_ok (env : Env) : ∀ (n i sum e : Nat),
    (∀ k, k < n → env.status Site.keyGenInitialize (i + k) = 0) →
    (keyGenLoop env n i sum e).2 =
      Flow.done (accumulate (fun j => sub32 (env.stop Site.keyGenInitialize j)
        (env.start Site.keyGenInitialize j)) n i sum, if n = 0 then e else 0) := by
  intro n
  induction n with
  | zero => intro i sum e _; simp [keyGenLoop, accumulate]
  | succ n ih =>
    intro i sum e h
    have h0 : env.status Site.keyGenInitialize i = 0 := by simpa using h 0 (Nat.succ_pos n)
    rw [keyGenLoop_succ, if_pos h0]
    simp only []
    rw [ih]
    · simp only [accumulate, h0]
      by_cases hn : n = 0 <;> simp [hn]
    · intro k hk
      have := h (k + 1) (by omega)
      rwa [show i + 1 + k = i + (k + 1) by omega]

theorem keyGenLoop_fail (env : Env) : ∀ (k n i sum e : Nat), k < n →
    env.status Site.keyGenInitialize (i + k) ≠ 0 →
    (∀ j, j < k → env.status Site.keyGenInitialize (i + j) = 0) →
    (keyGenLoop env n i sum e).2 = Flow.exit (env.status Site.keyGenInitialize (i + k)) := by
  intro k
  induction k with
  | zero =>
    intro n i sum e hn hk _
    obtain ⟨m, rfl⟩ : ∃ m, n = m + 1 := ⟨n - 1, by omega⟩
    rw [keyGenLoop_succ, if_neg (by simpa using hk)]
    simp
  | succ k ih =>
    intro n i sum e hn hk hlt
    obtain ⟨m, rfl⟩ : ∃ m, n = m + 1 := ⟨n - 1, by omega⟩
    have h0 : env.status Site.keyGenInitialize i = 0 := by simpa using hlt 0 (Nat.succ_pos k)
    rw [keyGenLoop_succ, if_pos h0]
    simp only []
    rw [ih m (i + 1) _ _ (by omega)]
    · rw [show i + 1 + k = i + (k + 1) by omega]
    · rwa [show i + 1 + k = i + (k + 1) by omega]
    · intro j hj
      have := hlt (j + 1) (by omega)
      rwa [show i + 1 + j = i + (j + 1) by omega]

theorem keyGenLoop_failFast (env : Env) : ∀ (n i sum e : Nat),
    FailFast (cryptoCalls (keyGenLoop env n i sum e).1) := by
  intro n
  induction n with
  | zero => intro i sum e; simpa [keyGenLoop, cryptoCalls] using failFast_nil
  | succ n ih =>
    intro i sum e
    rw [keyGenLoop_succ]
    split_ifs with h1
    · simp only [cryptoCalls, List.filterMap_append, List.filterMap_cons, Event.asCall,
        List.filterMap_nil, List.cons_append, List.nil_append]
      exact failFast_cons _ _ h1 (ih _ _ _)
    · simp only [cryptoCalls, List.filterMap_cons, Event.asCall, List.filterMap_nil]
      exact failFast_singleton _

theorem keyGenLoop_trace_ok (env : Env) : ∀ (n i sum e : Nat),
    (∀ j, i ≤ j → j < i + n → env.status Site.keyGenInitialize j = 0) →
    (keyGenLoop env n i sum e).1 =
      (List.range' i n).flatMap (fun j =>
        [Event.now (env.start Site.keyGenInitialize j),
         Event.call Site.keyGenInitialize j CHIP_NO_ERROR,
         Event.now (env.stop Site.keyGenInitialize j)]) := by
  intro n
  induction n with
  | zero => intro i sum e _; simp [keyGenLoop]
  | succ n ih =>
    intro i sum e h
    have h0 : env.status Site.keyGenInitialize i = 0 := h i (le_refl i) (by omega)
    rw [keyGenLoop_succ, if_pos h0]
    simp only [List.range'_succ, List.flatMap_cons]
    rw [ih _ _ _ (fun j h1 h2 => h j (by omega) (by omega)), h0]
    rfl

theorem keyGen_ret_ok (env : Env) (N : Nat) (hN : 1 ≤ N)
    (h : ∀ i, i < N → env.status Site.keyGenInitialize i = 0) :
    (TestECDSA_KeyGeneration env N).ret = some 0 := by
  have hl := keyGenLoop_ok env N 0 0 CHIP_NO_ERROR (by simpa using h)
  unfold TestECDSA_KeyGeneration
  rcases hloop : keyGenLoop env N 0 0 CHIP_NO_ERROR with ⟨tr, fl⟩
  rw [hloop] at hl
  simp only at hl
  subst hl
  have hN0 : N ≠ 0 := by omega
  simp [div32, hN0]

theorem keyGen_ret_fail (env : Env) (N k : Nat) (hk : k < N)
    (hne : env.status Site.keyGenInitialize k ≠ 0)
    (hlt : ∀ j, j < k → env.status Site.keyGenInitialize j = 0) :
    (TestECDSA_KeyGeneration env N).ret = some (env.status Site.keyGenInitialize k) := by
  have hl := keyGenLoop_fail env k N 0 0 CHIP_NO_ERROR hk (by simpa using hne) (by simpa using hlt)
  unfold TestECDSA_KeyGeneration
  rcases hloop : keyGenLoop env N 0 0 CHIP_NO_ERROR with ⟨tr, fl⟩
  rw [hloop] at hl
  simp only at hl
  subst hl
  simp

theorem keyGen_run_ok (env : Env) (N : Nat) (hN : 1 ≤ N)
    (hok : ∀ i, i < N → env.status Site.keyGenInitialize i = CHIP_NO_ERROR) :
    TestECDSA_KeyGeneration env N =
      ⟨[Event.log "Start ECDSA key generation test" none] ++
        (List.range N).flatMap (fun i =>
          [Event.now (env.start Site.keyGenInitialize i),
           Event.call Site.keyGenInitialize i CHIP_NO_ERROR,
           Event.now (env.stop Site.keyGenInitialize i)]) ++
        [Event.log "ECDSA key generation time: %lu"
          (some ((∑ i in Finset.range N, sub32 (env.stop Site.keyGenInitialize i)
            (env.start Site.keyGenInitialize i)) % 2 ^ 32 / N))],
       some CHIP_NO_ERROR⟩ := by
  have h1 := keyGenLoop_ok env N 0 0 CHIP_NO_ERROR (by simpa using hok)
  have h2 := keyGenLoop_trace_ok env N 0 0 CHIP_NO_ERROR (fun j _ h => hok j (by omega))
  have hN0 : N ≠ 0 := by omega
  unfold TestECDSA_KeyGeneration
  rcases hloop : keyGenLoop env N 0 0 CHIP_NO_ERROR with ⟨tr, fl⟩
  rw [hloop] at h1 h2
  simp only at h1 h2
  subst h1 h2
  simp only [div32, hN0, if_false, accumulate_zero, List.range_eq_range', CHIP_NO_ERROR]

theorem keyGen_ret_ne_none (env : Env) (N : Nat) (hN : 1 ≤ N) :
    (TestECDSA_KeyGeneration env N).ret ≠ none := by
  have hN0 : N ≠ 0 := by omega
  unfold TestECDSA_KeyGeneration
  rcases keyGenLoop env N 0 0 CHIP_NO_ERROR with ⟨tr, fl⟩
  rcases fl with ⟨sum, e⟩ | e <;> simp [div32, hN0]

theorem keyGen_failFast (env : Env) (N : Nat) :
    FailFast (cryptoCalls (TestECDSA_KeyGeneration env N).trace) := by
  have hl := keyGenLoop_failFast env N 0 0 CHIP_NO_ERROR
  unfold TestECDSA_KeyGeneration
  generalize keyGenLoop env N 0 0 CHIP_NO_ERROR = r at hl ⊢
  rcases r with ⟨tr, fl⟩
  rcases fl with ⟨sum, e⟩ | e
  · cases hd : div32 sum N <;>
      simpa [hd, cryptoCalls_append, cryptoCalls, Event.asCall] using hl
  · simpa [cryptoCalls_append, cryptoCalls, Event.asCall] using hl

/-! ## Facts about `TestECDSA_Sign_and_Verify` -/

theorem signVerifyLoop_succ (env : Env) (error n i ss vs : Nat) :
    signVerifyLoop env error (n + 1) i ss vs =
      if env.status Site.sign i = 0 then
        if env.status Site.validate i = 0 then
          ([Event.now (env.start Site.sign i), Event.call Site.sign i (env.status Site.sign i),
            Event.now (env.stop Site.sign i), Event.delay,
            Event.now (env.start Site.validate i),
            Event.call Site.validate i (env.status Site.validate i),
            Event.now (env.stop Site.validate i), Event.delay] ++
            (signVerifyLoop env error n (i + 1)
              (add32 ss (sub32 (env.stop Site.sign i) (env.start Site.sign i)))
              (add32 vs (sub32 (env.stop Site.validate i) (env.start Site.validate i)))).1,
           (signVerifyLoop env error n (i + 1)
              (add32 ss (sub32 (env.stop Site.sign i) (env.start Site.sign i)))
              (add32 vs (sub32 (env.stop Site.validate i) (env.start Site.validate i)))).2)
        else
          ([Event.now (env.start Site.sign i), Event.call Site.sign i (env.status Site.sign i),
            Event.now (env.stop Site.sign i), Event.delay,
            Event.now (env.start Site.validate i),
            Event.call Site.validate i (env.status Site.validate i),
            Event.now (env.stop Site.validate i)], Flow.exit error)
      else
        ([Event.now (env.start Site.sign i), Event.call Site.sign i (env.status Site.sign i),
          Event.now (env.stop Site.sign i)], Flow.exit error) := by
  rw [signVerifyLoop]
  by_cases h1 : env.status Site.sign i = 0 <;> by_cases h2 : env.status Site.validate i = 0 <;>
    simp [IsSuccess_iff, h1, h2]

theorem signVerifyLoop_failFast (env : Env) (error : Nat) : ∀ (n i ss vs : Nat),
    FailFast (cryptoCalls (signVerifyLoop env error n i ss vs).1) := by
  intro n
  induction n with
  | zero => intro i ss vs; simpa [signVerifyLoop, cryptoCalls] using failFast_nil
  | succ n ih =>
    intro i ss vs
    rw [signVerifyLoop_succ]
    split_ifs with h1 h2
    · have := ih (i + 1) (add32 ss (sub32 (env.stop Site.sign i) (env.start Site.sign i)))
        (add32 vs (sub32 (env.stop Site.validate i) (env.start Site.validate i)))
      simp only [cryptoCalls, List.filterMap_append, List.filterMap_cons, Event.asCall,
        List.filterMap_nil, List.cons_append, List.nil_append] at this ⊢
      exact failFast_cons _ _ h1 (failFast_cons _ _ h2 this)
    · simp only [cryptoCalls, List.filterMap_cons, Event.asCall, List.filterMap_nil]
      exact failFast_cons _ _ h1 (failFast_singleton _)
    · simp only [cryptoCalls, List.filterMap_cons, Event.asCall, List.filterMap_nil]
      exact failFast_singleton _

theorem signVerifyLoop_exit (env : Env) (error : Nat) : ∀ (n i ss vs e : Nat),
    (signVerifyLoop env error n i ss vs).2 = Flow.exit e → e = error := by
  intro n
  induction n with
  | zero => intro i ss vs e h; simp [signVerifyLoop] at h
  | succ n ih =>
    intro i ss vs e h
    rw [signVerifyLoop_succ] at h
    split_ifs at h with h1 h2
    · exact ih _ _ _ _ h
    · simpa using h.symm
    · simpa using h.symm

theorem signVerifyLoop_ok (env : Env) (error : Nat) : ∀ (n i ss vs : Nat),
    (∀ j, i ≤ j → j < i + n →
      env.status Site.sign j = 0 ∧ env.status Site.validate j = 0) →
    signVerifyLoop env error n i ss vs =
      ((List.range' i n).flatMap (fun j =>
        [Event.now (env.start Site.sign j), Event.call Site.sign j CHIP_NO_ERROR,
         Event.now (env.stop Site.sign j), Event.delay,
         Event.now (env.start Site.validate j), Event.call Site.validate j CHIP_NO_ERROR,
         Event.now (env.stop Site.validate j), Event.delay]),
       Flow.done
        (accumulate (fun j => sub32 (env.stop Site.sign j) (env.start Site.sign j)) n i ss,
         accumulate (fun j => sub32 (env.stop Site.validate j) (env.start Site.validate j))
          n i vs)) := by
  intro n
  induction n with
  | zero => intro i ss vs _; simp [signVerifyLoop, accumulate]
  | succ n ih =>
    intro i ss vs h
    obtain ⟨h1, h2⟩ := h i (le_refl i) (by omega)
    rw [signVerifyLoop_succ, if_pos h1, if_pos h2]
    simp only [List.range'_succ, List.flatMap_cons]
    rw [ih _ _ _ (fun j h1 h2 => h j (by omega) (by omega)), h1, h2]
    rfl

theorem signVerify_run_ok (env : Env) (N : Nat) (hN : 1 ≤ N)
    (hinit : env.status Site.signVerifyInitialize 0 = CHIP_NO_ERROR)
    (hok : ∀ i, i < N →
      env.status Site.sign i = CHIP_NO_ERROR ∧ env.status Site.validate i = CHIP_NO_ERROR) :
    TestECDSA_Sign_and_Verify env N =
      ⟨[Event.log "Start ECDSA Sign and Verify test" none,
        Event.call Site.signVerifyInitialize 0 CHIP_NO_ERROR] ++
        (List.range N).flatMap (fun i =>
          [Event.now (env.start Site.sign i), Event.call Site.sign i CHIP_NO_ERROR,
           Event.now (env.stop Site.sign i), Event.delay,
           Event.now (env.start Site.validate i), Event.call Site.validate i CHIP_NO_ERROR,
           Event.now (env.stop Site.validate i), Event.delay]) ++
        [Event.log "ECDSA sign time: %lu"
          (some ((∑ i in Finset.range N,
            sub32 (env.stop Site.sign i) (env.start Site.sign i)) % 2 ^ 32 / N)),
         Event.log "ECDSA validate signature time: %lu"
          (some ((∑ i in Finset.range N,
            sub32 (env.stop Site.validate i) (env.start Site.validate i)) % 2 ^ 32 / N))],
       some CHIP_NO_ERROR⟩ := by
  have hl := signVerifyLoop_ok env (env.status Site.signVerifyInitialize 0) N 0 0 0
    (fun j _ h => hok j (by omega))
  have hN0 : N ≠ 0 := by omega
  have hi : IsSuccess (env.status Site.signVerifyInitialize 0) = true := by
    rw [IsSuccess_iff]; exact hinit
  unfold TestECDSA_Sign_and_Verify
  simp only [hi, if_true, hl, div32, hN0, if_false, accumulate_zero, List.range_eq_range']
  rw [hinit]

theorem signVerify_ret_ne_none (env : Env) (N : Nat) (hN : 1 ≤ N) :
    (TestECDSA_Sign_and_Verify env N).ret ≠ none := by
  have hN0 : N ≠ 0 := by omega
  unfold TestECDSA_Sign_and_Verify
  simp only []
  split_ifs with hi
  · rcases signVerifyLoop env (env.status Site.signVerifyInitialize 0) N 0 0 0 with ⟨tr, fl⟩
    rcases fl with ⟨ss, vs⟩ | e <;> simp [div32, hN0]
  · simp

/-- Extent of the defect behind C1: whenever the initial `Initialize` succeeds
and `N ≥ 1`, `TestECDSA_Sign_and_Verify` returns `CHIP_NO_ERROR`, whatever the
sign and verify calls return. -/
theorem signVerify_ret_of_init_ok (env : Env) (N : Nat) (hN : 1 ≤ N)
    (hinit : env.status Site.signVerifyInitialize 0 = CHIP_NO_ERROR) :
    (TestECDSA_Sign_and_Verify env N).ret = some CHIP_NO_ERROR := by
  have hN0 : N ≠ 0 := by omega
  have hi : IsSuccess (env.status Site.signVerifyInitialize 0) = true := by
    rw [IsSuccess_iff]; exact hinit
  unfold TestECDSA_Sign_and_Verify
  simp only [hi, if_true]
  rcases hloop : signVerifyLoop env (env.status Site.signVerifyInitialize 0) N 0 0 0
    with ⟨tr, fl⟩
  rcases fl with ⟨ss, vs⟩ | e
  · simp [div32, hN0, hinit]
  · have := signVerifyLoop_exit env _ N 0 0 0 e (by rw [hloop])
    simp [this, hinit]

theorem signVerify_failFast (env : Env) (N : Nat) :
    FailFast (cryptoCalls (TestECDSA_Sign_and_Verify env N).trace) := by
  have hl := signVerifyLoop_failFast env (env.status Site.signVerifyInitialize 0) N 0 0 0
  unfold TestECDSA_Sign_and_Verify
  simp only []
  split_ifs with hi
  · rw [IsSuccess_iff] at hi
    generalize signVerifyLoop env (env.status Site.signVerifyInitialize 0) N 0 0 0 = r at hl ⊢
    rcases r with ⟨tr, fl⟩
    have hc : FailFast ((Site.signVerifyInitialize, 0, env.status Site.signVerifyInitialize 0) ::
        cryptoCalls tr) := failFast_cons _ _ hi hl
    rcases fl with ⟨ss, vs⟩ | e
    · cases hd1 : div32 ss N <;> cases hd2 : div32 vs N <;>
        simpa [hd1, hd2, cryptoCalls_append, cryptoCalls, Event.asCall] using hc
    · simpa [cryptoCalls_append, cryptoCalls, Event.asCall] using hc
  · simp only [cryptoCalls, List.filterMap_cons, List.filterMap_nil, Event.asCall]
    exact failFast_singleton _

/-! ## Facts about `TestECDH_EstablishSecret` -/

theorem ecdhLoop_failFast (env : Env) : ∀ (n i sum e : Nat),
    FailFast (cryptoCalls (ecdhLoop env n i sum e).1) := by
  intro n
  induction n with
  | zero => intro i sum e; simpa [ecdhLoop, cryptoCalls] using failFast_nil
  | succ n ih =>
    intro i sum e
    rw [ecdhLoop]
    simp only []
    split_ifs with h1 h2 h3 h4 h5 h6
    all_goals simp only [IsSuccess_iff] at h1
    all_goals try simp only [IsSuccess_iff] at h2
    all_goals try simp only [IsSuccess_iff] at h3
    all_goals try simp only [IsSuccess_iff] at h4
    all_goals simp only [cryptoCalls, List.filterMap_append, List.filterMap_cons, Event.asCall,
        List.filterMap_nil, List.cons_append, List.nil_append, List.append_nil]
    · exact failFast_cons _ _ h1 (failFast_cons _ _ h2 (failFast_cons _ _ h3
        (failFast_cons _ _ h4 (ih _ _ _))))
    · exact failFast_cons _ _ h1 (failFast_cons _ _ h2 (failFast_cons _ _ h3
        (failFast_cons _ _ h4 failFast_nil)))
    · exact failFast_cons _ _ h1 (failFast_cons _ _ h2 (failFast_cons _ _ h3
        (failFast_cons _ _ h4 failFast_nil)))
    · exact failFast_cons _ _ h1 (failFast_cons _ _ h2 (failFast_cons _ _ h3
        (failFast_singleton _)))
    · exact failFast_cons _ _ h1 (failFast_cons _ _ h2 (failFast_singleton _))
    · exact failFast_cons _ _ h1 (failFast_singleton _)
    · exact failFast_singleton _

theorem ecdhLoop_exit_of_call (env : Env) : ∀ (n i sum e : Nat) (s : Site) (j err : Nat),
    Event.call s j err ∈ (ecdhLoop env n i sum e).1 → err ≠ 0 →
    (ecdhLoop env n i sum e).2 = Flow.exit err := by
  intro n
  induction n with
  | zero => intro i sum e s j err h; simp [ecdhLoop] at h
  | succ n ih =>
    intro i sum e s j err h herr
    rw [ecdhLoop] at h ⊢
    simp only [] at h ⊢
    split_ifs at h ⊢ with h1 h2 h3 h4 h5 h6
    all_goals simp only [IsSuccess_iff] at h1
    all_goals try simp only [IsSuccess_iff] at h2
    all_goals try simp only [IsSuccess_iff] at h3
    all_goals try simp only [IsSuccess_iff] at h4
    all_goals simp only [List.mem_append, List.mem_cons, List.mem_singleton, Event.call.injEq,
      List.not_mem_nil, or_false, false_or, reduceCtorEq] at h
    · rcases h with (((h | h) | h) | h) | h
      · exact absurd (h.2.2.trans h1) herr
      · exact absurd (h.2.2.trans h2) herr
      · exact absurd (h.2.2.trans h3) herr
      · exact absurd (h.2.2.trans h4) herr
      · exact ih _ _ _ _ _ _ h herr
    · rcases h with ((h | h) | h) | h
      · exact absurd (h.2.2.trans h1) herr
      · exact absurd (h.2.2.trans h2) herr
      · exact absurd (h.2.2.trans h3) herr
      · exact absurd (h.2.2.trans h4) herr
    · rcases h with ((h | h) | h) | h
      · exact absurd (h.2.2.trans h1) herr
      · exact absurd (h.2.2.trans h2) herr
      · exact absurd (h.2.2.trans h3) herr
      · exact absurd (h.2.2.trans h4) herr
    · rcases h with ((h | h) | h) | h
      · exact absurd (h.2.2.trans h1) herr
      · exact absurd (h.2.2.trans h2) herr
      · exact absurd (h.2.2.trans h3) herr
      · rw [h.2.2]
    · rcases h with (h | h) | h
      · exact absurd (h.2.2.trans h1) herr
      · exact absurd (h.2.2.trans h2) herr
      · rw [h.2.2]
    · rcases h with h | h
      · exact absurd (h.2.2.trans h1) herr
      · rw [h.2.2]
    · rw [h.2.2]

theorem ecdhLoop_ok (env : Env) : ∀ (n i sum e : Nat),
    (∀ j, i ≤ j → j < i + n → ecdhIterationOk env j) →
    ecdhLoop env n i sum e =
      ((List.range' i n).flatMap (fun j =>
        [Event.call Site.ecdhInitialize1 j CHIP_NO_ERROR,
         Event.call Site.ecdhInitialize2 j CHIP_NO_ERROR,
         Event.now (env.start Site.derive1 j), Event.call Site.derive1 j CHIP_NO_ERROR,
         Event.now (env.stop Site.derive1 j), Event.delay,
         Event.now (env.start Site.derive2 j), Event.call Site.derive2 j CHIP_NO_ERROR,
         Event.now (env.stop Site.derive2 j), Event.delay]),
       Flow.done
        (accumulate (fun j => sub32 (env.stop Site.derive1 j) (env.start Site.derive1 j) +
            sub32 (env.stop Site.derive2 j) (env.start Site.derive2 j)) n i sum,
         if n = 0 then e else CHIP_NO_ERROR)) := by
  intro n
  induction n with
  | zero => intro i sum e _; simp [ecdhLoop, accumulate]
  | succ n ih =>
    intro i sum e h
    obtain ⟨h1, h2, h3, h4, h5, h6⟩ := h i (le_refl i) (by omega)
    have h5b : ((env.secret1 i).length == (env.secret2 i).length) = true := by simp [h5]
    rw [ecdhLoop]
    simp only [h1, h2, h3, h4, h5b, h6, IsSuccess, CHIP_NO_ERROR, boolToInt, beq_self_eq_true,
      if_true, bne_iff_ne, ne_eq, one_ne_zero, not_false_eq_true]
    rw [ih _ _ _ (fun j h1 h2 => h j (by omega) (by omega))]
    simp only [List.range'_succ, List.flatMap_cons, accumulate, add32_add32, CHIP_NO_ERROR]
    by_cases hn : n = 0 <;> simp [hn]

theorem ecdhLoop_succ_ok (env : Env) (n i sum e : Nat) (h : ecdhIterationOk env i) :
    (ecdhLoop env (n + 1) i sum e).2 =
      (ecdhLoop env n (i + 1)
        (add32 (add32 sum (sub32 (env.stop Site.derive1 i) (env.start Site.derive1 i)))
          (sub32 (env.stop Site.derive2 i) (env.start Site.derive2 i))) CHIP_NO_ERROR).2 := by
  obtain ⟨h1, h2, h3, h4, h5, h6⟩ := h
  have h5b : ((env.secret1 i).length == (env.secret2 i).length) = true := by simp [h5]
  rw [ecdhLoop]
  simp only [h1, h2, h3, h4, h5b, h6, IsSuccess, CHIP_NO_ERROR, boolToInt, beq_self_eq_true,
    if_true, bne_iff_ne, ne_eq, one_ne_zero, not_false_eq_true]

theorem ecdhLoop_mismatch (env : Env) : ∀ (k n i sum e : Nat), k < n →
    (∀ j, i ≤ j → j < i + k → ecdhIterationOk env j) →
    env.status Site.ecdhInitialize1 (i + k) = CHIP_NO_ERROR →
    env.status Site.ecdhInitialize2 (i + k) = CHIP_NO_ERROR →
    env.status Site.derive1 (i + k) = CHIP_NO_ERROR →
    env.status Site.derive2 (i + k) = CHIP_NO_ERROR →
    ((env.secret1 (i + k)).length ≠ (env.secret2 (i + k)).length ∨
      toUInt8 (env.memcmp (env.secret1 (i + k)).bytes (env.secret2 (i + k)).bytes
        (env.secret1 (i + k)).length) ≠ 0) →
    (ecdhLoop env n i sum e).2 = Flow.exit CHIP_ERROR_INTERNAL := by
  intro k
  induction k with
  | zero =>
    intro n i sum e hn _ h1 h2 h3 h4 hm
    obtain ⟨m, rfl⟩ : ∃ m, n = m + 1 := ⟨n - 1, by omega⟩
    simp only [Nat.add_zero] at h1 h2 h3 h4 hm
    rw [ecdhLoop]
    simp only [h1, h2, h3, h4, IsSuccess, CHIP_NO_ERROR, beq_self_eq_true, if_true]
    rcases hm with hm | hm
    · have : ((env.secret1 i).length == (env.secret2 i).length) = false := by simpa using hm
      simp [this, boolToInt]
    · by_cases hl : (env.secret1 i).length = (env.secret2 i).length
      · have hlb : ((env.secret1 i).length == (env.secret2 i).length) = true := by simp [hl]
        have hmb : (toUInt8 (env.memcmp (env.secret1 i).bytes (env.secret2 i).bytes
            (env.secret1 i).length) == 0) = false := by simpa using hm
        simp only [hlb, boolToInt, if_true, bne_iff_ne, ne_eq, one_ne_zero, not_false_eq_true,
          hmb]
        simp
      · have : ((env.secret1 i).length == (env.secret2 i).length) = false := by simpa using hl
        simp [this, boolToInt]
  | succ k ih =>
    intro n i sum e hn hprev h1 h2 h3 h4 hm
    obtain ⟨m, rfl⟩ : ∃ m, n = m + 1 := ⟨n - 1, by omega⟩
    rw [ecdhLoop_succ_ok env m i sum e (hprev i (le_refl i) (by omega))]
    have hidx : i + (k + 1) = i + 1 + k := by omega
    rw [hidx] at h1 h2 h3 h4 hm
    exact ih m (i + 1) _ _ (by omega) (fun j hj1 hj2 => hprev j (by omega) (by omega))
      h1 h2 h3 h4 hm

theorem ecdh_run_ok (env : Env) (N : Nat)
    (hsentinel : toUInt8 (env.memcmp (0 :: env.garbage1) (1 :: env.garbage2)
      kMax_ECDH_Secret_Length) ≠ 0)
    (hok : ∀ i, i < N → ecdhIterationOk env i) :
    TestECDH_EstablishSecret env N =
      match div32 ((∑ i in Finset.range N,
          (sub32 (env.stop Site.derive1 i) (env.start Site.derive1 i) +
            sub32 (env.stop Site.derive2 i) (env.start Site.derive2 i))) % 2 ^ 32)
          (mul32 2 N) with
      | none =>
        ⟨[Event.log "Start ECDH Establish Secret test" none] ++
          (List.range N).flatMap (fun i =>
            [Event.call Site.ecdhInitialize1 i CHIP_NO_ERROR,
             Event.call Site.ecdhInitialize2 i CHIP_NO_ERROR,
             Event.now (env.start Site.derive1 i), Event.call Site.derive1 i CHIP_NO_ERROR,
             Event.now (env.stop Site.derive1 i), Event.delay,
             Event.now (env.start Site.derive2 i), Event.call Site.derive2 i CHIP_NO_ERROR,
             Event.now (env.stop Site.derive2 i), Event.delay]), none⟩
      | some time =>
        ⟨[Event.log "Start ECDH Establish Secret test" none] ++
          (List.range N).flatMap (fun i =>
            [Event.call Site.ecdhInitialize1 i CHIP_NO_ERROR,
             Event.call Site.ecdhInitialize2 i CHIP_NO_ERROR,
             Event.now (env.start Site.derive1 i), Event.call Site.derive1 i CHIP_NO_ERROR,
             Event.now (env.stop Site.derive1 i), Event.delay,
             Event.now (env.start Site.derive2 i), Event.call Site.derive2 i CHIP_NO_ERROR,
             Event.now (env.stop Site.derive2 i), Event.delay]) ++
          [Event.log "ECDH Establish Secret time: %lu" (some time)],
          some CHIP_NO_ERROR⟩ := by
  have hl := ecdhLoop_ok env N 0 0 CHIP_NO_ERROR (fun j _ h => hok j (by omega))
  have hs : (toUInt8 (env.memcmp (0 :: env.garbage1) (1 :: env.garbage2)
      kMax_ECDH_Secret_Length) != 0) = true := by simpa using hsentinel
  unfold TestECDH_EstablishSecret
  simp only [hs, if_true, hl, accumulate_zero, List.range_eq_range', ite_self]

theorem ecdh_ret_ne_none (env : Env) (N : Nat) (hN : 1 ≤ N) (hN32 : N < 2 ^ 32)
    (hne : N ≠ 2 ^ 31) : (TestECDH_EstablishSecret env N).ret ≠ none := by
  have hm : mul32 2 N ≠ 0 := by
    unfold mul32
    omega
  unfold TestECDH_EstablishSecret
  simp only []
  split_ifs with hs
  · rcases ecdhLoop env N 0 0 CHIP_NO_ERROR with ⟨tr, fl⟩
    rcases fl with ⟨sum, e⟩ | e <;> simp [div32, hm]
  · simp

theorem ecdh_failFast (env : Env) (N : Nat) :
    FailFast (cryptoCalls (TestECDH_EstablishSecret env N).trace) := by
  have hl := ecdhLoop_failFast env N 0 0 CHIP_NO_ERROR
  unfold TestECDH_EstablishSecret
  simp only []
  split_ifs with hs
  · generalize ecdhLoop env N 0 0 CHIP_NO_ERROR = r at hl ⊢
    rcases r with ⟨tr, fl⟩
    rcases fl with ⟨sum, e⟩ | e
    · cases hd : div32 sum (mul32 2 N) <;>
        simpa [hd, cryptoCalls_append, cryptoCalls, Event.asCall] using hl
    · simpa [cryptoCalls_append, cryptoCalls, Event.asCall] using hl
  · simpa [cryptoCalls] using failFast_nil

/-- What the comparison in `TestECDH_EstablishSecret` does detect: when the
sentinel check passes, iterations before `k` pass every check, the four crypto
calls of iteration `k < N` succeed and either the two lengths differ or the
value of `memcmp` is non-zero after conversion to `uint8_t`, the routine
returns `CHIP_ERROR_INTERNAL`. -/
theorem ecdh_mismatch_detected (env : Env) (N k : Nat) (hk : k < N)
    (hsentinel : toUInt8 (env.memcmp (0 :: env.garbage1) (1 :: env.garbage2)
      kMax_ECDH_Secret_Length) ≠ 0)
    (hprev : ∀ j, j < k → ecdhIterationOk env j)
    (h1 : env.status Site.ecdhInitialize1 k = CHIP_NO_ERROR)
    (h2 : env.status Site.ecdhInitialize2 k = CHIP_NO_ERROR)
    (h3 : env.status Site.derive1 k = CHIP_NO_ERROR)
    (h4 : env.status Site.derive2 k = CHIP_NO_ERROR)
    (hm : (env.secret1 k).length ≠ (env.secret2 k).length ∨
      toUInt8 (env.memcmp (env.secret1 k).bytes (env.secret2 k).bytes
        (env.secret1 k).length) ≠ 0) :
    (TestECDH_EstablishSecret env N).ret = some CHIP_ERROR_INTERNAL := by
  have hl := ecdhLoop_mismatch env k N 0 0 CHIP_NO_ERROR hk
    (fun j _ hj => hprev j (by omega)) (by simpa using h1) (by simpa using h2)
    (by simpa using h3) (by simpa using h4) (by simpa using hm)
  have hs : (toUInt8 (env.memcmp (0 :: env.garbage1) (1 :: env.garbage2)
      kMax_ECDH_Secret_Length) != 0) = true := by simpa using hsentinel
  unfold TestECDH_EstablishSecret
  simp only [hs, if_true]
  generalize ecdhLoop env N 0 0 CHIP_NO_ERROR = r at hl ⊢
  rcases r with ⟨tr, fl⟩
  simp only at hl
  subst hl
  rfl

/-! ## Properties of the benchmark routines -/

/-- C1 (failing input): with one iteration, a successful initial
`Initialize` and an `ECDSA_sign_msg` that returns `CHIP_ERROR_INTERNAL`,
`TestECDSA_Sign_and_Verify` stops after the failing call and returns
`CHIP_NO_ERROR`: the status is kept in `signing_error` while `error` is
returned. -/
theorem C1_sign_error_not_returned :
    envSignFails.status Site.signVerifyInitialize 0 = CHIP_NO_ERROR ∧
    cryptoCalls (TestECDSA_Sign_and_Verify envSignFails 1).trace =
      [(Site.signVerifyInitialize, 0, CHIP_NO_ERROR), (Site.sign, 0, CHIP_ERROR_INTERNAL)] ∧
    (TestECDSA_Sign_and_Verify envSignFails 1).ret = some CHIP_NO_ERROR := by
  decide

/-- C2 (failing input): one iteration in which both key generations and both
derivations succeed and the two 32-byte secrets differ in their first byte,
with a C library whose `memcmp` returns 256 for "greater": the value stored
in the `uint8_t` is 0 and `TestECDH_EstablishSecret` returns `CHIP_NO_ERROR`,
not `CHIP_ERROR_INTERNAL`. -/
theorem C2_mismatch_not_detected :
    (envSecretsDiffer.secret1 0).length = (envSecretsDiffer.secret2 0).length ∧
    (envSecretsDiffer.secret1 0).bytes ≠ (envSecretsDiffer.secret2 0).bytes ∧
    envSecretsDiffer.memcmp (envSecretsDiffer.secret1 0).bytes
      (envSecretsDiffer.secret2 0).bytes (envSecretsDiffer.secret1 0).length = 256 ∧
    cryptoCalls (TestECDH_EstablishSecret envSecretsDiffer 1).trace =
      [(Site.ecdhInitialize1, 0, CHIP_NO_ERROR), (Site.ecdhInitialize2, 0, CHIP_NO_ERROR),
       (Site.derive1, 0, CHIP_NO_ERROR), (Site.derive2, 0, CHIP_NO_ERROR)] ∧
    (TestECDH_EstablishSecret envSecretsDiffer 1).ret = some CHIP_NO_ERROR := by
  decide

/-- C3 (counterexample): the claim fails at `N = 2 ^ 31`, a `uint32_t` value
with `N ≥ 1`: there `2 * N` evaluated in 32-bit unsigned arithmetic is zero,
and a run of `TestECDH_EstablishSecret` in which every iteration succeeds
ends in a division by zero. -/
theorem C3_counterexample_divisor_wraps :
    1 ≤ 2 ^ 31 ∧ 2 ^ 31 < 2 ^ 32 ∧ mul32 2 (2 ^ 31) = 0 ∧
      (TestECDH_EstablishSecret envOk (2 ^ 31)).ret = none := by
  refine ⟨by norm_num, by norm_num, by norm_num [mul32], ?_⟩
  rw [ecdh_run_ok envOk (2 ^ 31) envOk_sentinel (fun i _ => envOk_iterationOk i)]
  have h : mul32 2 (2 ^ 31) = 0 := by norm_num [mul32]
  simp only [h, div32, if_true]

/-- C3 (amended): for every `uint32_t` iteration count `N ≥ 1`, neither
`TestECDSA_KeyGeneration` nor `TestECDSA_Sign_and_Verify` divides by zero
(their divisor is `N`); the divisor `2 * N` of `TestECDH_EstablishSecret`,
evaluated modulo `2 ^ 32`, is zero exactly when `N = 2 ^ 31`, and for every
other `N` that routine does not divide by zero either. -/
theorem C3_divisor_nonzero (env : Env) (N : Nat) (hN : 1 ≤ N) (hN32 : N < 2 ^ 32) :
    (TestECDSA_KeyGeneration env N).ret ≠ none ∧
    (TestECDSA_Sign_and_Verify env N).ret ≠ none ∧
    (mul32 2 N = 0 ↔ N = 2 ^ 31) ∧
    (N ≠ 2 ^ 31 → (TestECDH_EstablishSecret env N).ret ≠ none) := by
  refine ⟨keyGen_ret_ne_none env N hN, signVerify_ret_ne_none env N hN, ?_,
    fun h => ecdh_ret_ne_none env N hN hN32 h⟩
  unfold mul32
  omega

/-- C3 (witness): at `N = 30`, the count `main_task` passes, none of the three
routines divides by zero. -/
theorem C3_divisor_nonzero_witness :
    1 ≤ 30 ∧ 30 < 2 ^ 32 ∧ 30 ≠ 2 ^ 31 ∧
    (TestECDSA_KeyGeneration envOk 30).ret ≠ none ∧
    (TestECDSA_Sign_and_Verify envOk 30).ret ≠ none ∧
    mul32 2 30 ≠ 0 ∧
    (TestECDH_EstablishSecret envOk 30).ret ≠ none :=
  have h := C3_divisor_nonzero envOk 30 (by norm_num) (by norm_num)
  ⟨by norm_num, by norm_num, by norm_num, h.1, h.2.1,
   fun h0 => absurd (h.2.2.1.1 h0) (by norm_num), h.2.2.2 (by norm_num)⟩

/-- C6: for every iteration count `N ≥ 1`, `TestECDSA_KeyGeneration` returns
`CHIP_NO_ERROR` exactly when all `N` calls of `keypair.Initialize()` succeed, and
otherwise it returns the status of the first failing `Initialize` call. -/
theorem C6_keyGeneration_return (env : Env) (N : Nat) (hN : 1 ≤ N) :
    ((TestECDSA_KeyGeneration env N).ret = some CHIP_NO_ERROR ↔
      ∀ i, i < N → env.status Site.keyGenInitialize i = CHIP_NO_ERROR) ∧
    (∀ k, k < N → env.status Site.keyGenInitialize k ≠ CHIP_NO_ERROR →
      (∀ j, j < k → env.status Site.keyGenInitialize j = CHIP_NO_ERROR) →
      (TestECDSA_KeyGeneration env N).ret = some (env.status Site.keyGenInitialize k)) := by
  refine ⟨⟨?_, fun h => keyGen_ret_ok env N hN h⟩, fun k hk hne hlt => keyGen_ret_fail env N k hk hne hlt⟩
  intro hret
  by_contra hcon
  push_neg at hcon
  have hex : ∃ k, k < N ∧ env.status Site.keyGenInitialize k ≠ CHIP_NO_ERROR := hcon
  classical
  have hmin := Nat.find_spec hex
  have hfail := keyGen_ret_fail env N (Nat.find hex) hmin.1 hmin.2 (by
    intro j hj
    by_contra hj0
    exact Nat.find_min hex hj ⟨by omega, hj0⟩)
  rw [hfail] at hret
  exact hmin.2 (by simpa using hret)

/-- C6 (witness): three iterations, once with every `Initialize` succeeding and
once with the third one failing. -/
theorem C6_keyGeneration_return_witness :
    1 ≤ 3 ∧
    (TestECDSA_KeyGeneration envOk 3).ret = some CHIP_NO_ERROR ∧
    (TestECDSA_KeyGeneration envLateFailures 3).ret = some CHIP_ERROR_INTERNAL :=
  ⟨by decide,
   (C6_keyGeneration_return envOk 3 (by decide)).1.2 (fun _ _ => rfl),
   (C6_keyGeneration_return envLateFailures 3 (by decide)).2 2 (by decide) (by decide)
     (by decide)⟩

/-- C7: if a keypair `Initialize` or `ECDH_derive_secret` call made by
`TestECDH_EstablishSecret` returns an error, the routine returns that error
(so a failing call is the only one of the run, hence the first). -/
theorem C7_ecdh_returns_first_error (env : Env) (N : Nat) (s : Site) (i : Nat)
    (err : CHIP_ERROR)
    (hcall : Event.call s i err ∈ (TestECDH_EstablishSecret env N).trace)
    (herr : err ≠ CHIP_NO_ERROR) :
    (TestECDH_EstablishSecret env N).ret = some err := by
  have hl := ecdhLoop_exit_of_call env N 0 0 CHIP_NO_ERROR s i err
  unfold TestECDH_EstablishSecret at hcall ⊢
  simp only [] at hcall ⊢
  split_ifs at hcall ⊢ with hs
  · rcases hloop : ecdhLoop env N 0 0 CHIP_NO_ERROR with ⟨tr, fl⟩
    rw [hloop] at hcall hl
    rcases fl with ⟨sum, e⟩ | e
    · exfalso
      have hmem : Event.call s i err ∈ tr := by
        cases hd : div32 sum (mul32 2 N) <;> simpa [hd] using hcall
      have := hl hmem herr
      simp at this
    · have hmem : Event.call s i err ∈ tr := by simpa using hcall
      have := hl hmem herr
      simp only [Flow.exit.injEq] at this
      simp [this]
  · simp at hcall

/-- C7 (witness): three iterations in which the second derivation of the
second iteration fails with `CHIP_ERROR_INTERNAL`. -/
theorem C7_ecdh_returns_first_error_witness :
    Event.call Site.derive2 1 CHIP_ERROR_INTERNAL ∈
      (TestECDH_EstablishSecret envLateFailures 3).trace ∧
    CHIP_ERROR_INTERNAL ≠ CHIP_NO_ERROR ∧
    (TestECDH_EstablishSecret envLateFailures 3).ret = some CHIP_ERROR_INTERNAL :=
  ⟨by decide, by decide,
   C7_ecdh_returns_first_error envLateFailures 3 Site.derive2 1 CHIP_ERROR_INTERNAL
     (by decide) (by decide)⟩

/-- C8: in each of `TestECDSA_KeyGeneration`, `TestECDSA_Sign_and_Verify` and
`TestECDH_EstablishSecret` the sequence of crypto calls ends at the first call
that returns an error: whenever the calls of a run split as
`pre ++ (s, i, err) :: post` with `err` not `CHIP_NO_ERROR`, `post` is empty. -/
theorem C8_no_call_after_failure (env : Env) (N : Nat) :
    (∀ pre s i err post,
      cryptoCalls (TestECDSA_KeyGeneration env N).trace = pre ++ (s, i, err) :: post →
      err ≠ CHIP_NO_ERROR → post = []) ∧
    (∀ pre s i err post,
      cryptoCalls (TestECDSA_Sign_and_Verify env N).trace = pre ++ (s, i, err) :: post →
      err ≠ CHIP_NO_ERROR → post = []) ∧
    (∀ pre s i err post,
      cryptoCalls (TestECDH_EstablishSecret env N).trace = pre ++ (s, i, err) :: post →
      err ≠ CHIP_NO_ERROR → post = []) :=
  ⟨fun pre s i err post h he => keyGen_failFast env N pre (s, i, err) post h he,
   fun pre s i err post h he => signVerify_failFast env N pre (s, i, err) post h he,
   fun pre s i err post h he => ecdh_failFast env N pre (s, i, err) post h he⟩

/-- C8 (witness): in runs of three iterations whose third key generation,
second validation and fourth derivation fail, nothing follows the third, the
fifth and the eighth crypto call respectively. -/
theorem C8_no_call_after_failure_witness :
    (cryptoCalls (TestECDSA_KeyGeneration envLateFailures 3).trace).drop 3 = [] ∧
    (cryptoCalls (TestECDSA_Sign_and_Verify envLateFailures 3).trace).drop 5 = [] ∧
    (cryptoCalls (TestECDH_EstablishSecret envLateFailures 3).trace).drop 8 = [] :=
  ⟨(C8_no_call_after_failure envLateFailures 3).1
      [(Site.keyGenInitialize, 0, CHIP_NO_ERROR), (Site.keyGenInitialize, 1, CHIP_NO_ERROR)]
      Site.keyGenInitialize 2 CHIP_ERROR_INTERNAL _ (by decide) (by decide),
   (C8_no_call_after_failure envLateFailures 3).2.1
      [(Site.signVerifyInitialize, 0, CHIP_NO_ERROR), (Site.sign, 0, CHIP_NO_ERROR),
       (Site.validate, 0, CHIP_NO_ERROR), (Site.sign, 1, CHIP_NO_ERROR)]
      Site.validate 1 CHIP_ERROR_INTERNAL _ (by decide) (by decide),
   (C8_no_call_after_failure envLateFailures 3).2.2
      [(Site.ecdhInitialize1, 0, CHIP_NO_ERROR), (Site.ecdhInitialize2, 0, CHIP_NO_ERROR),
       (Site.derive1, 0, CHIP_NO_ERROR), (Site.derive2, 0, CHIP_NO_ERROR),
       (Site.ecdhInitialize1, 1, CHIP_NO_ERROR), (Site.ecdhInitialize2, 1, CHIP_NO_ERROR),
       (Site.derive1, 1, CHIP_NO_ERROR)]
      Site.derive2 1 CHIP_ERROR_INTERNAL _ (by decide) (by decide)⟩

/-- C9: when all `N ≥ 1` iterations succeed, `TestECDSA_KeyGeneration` logs
`S / N` (integer division), `S` being the sum modulo `2 ^ 32` of the `N`
differences `stop - start` read around `Initialize`; and
`TestECDSA_Sign_and_Verify` logs `sign_sum / N` and `verify_sum / N`, the two
sums being taken separately over the `N` sign intervals and the `N` verify
intervals.  The traces show which timer reads enter each sum. -/
theorem C9_average_latency (env : Env) (N : Nat) (hN : 1 ≤ N) :
    ((∀ i, i < N → env.status Site.keyGenInitialize i = CHIP_NO_ERROR) →
      TestECDSA_KeyGeneration env N =
        ⟨[Event.log "Start ECDSA key generation test" none] ++
          (List.range N).flatMap (fun i =>
            [Event.now (env.start Site.keyGenInitialize i),
             Event.call Site.keyGenInitialize i CHIP_NO_ERROR,
             Event.now (env.stop Site.keyGenInitialize i)]) ++
          [Event.log "ECDSA key generation time: %lu"
            (some ((∑ i in Finset.range N, sub32 (env.stop Site.keyGenInitialize i)
              (env.start Site.keyGenInitialize i)) % 2 ^ 32 / N))],
         some CHIP_NO_ERROR⟩) ∧
    (env.status Site.signVerifyInitialize 0 = CHIP_NO_ERROR →
      (∀ i, i < N →
        env.status Site.sign i = CHIP_NO_ERROR ∧ env.status Site.validate i = CHIP_NO_ERROR) →
      TestECDSA_Sign_and_Verify env N =
        ⟨[Event.log "Start ECDSA Sign and Verify test" none,
          Event.call Site.signVerifyInitialize 0 CHIP_NO_ERROR] ++
          (List.range N).flatMap (fun i =>
            [Event.now (env.start Site.sign i), Event.call Site.sign i CHIP_NO_ERROR,
             Event.now (env.stop Site.sign i), Event.delay,
             Event.now (env.start Site.validate i), Event.call Site.validate i CHIP_NO_ERROR,
             Event.now (env.stop Site.validate i), Event.delay]) ++
          [Event.log "ECDSA sign time: %lu"
            (some ((∑ i in Finset.range N,
              sub32 (env.stop Site.sign i) (env.start Site.sign i)) % 2 ^ 32 / N)),
           Event.log "ECDSA validate signature time: %lu"
            (some ((∑ i in Finset.range N,
              sub32 (env.stop Site.validate i) (env.start Site.validate i)) % 2 ^ 32 / N))],
         some CHIP_NO_ERROR⟩) :=
  ⟨fun h => keyGen_run_ok env N hN h, fun h1 h2 => signVerify_run_ok env N hN h1 h2⟩

/-- C9 (witness): three successful iterations in which `Initialize` and signing
take 4 ms and validation takes 9 ms. -/
theorem C9_average_latency_witness :
    1 ≤ 3 ∧
    logLines (TestECDSA_KeyGeneration envOk 3).trace =
      [("Start ECDSA key generation test", none),
       ("ECDSA key generation time: %lu", some 4)] ∧
    logLines (TestECDSA_Sign_and_Verify envOk 3).trace =
      [("Start ECDSA Sign and Verify test", none), ("ECDSA sign time: %lu", some 4),
       ("ECDSA validate signature time: %lu", some 9)] := by
  have h := C9_average_latency envOk 3 (by decide)
  refine ⟨by decide, ?_, ?_⟩
  · rw [h.1 (fun _ _ => rfl)]
    decide
  · rw [h.2 rfl (fun _ _ => ⟨rfl, rfl⟩)]
    decide

/-- C10: when all `N` iterations succeed (`1 ≤ N < 2 ^ 31`, the sentinel check
before the loop having passed), `TestECDH_EstablishSecret` logs `S / (2 * N)`,
where `S` is the sum modulo `2 ^ 32` of the `2 * N` differences `stop - start`
read around the two `ECDH_derive_secret` calls of each iteration.  The trace
shows that the timer is read only around those calls: the two `Initialize`
calls of an iteration come before the first read and enter no interval. -/
theorem C10_ecdh_average (env : Env) (N : Nat) (hN : 1 ≤ N) (hN31 : N < 2 ^ 31)
    (hsentinel : toUInt8 (env.memcmp (0 :: env.garbage1) (1 :: env.garbage2)
      kMax_ECDH_Secret_Length) ≠ 0)
    (hok : ∀ i, i < N → ecdhIterationOk env i) :
    TestECDH_EstablishSecret env N =
      ⟨[Event.log "Start ECDH Establish Secret test" none] ++
        (List.range N).flatMap (fun i =>
          [Event.call Site.ecdhInitialize1 i CHIP_NO_ERROR,
           Event.call Site.ecdhInitialize2 i CHIP_NO_ERROR,
           Event.now (env.start Site.derive1 i), Event.call Site.derive1 i CHIP_NO_ERROR,
           Event.now (env.stop Site.derive1 i), Event.delay,
           Event.now (env.start Site.derive2 i), Event.call Site.derive2 i CHIP_NO_ERROR,
           Event.now (env.stop Site.derive2 i), Event.delay]) ++
        [Event.log "ECDH Establish Secret time: %lu"
          (some ((∑ i in Finset.range N,
            (sub32 (env.stop Site.derive1 i) (env.start Site.derive1 i) +
              sub32 (env.stop Site.derive2 i) (env.start Site.derive2 i))) % 2 ^ 32 /
            (2 * N)))],
       some CHIP_NO_ERROR⟩ := by
  have hm : mul32 2 N = 2 * N := by
    unfold mul32
    omega
  have h2 : 2 * N ≠ 0 := by omega
  rw [ecdh_run_ok env N hsentinel hok, hm]
  simp only [div32, h2, if_false]

/-- C10 (witness): three successful iterations in which the two derivations
take 4 ms and 9 ms: the average logged is `39 / 6 = 6`. -/
theorem C10_ecdh_average_witness :
    1 ≤ 3 ∧ 3 < 2 ^ 31 ∧
    (TestECDH_EstablishSecret envOk 3).ret = some CHIP_NO_ERROR ∧
    logLines (TestECDH_EstablishSecret envOk 3).trace =
      [("Start ECDH Establish Secret test", none),
       ("ECDH Establish Secret time: %lu", some 6)] := by
  have h := C10_ecdh_average envOk 3 (by decide) (by norm_num) envOk_sentinel
    (fun i _ => envOk_iterationOk i)
  refine ⟨by decide, by norm_num, ?_, ?_⟩
  · rw [h]
  · rw [h]
    decide

/-! ## Facts about the clock -/

theorem sub32_clock (t d : Nat) : sub32 ((t + d) % 2 ^ 32) (t % 2 ^ 32) = d % 2 ^ 32 := by
  unfold sub32
  omega

theorem agrees_append (tm : Timing) : ∀ (a b : List Event) (t k : Nat),
    tm.agrees t k (a ++ b) =
      (tm.agrees t k a && tm.agrees (tm.after t k a).1 (tm.after t k a).2 b) := by
  intro a
  induction a with
  | nil => intro b t k; simp [Timing.agrees, Timing.after]
  | cons e a ih =>
    intro b t k
    cases e <;> simp [Timing.agrees, Timing.after, ih, Bool.and_assoc]

theorem signVerifyLoop_clock (env1 env2 : Env) (tm1 tm2 : Timing) (err : Nat)
    (hstatus : env2.status = env1.status) (hop : tm2.opTime = tm1.opTime) :
    ∀ (n i ss vs t1 k1 t2 k2 : Nat),
      tm1.agrees t1 k1 (signVerifyLoop env1 err n i ss vs).1 = true →
      tm2.agrees t2 k2 (signVerifyLoop env2 err n i ss vs).1 = true →
      (signVerifyLoop env1 err n i ss vs).2 = (signVerifyLoop env2 err n i ss vs).2 := by
  intro n
  induction n with
  | zero => intro i ss vs t1 k1 t2 k2 _ _; simp [signVerifyLoop]
  | succ n ih =>
    intro i ss vs t1 k1 t2 k2 ha hb
    rw [signVerifyLoop_succ] at ha hb ⊢
    rw [signVerifyLoop_succ]
    simp only [hstatus] at hb ⊢
    split_ifs at ha hb ⊢ with h1 h2
    · simp only [List.cons_append, List.nil_append, Timing.agrees, Bool.and_eq_true,
        beq_iff_eq] at ha hb
      obtain ⟨hs1, he1, hs2, he2, hra⟩ := ha
      obtain ⟨hs1b, he1b, hs2b, he2b, hrb⟩ := hb
      simp only [hs1, he1, hs2, he2, hs1b, he1b, hs2b, he2b, sub32_clock, hop] at hra hrb ⊢
      exact ih _ _ _ _ _ _ _ hra hrb
    · rfl
    · rfl

theorem ecdhLoop_succ (env : Env) (n i sum e : Nat) :
    ecdhLoop env (n + 1) i sum e =
      if env.status Site.ecdhInitialize1 i = 0 then
        if env.status Site.ecdhInitialize2 i = 0 then
          if env.status Site.derive1 i = 0 then
            if env.status Site.derive2 i = 0 then
              if (env.secret1 i).length = (env.secret2 i).length ∧
                  toUInt8 (env.memcmp (env.secret1 i).bytes (env.secret2 i).bytes
                    (env.secret1 i).length) = 0 then
                ([Event.call Site.ecdhInitialize1 i (env.status Site.ecdhInitialize1 i),
                  Event.call Site.ecdhInitialize2 i (env.status Site.ecdhInitialize2 i),
                  Event.now (env.start Site.derive1 i),
                  Event.call Site.derive1 i (env.status Site.derive1 i),
                  Event.now (env.stop Site.derive1 i), Event.delay,
                  Event.now (env.start Site.derive2 i),
                  Event.call Site.derive2 i (env.status Site.derive2 i),
                  Event.now (env.stop Site.derive2 i), Event.delay] ++
                  (ecdhLoop env n (i + 1)
                    (add32 (add32 sum
                      (sub32 (env.stop Site.derive1 i) (env.start Site.derive1 i)))
                      (sub32 (env.stop Site.derive2 i) (env.start Site.derive2 i)))
                    (env.status Site.derive2 i)).1,
                 (ecdhLoop env n (i + 1)
                    (add32 (add32 sum
                      (sub32 (env.stop Site.derive1 i) (env.start Site.derive1 i)))
                      (sub32 (env.stop Site.derive2 i) (env.start Site.derive2 i)))
                    (env.status Site.derive2 i)).2)
              else
                ([Event.call Site.ecdhInitialize1 i (env.status Site.ecdhInitialize1 i),
                  Event.call Site.ecdhInitialize2 i (env.status Site.ecdhInitialize2 i),
                  Event.now (env.start Site.derive1 i),
                  Event.call Site.derive1 i (env.status Site.derive1 i),
                  Event.now (env.stop Site.derive1 i), Event.delay,
                  Event.now (env.start Site.derive2 i),
                  Event.call Site.derive2 i (env.status Site.derive2 i),
                  Event.now (env.stop Site.derive2 i), Event.delay],
                 Flow.exit CHIP_ERROR_INTERNAL)
            else
              ([Event.call Site.ecdhInitialize1 i (env.status Site.ecdhInitialize1 i),
                Event.call Site.ecdhInitialize2 i (env.status Site.ecdhInitialize2 i),
                Event.now (env.start Site.derive1 i),
                Event.call Site.derive1 i (env.status Site.derive1 i),
                Event.now (env.stop Site.derive1 i), Event.delay,
                Event.now (env.start Site.derive2 i),
                Event.call Site.derive2 i (env.status Site.derive2 i),
                Event.now (env.stop Site.derive2 i)],
               Flow.exit (env.status Site.derive2 i))
          else
            ([Event.call Site.ecdhInitialize1 i (env.status Site.ecdhInitialize1 i),
              Event.call Site.ecdhInitialize2 i (env.status Site.ecdhInitialize2 i),
              Event.now (env.start Site.derive1 i),
              Event.call Site.derive1 i (env.status Site.derive1 i),
              Event.now (env.stop Site.derive1 i)],
             Flow.exit (env.status Site.derive1 i))
        else
          ([Event.call Site.ecdhInitialize1 i (env.status Site.ecdhInitialize1 i),
            Event.call Site.ecdhInitialize2 i (env.status Site.ecdhInitialize2 i)],
           Flow.exit (env.status Site.ecdhInitialize2 i))
      else
        ([Event.call Site.ecdhInitialize1 i (env.status Site.ecdhInitialize1 i)],
         Flow.exit (env.status Site.ecdhInitialize1 i)) := by
  rw [ecdhLoop]
  by_cases h1 : env.status Site.ecdhInitialize1 i = 0
  · by_cases h2 : env.status Site.ecdhInitialize2 i = 0
    · by_cases h3 : env.status Site.derive1 i = 0
      · by_cases h4 : env.status Site.derive2 i = 0
        · rw [if_pos h1, if_pos h2, if_pos h3, if_pos h4]
          by_cases h5 : (env.secret1 i).length = (env.secret2 i).length
          · have h5b : ((env.secret1 i).length == (env.secret2 i).length) = true := by
              simp [h5]
            by_cases h6 : toUInt8 (env.memcmp (env.secret1 i).bytes (env.secret2 i).bytes
                (env.secret1 i).length) = 0
            · have hc : (env.secret1 i).length = (env.secret2 i).length ∧
                  toUInt8 (env.memcmp (env.secret1 i).bytes (env.secret2 i).bytes
                    (env.secret1 i).length) = 0 := ⟨h5, h6⟩
              rw [if_pos hc]
              simp only [IsSuccess, h1, h2, h3, h4, h5b, h6, boolToInt, beq_self_eq_true,
                if_true, bne_iff_ne, ne_eq, one_ne_zero, not_false_eq_true,
                List.cons_append, List.nil_append, List.append_assoc]
            · have hc : ¬ ((env.secret1 i).length = (env.secret2 i).length ∧
                  toUInt8 (env.memcmp (env.secret1 i).bytes (env.secret2 i).bytes
                    (env.secret1 i).length) = 0) := fun h => h6 h.2
              rw [if_neg hc]
              have h6b : (toUInt8 (env.memcmp (env.secret1 i).bytes (env.secret2 i).bytes
                  (env.secret1 i).length) == 0) = false := by simpa using h6
              simp only [IsSuccess, h1, h2, h3, h4, h5b, h6b, boolToInt, beq_self_eq_true,
                if_true, bne_iff_ne, ne_eq, one_ne_zero, not_false_eq_true,
                List.cons_append, List.nil_append, List.append_assoc]
              rfl
          · have hc : ¬ ((env.secret1 i).length = (env.secret2 i).length ∧
                  toUInt8 (env.memcmp (env.secret1 i).bytes (env.secret2 i).bytes
                    (env.secret1 i).length) = 0) := fun h => h5 h.1
            rw [if_neg hc]
            have h5b : ((env.secret1 i).length == (env.secret2 i).length) = false := by
              simpa using h5
            simp only [IsSuccess, h1, h2, h3, h4, h5b, boolToInt, beq_self_eq_true,
              if_true, List.cons_append, List.nil_append, List.append_assoc]
            rfl
        · simp [IsSuccess, h1, h2, h3, h4]
      · simp [IsSuccess, h1, h2, h3]
    · simp [IsSuccess, h1, h2]
  · simp [IsSuccess, h1]

theorem ecdhLoop_clock (env1 env2 : Env) (tm1 tm2 : Timing)
    (hstatus : env2.status = env1.status) (hsec1 : env2.secret1 = env1.secret1)
    (hsec2 : env2.secret2 = env1.secret2) (hmem : env2.memcmp = env1.memcmp)
    (hop : tm2.opTime = tm1.opTime) :
    ∀ (n i sum e t1 k1 t2 k2 : Nat),
      tm1.agrees t1 k1 (ecdhLoop env1 n i sum e).1 = true →
      tm2.agrees t2 k2 (ecdhLoop env2 n i sum e).1 = true →
      (ecdhLoop env1 n i sum e).2 = (ecdhLoop env2 n i sum e).2 := by
  intro n
  induction n with
  | zero => intro i sum e t1 k1 t2 k2 _ _; simp [ecdhLoop]
  | succ n ih =>
    intro i sum e t1 k1 t2 k2 ha hb
    rw [ecdhLoop_succ] at ha hb ⊢
    rw [ecdhLoop_succ]
    simp only [hstatus, hsec1, hsec2, hmem] at hb ⊢
    split_ifs at ha hb ⊢ with h1 h2 h3 h4 h5
    · simp only [List.cons_append, List.nil_append, Timing.agrees, Bool.and_eq_true,
        beq_iff_eq] at ha hb
      obtain ⟨hs1, he1, hs2, he2, hra⟩ := ha
      obtain ⟨hs1b, he1b, hs2b, he2b, hrb⟩ := hb
      simp only [hs1, he1, hs2, he2, hs1b, he1b, hs2b, he2b, sub32_clock, hop] at hra hrb ⊢
      exact ih _ _ _ _ _ _ _ hra hrb
    all_goals rfl

theorem logLines_append (a b : List Event) : logLines (a ++ b) = logLines a ++ logLines b := by
  simp [logLines]

theorem logLines_signVerifyLoop (env : Env) (err : Nat) : ∀ (n i ss vs : Nat),
    logLines (signVerifyLoop env err n i ss vs).1 = [] := by
  intro n
  induction n with
  | zero => intro i ss vs; simp [signVerifyLoop, logLines]
  | succ n ih =>
    intro i ss vs
    rw [signVerifyLoop_succ]
    split_ifs
    · rw [logLines_append, ih]
      simp [logLines, Event.asLog]
    · simp [logLines, Event.asLog]
    · simp [logLines, Event.asLog]

theorem logLines_ecdhLoop (env : Env) : ∀ (n i sum e : Nat),
    logLines (ecdhLoop env n i sum e).1 = [] := by
  intro n
  induction n with
  | zero => intro i sum e; simp [ecdhLoop, logLines]
  | succ n ih =>
    intro i sum e
    rw [ecdhLoop_succ]
    split_ifs
    · rw [logLines_append, ih]
      simp [logLines, Event.asLog]
    all_goals simp [logLines, Event.asLog]

theorem signVerify_agrees_loop (tm : Timing) (t k : Nat) (env : Env) (N : Nat)
    (hi : IsSuccess (env.status Site.signVerifyInitialize 0) = true)
    (h : tm.agrees t k (TestECDSA_Sign_and_Verify env N).trace = true) :
    tm.agrees (t + tm.opTime Site.signVerifyInitialize 0) k
      (signVerifyLoop env (env.status Site.signVerifyInitialize 0) N 0 0 0).1 = true := by
  unfold TestECDSA_Sign_and_Verify at h
  simp only [hi, if_true] at h
  generalize signVerifyLoop env (env.status Site.signVerifyInitialize 0) N 0 0 0 = r at h ⊢
  rcases r with ⟨tr, fl⟩
  rcases fl with ⟨ss, vs⟩ | e
  · cases hd1 : div32 ss N <;> cases hd2 : div32 vs N <;>
      simp only [hd1, hd2, List.cons_append, List.nil_append, List.append_assoc, Timing.agrees,
        agrees_append, Bool.and_eq_true] at h <;>
      first | exact h | exact h.1
  · simpa only [List.cons_append, List.nil_append, Timing.agrees] using h

theorem signVerify_report_of_flow (env1 env2 : Env) (N : Nat)
    (hstatus : env2.status = env1.status)
    (hflow : (signVerifyLoop env1 (env1.status Site.signVerifyInitialize 0) N 0 0 0).2 =
      (signVerifyLoop env2 (env2.status Site.signVerifyInitialize 0) N 0 0 0).2) :
    logLines (TestECDSA_Sign_and_Verify env1 N).trace =
        logLines (TestECDSA_Sign_and_Verify env2 N).trace ∧
      (TestECDSA_Sign_and_Verify env1 N).ret = (TestECDSA_Sign_and_Verify env2 N).ret := by
  have hl1 := logLines_signVerifyLoop env1 (env1.status Site.signVerifyInitialize 0) N 0 0 0
  have hl2 := logLines_signVerifyLoop env2 (env2.status Site.signVerifyInitialize 0) N 0 0 0
  unfold TestECDSA_Sign_and_Verify
  simp only [hstatus] at hflow hl2 ⊢
  split_ifs with hi
  · generalize signVerifyLoop env1 (env1.status Site.signVerifyInitialize 0) N 0 0 0 = r1
      at hflow hl1 ⊢
    generalize signVerifyLoop env2 (env1.status Site.signVerifyInitialize 0) N 0 0 0 = r2
      at hflow hl2 ⊢
    rcases r1 with ⟨tr1, fl1⟩
    rcases r2 with ⟨tr2, fl2⟩
    simp only at hflow hl1 hl2
    subst hflow
    rcases fl1 with ⟨ss, vs⟩ | e
    · cases hd1 : div32 ss N <;> cases hd2 : div32 vs N <;>
        simp only [hd1, hd2, logLines_append, hl1, hl2] <;> simp
    · simp only [logLines_append, hl1, hl2]
      simp
  · simp

theorem ecdh_agrees_loop (tm : Timing) (t k : Nat) (env : Env) (N : Nat)
    (hs : toUInt8 (env.memcmp (0 :: env.garbage1) (1 :: env.garbage2)
      kMax_ECDH_Secret_Length) ≠ 0)
    (h : tm.agrees t k (TestECDH_EstablishSecret env N).trace = true) :
    tm.agrees t k (ecdhLoop env N 0 0 CHIP_NO_ERROR).1 = true := by
  have hsb : (toUInt8 (env.memcmp (0 :: env.garbage1) (1 :: env.garbage2)
      kMax_ECDH_Secret_Length) != 0) = true := by simpa using hs
  unfold TestECDH_EstablishSecret at h
  simp only [hsb, if_true] at h
  generalize ecdhLoop env N 0 0 CHIP_NO_ERROR = r at h ⊢
  rcases r with ⟨tr, fl⟩
  rcases fl with ⟨sum, e⟩ | e
  · cases hd : div32 sum (mul32 2 N) <;>
      simp only [hd, List.cons_append, List.nil_append, List.append_assoc, Timing.agrees,
        agrees_append, Bool.and_eq_true] at h <;>
      first | exact h | exact h.1
  · simpa only [List.cons_append, List.nil_append, Timing.agrees] using h

theorem ecdh_report_of_flow (env1 env2 : Env) (N : Nat)
    (hg1 : env2.garbage1 = env1.garbage1) (hg2 : env2.garbage2 = env1.garbage2)
    (hmem : env2.memcmp = env1.memcmp)
    (hflow : (ecdhLoop env1 N 0 0 CHIP_NO_ERROR).2 = (ecdhLoop env2 N 0 0 CHIP_NO_ERROR).2) :
    logLines (TestECDH_EstablishSecret env1 N).trace =
        logLines (TestECDH_EstablishSecret env2 N).trace ∧
      (TestECDH_EstablishSecret env1 N).ret = (TestECDH_EstablishSecret env2 N).ret := by
  have hl1 := logLines_ecdhLoop env1 N 0 0 CHIP_NO_ERROR
  have hl2 := logLines_ecdhLoop env2 N 0 0 CHIP_NO_ERROR
  unfold TestECDH_EstablishSecret
  simp only [hg1, hg2, hmem]
  split_ifs with hs
  · generalize ecdhLoop env1 N 0 0 CHIP_NO_ERROR = r1 at hflow hl1 ⊢
    generalize ecdhLoop env2 N 0 0 CHIP_NO_ERROR = r2 at hflow hl2 ⊢
    rcases r1 with ⟨tr1, fl1⟩
    rcases r2 with ⟨tr2, fl2⟩
    simp only at hflow hl1 hl2
    subst hflow
    rcases fl1 with ⟨sum, e⟩ | e
    · cases hd : div32 sum (mul32 2 N) <;>
        simp only [hd, logLines_append, hl1, hl2] <;> simp
    · simp only [logLines_append, hl1, hl2]
      simp
  · simp

/-- C11: the busy-wait delay enters no timing sum.  Take two runs of
`TestECDSA_Sign_and_Verify`, or of `TestECDH_EstablishSecret`, in which every
crypto call returns the same status and data, and whose timer reads show two
clocks under which every crypto call takes the same time; the clocks may
advance by different amounts during each `delay()` (and start at different
times).  Then the sums the loop accumulates, the averages logged and the value
returned are the same in both runs. -/
theorem C11_delay_excluded (env1 env2 : Env) (tm1 tm2 : Timing) (t1 t2 N : Nat)
    (hstatus : env2.status = env1.status)
    (hsec1 : env2.secret1 = env1.secret1) (hsec2 : env2.secret2 = env1.secret2)
    (hg1 : env2.garbage1 = env1.garbage1) (hg2 : env2.garbage2 = env1.garbage2)
    (hmem : env2.memcmp = env1.memcmp)
    (hop : tm2.opTime = tm1.opTime) :
    (tm1.agrees t1 0 (TestECDSA_Sign_and_Verify env1 N).trace = true →
      tm2.agrees t2 0 (TestECDSA_Sign_and_Verify env2 N).trace = true →
      (env1.status Site.signVerifyInitialize 0 = CHIP_NO_ERROR →
        (signVerifyLoop env1 (env1.status Site.signVerifyInitialize 0) N 0 0 0).2 =
          (signVerifyLoop env2 (env2.status Site.signVerifyInitialize 0) N 0 0 0).2) ∧
      logLines (TestECDSA_Sign_and_Verify env1 N).trace =
        logLines (TestECDSA_Sign_and_Verify env2 N).trace ∧
      (TestECDSA_Sign_and_Verify env1 N).ret = (TestECDSA_Sign_and_Verify env2 N).ret) ∧
    (tm1.agrees t1 0 (TestECDH_EstablishSecret env1 N).trace = true →
      tm2.agrees t2 0 (TestECDH_EstablishSecret env2 N).trace = true →
      (toUInt8 (env1.memcmp (0 :: env1.garbage1) (1 :: env1.garbage2)
          kMax_ECDH_Secret_Length) ≠ 0 →
        (ecdhLoop env1 N 0 0 CHIP_NO_ERROR).2 = (ecdhLoop env2 N 0 0 CHIP_NO_ERROR).2) ∧
      logLines (TestECDH_EstablishSecret env1 N).trace =
        logLines (TestECDH_EstablishSecret env2 N).trace ∧
      (TestECDH_EstablishSecret env1 N).ret = (TestECDH_EstablishSecret env2 N).ret) := by
  constructor
  · intro ha hb
    by_cases hi : IsSuccess (env1.status Site.signVerifyInitialize 0) = true
    · have hi2 : IsSuccess (env2.status Site.signVerifyInitialize 0) = true := by
        rw [hstatus]; exact hi
      have hflow := signVerifyLoop_clock env1 env2 tm1 tm2
        (env1.status Site.signVerifyInitialize 0) hstatus hop N 0 0 0 _ _ _ _
        (signVerify_agrees_loop tm1 t1 0 env1 N hi ha)
        (by
          have := signVerify_agrees_loop tm2 t2 0 env2 N hi2 hb
          rwa [hstatus] at this)
      have hflow2 : (signVerifyLoop env1 (env1.status Site.signVerifyInitialize 0) N 0 0 0).2 =
          (signVerifyLoop env2 (env2.status Site.signVerifyInitialize 0) N 0 0 0).2 := by
        rw [hstatus]; exact hflow
      exact ⟨fun _ => hflow2, signVerify_report_of_flow env1 env2 N hstatus hflow2⟩
    · have hne : env1.status Site.signVerifyInitialize 0 ≠ CHIP_NO_ERROR := by
        intro h0
        exact hi ((IsSuccess_iff _).2 h0)
      have hi2 : ¬ IsSuccess (env2.status Site.signVerifyInitialize 0) = true := by
        rw [hstatus]; exact hi
      refine ⟨fun h0 => absurd h0 hne, ?_, ?_⟩
      · unfold TestECDSA_Sign_and_Verify
        simp [hi, hstatus]
      · unfold TestECDSA_Sign_and_Verify
        simp [hi, hstatus]
  · intro ha hb
    by_cases hs : toUInt8 (env1.memcmp (0 :: env1.garbage1) (1 :: env1.garbage2)
        kMax_ECDH_Secret_Length) ≠ 0
    · have hs2 : toUInt8 (env2.memcmp (0 :: env2.garbage1) (1 :: env2.garbage2)
          kMax_ECDH_Secret_Length) ≠ 0 := by
        rw [hg1, hg2, hmem]; exact hs
      have hflow := ecdhLoop_clock env1 env2 tm1 tm2 hstatus hsec1 hsec2 hmem hop
        N 0 0 CHIP_NO_ERROR _ _ _ _
        (ecdh_agrees_loop tm1 t1 0 env1 N hs ha) (ecdh_agrees_loop tm2 t2 0 env2 N hs2 hb)
      exact ⟨fun _ => hflow, ecdh_report_of_flow env1 env2 N hg1 hg2 hmem hflow⟩
    · have hsb : (toUInt8 (env1.memcmp (0 :: env1.garbage1) (1 :: env1.garbage2)
          kMax_ECDH_Secret_Length) != 0) = false := by simpa using hs
      refine ⟨fun h0 => absurd h0 hs, ?_, ?_⟩
      · unfold TestECDH_EstablishSecret
        simp [hg1, hg2, hmem, hsb]
      · unfold TestECDH_EstablishSecret
        simp [hg1, hg2, hmem, hsb]

/-- C11 (witness): three iterations under two clocks that differ only in the
length of the delays (96 ms and 891 ms against 50 ms): both runs log the same
averages. -/
theorem C11_delay_excluded_witness :
    sampleTiming.agrees 0 0 (TestECDSA_Sign_and_Verify envOk 3).trace = true ∧
    shortDelayTiming.agrees 0 0 (TestECDSA_Sign_and_Verify envShortDelay 3).trace = true ∧
    sampleTiming.agrees 0 0 (TestECDH_EstablishSecret envOk 3).trace = true ∧
    shortDelayTiming.agrees 0 0 (TestECDH_EstablishSecret envShortDelay 3).trace = true ∧
    (TestECDSA_Sign_and_Verify envOk 3).trace ≠ (TestECDSA_Sign_and_Verify envShortDelay 3).trace ∧
    logLines (TestECDSA_Sign_and_Verify envOk 3).trace =
      logLines (TestECDSA_Sign_and_Verify envShortDelay 3).trace ∧
    logLines (TestECDH_EstablishSecret envOk 3).trace =
      logLines (TestECDH_EstablishSecret envShortDelay 3).trace :=
  have h := C11_delay_excluded envOk envShortDelay sampleTiming shortDelayTiming 0 0 3
    rfl rfl rfl rfl rfl rfl rfl
  ⟨by decide, by decide, by decide, by decide, by decide,
   (h.1 (by decide) (by decide)).2.1, (h.2 (by decide) (by decide)).2.1⟩

/-! ## The accumulators -/

theorem add32_le_iff (sum d : Nat) (hsum : sum < 2 ^ 32) (hd : d < 2 ^ 32) :
    sum ≤ add32 sum d ↔ sum + d < 2 ^ 32 := by
  unfold add32
  omega

theorem sub32_lt (a b : Nat) : sub32 a b < 2 ^ 32 := by
  unfold sub32
  omega

theorem add32_lt (a b : Nat) : add32 a b < 2 ^ 32 := by
  unfold add32
  omega

theorem envOk_keyGen_interval (j : Nat) :
    sub32 (envOk.stop Site.keyGenInitialize j) (envOk.start Site.keyGenInitialize j) = 4 := by
  show sub32 (sampleStop Site.keyGenInitialize j) (sampleStart Site.keyGenInitialize j) = 4
  simp only [sampleStop, sampleStart, sub32]
  simp
  omega

theorem envOk_keyGen_sum (n : Nat) (hn : 1 ≤ n) :
    (keyGenLoop envOk n 0 0 CHIP_NO_ERROR).2 = Flow.done ((n * 4) % 2 ^ 32, CHIP_NO_ERROR) := by
  rw [keyGenLoop_ok envOk n 0 0 CHIP_NO_ERROR (fun _ _ => rfl), accumulate_zero]
  have hn0 : n ≠ 0 := by omega
  simp [envOk_keyGen_interval, hn0, CHIP_NO_ERROR]

/-- C12 (counterexample): in a run of `TestECDSA_KeyGeneration` in which every
`Initialize` succeeds and takes 4 ms, `sum` is `2 ^ 32 - 4` once `2 ^ 30 - 1`
iterations are done, and the next iteration, which adds 4, leaves it at 0. -/
theorem C12_counterexample_sum_wraps :
    (keyGenLoop envOk (2 ^ 30 - 1) 0 0 CHIP_NO_ERROR).2 =
      Flow.done (2 ^ 32 - 4, CHIP_NO_ERROR) ∧
    (keyGenLoop envOk 1 (2 ^ 30 - 1) (2 ^ 32 - 4) CHIP_NO_ERROR).2 =
      Flow.done (0, CHIP_NO_ERROR) ∧
    ¬ (2 ^ 32 - 4 ≤ 0) := by
  refine ⟨?_, ?_, by norm_num⟩
  · rw [envOk_keyGen_sum _ (by norm_num)]
    norm_num
  · have h0 : envOk.status Site.keyGenInitialize (2 ^ 30 - 1) = 0 := rfl
    rw [keyGenLoop_succ, if_pos h0]
    simp only [keyGenLoop, envOk_keyGen_interval, h0]
    norm_num [add32, CHIP_NO_ERROR]

theorem keyGenLoop_add (env : Env) : ∀ (k m i sum e : Nat),
    (keyGenLoop env (k + m) i sum e).2 =
      match (keyGenLoop env k i sum e).2 with
      | Flow.done (s, e1) => (keyGenLoop env m (i + k) s e1).2
      | Flow.exit err => Flow.exit err := by
  intro k
  induction k with
  | zero => intro m i sum e; simp [keyGenLoop]
  | succ k ih =>
    intro m i sum e
    rw [show k + 1 + m = (k + m) + 1 by omega, keyGenLoop_succ, keyGenLoop_succ]
    split_ifs with h
    · simp only [ih]
      rw [show i + 1 + k = i + (k + 1) by omega]
    · rfl

theorem signVerifyLoop_add (env : Env) (err : Nat) : ∀ (k m i ss vs : Nat),
    (signVerifyLoop env err (k + m) i ss vs).2 =
      match (signVerifyLoop env err k i ss vs).2 with
      | Flow.done (s, v) => (signVerifyLoop env err m (i + k) s v).2
      | Flow.exit e => Flow.exit e := by
  intro k
  induction k with
  | zero => intro m i ss vs; simp [signVerifyLoop]
  | succ k ih =>
    intro m i ss vs
    rw [show k + 1 + m = (k + m) + 1 by omega, signVerifyLoop_succ, signVerifyLoop_succ]
    split_ifs with h1 h2
    · simp only [ih]
      rw [show i + 1 + k = i + (k + 1) by omega]
    · rfl
    · rfl

theorem ecdhLoop_add (env : Env) : ∀ (k m i sum e : Nat),
    (ecdhLoop env (k + m) i sum e).2 =
      match (ecdhLoop env k i sum e).2 with
      | Flow.done (s, e1) => (ecdhLoop env m (i + k) s e1).2
      | Flow.exit err => Flow.exit err := by
  intro k
  induction k with
  | zero => intro m i sum e; simp [ecdhLoop]
  | succ k ih =>
    intro m i sum e
    rw [show k + 1 + m = (k + m) + 1 by omega, ecdhLoop_succ, ecdhLoop_succ]
    split_ifs with h1 h2 h3 h4 h5
    · simp only [ih]
      rw [show i + 1 + k = i + (k + 1) by omega]
    all_goals rfl

theorem keyGenLoop_lt (env : Env) : ∀ (n i sum e s e1 : Nat), sum < 2 ^ 32 →
    (keyGenLoop env n i sum e).2 = Flow.done (s, e1) → s < 2 ^ 32 := by
  intro n
  induction n with
  | zero =>
    intro i sum e s e1 hs h
    simp only [keyGenLoop, Flow.done.injEq, Prod.mk.injEq] at h
    omega
  | succ n ih =>
    intro i sum e s e1 _ h
    rw [keyGenLoop_succ] at h
    split_ifs at h with h1
    exact ih _ _ _ _ _ (add32_lt _ _) h

theorem signVerifyLoop_lt (env : Env) (err : Nat) : ∀ (n i ss vs s v : Nat),
    ss < 2 ^ 32 → vs < 2 ^ 32 →
    (signVerifyLoop env err n i ss vs).2 = Flow.done (s, v) → s < 2 ^ 32 ∧ v < 2 ^ 32 := by
  intro n
  induction n with
  | zero =>
    intro i ss vs s v hs hv h
    simp only [signVerifyLoop, Flow.done.injEq, Prod.mk.injEq] at h
    omega
  | succ n ih =>
    intro i ss vs s v _ _ h
    rw [signVerifyLoop_succ] at h
    split_ifs at h with h1 h2
    exact ih _ _ _ _ _ (add32_lt _ _) (add32_lt _ _) h

theorem ecdhLoop_lt (env : Env) : ∀ (n i sum e s e1 : Nat), sum < 2 ^ 32 →
    (ecdhLoop env n i sum e).2 = Flow.done (s, e1) → s < 2 ^ 32 := by
  intro n
  induction n with
  | zero =>
    intro i sum e s e1 hs h
    simp only [ecdhLoop, Flow.done.injEq, Prod.mk.injEq] at h
    omega
  | succ n ih =>
    intro i sum e s e1 _ h
    rw [ecdhLoop_succ] at h
    split_ifs at h with h1 h2 h3 h4 h5
    exact ih _ _ _ _ _ (add32_lt _ _) h

/-- C12 (amended): in each benchmark routine every addition to a timing
accumulator yields the old value plus the measured interval modulo `2 ^ 32`;
the new value is greater than or equal to the old one exactly when that sum
stays below `2 ^ 32`.  Here `s` is the accumulator once `k` iterations of a
run are done and `s'` its value one iteration later; an iteration of
`TestECDH_EstablishSecret` adds two intervals in turn. -/
theorem C12_sum_monotone_unless_wrap (env : Env) (k : Nat) :
    (∀ s e s' e', (keyGenLoop env k 0 0 CHIP_NO_ERROR).2 = Flow.done (s, e) →
      (keyGenLoop env (k + 1) 0 0 CHIP_NO_ERROR).2 = Flow.done (s', e') →
      s' = (s + sub32 (env.stop Site.keyGenInitialize k)
        (env.start Site.keyGenInitialize k)) % 2 ^ 32 ∧
      (s ≤ s' ↔ s + sub32 (env.stop Site.keyGenInitialize k)
        (env.start Site.keyGenInitialize k) < 2 ^ 32)) ∧
    (∀ err ss vs ss' vs', (signVerifyLoop env err k 0 0 0).2 = Flow.done (ss, vs) →
      (signVerifyLoop env err (k + 1) 0 0 0).2 = Flow.done (ss', vs') →
      ss' = (ss + sub32 (env.stop Site.sign k) (env.start Site.sign k)) % 2 ^ 32 ∧
      (ss ≤ ss' ↔ ss + sub32 (env.stop Site.sign k) (env.start Site.sign k) < 2 ^ 32) ∧
      vs' = (vs + sub32 (env.stop Site.validate k) (env.start Site.validate k)) % 2 ^ 32 ∧
      (vs ≤ vs' ↔
        vs + sub32 (env.stop Site.validate k) (env.start Site.validate k) < 2 ^ 32)) ∧
    (∀ s e s' e', (ecdhLoop env k 0 0 CHIP_NO_ERROR).2 = Flow.done (s, e) →
      (ecdhLoop env (k + 1) 0 0 CHIP_NO_ERROR).2 = Flow.done (s', e') →
      s' = ((s + sub32 (env.stop Site.derive1 k) (env.start Site.derive1 k)) % 2 ^ 32 +
        sub32 (env.stop Site.derive2 k) (env.start Site.derive2 k)) % 2 ^ 32 ∧
      (s ≤ (s + sub32 (env.stop Site.derive1 k) (env.start Site.derive1 k)) % 2 ^ 32 ↔
        s + sub32 (env.stop Site.derive1 k) (env.start Site.derive1 k) < 2 ^ 32) ∧
      ((s + sub32 (env.stop Site.derive1 k) (env.start Site.derive1 k)) % 2 ^ 32 ≤ s' ↔
        (s + sub32 (env.stop Site.derive1 k) (env.start Site.derive1 k)) % 2 ^ 32 +
          sub32 (env.stop Site.derive2 k) (env.start Site.derive2 k) < 2 ^ 32)) := by
  refine ⟨?_, ?_, ?_⟩
  · intro s e s' e' h1 h2
    have hlt := keyGenLoop_lt env k 0 0 CHIP_NO_ERROR s e (by norm_num) h1
    have hd := sub32_lt (env.stop Site.keyGenInitialize k) (env.start Site.keyGenInitialize k)
    rw [keyGenLoop_add env k 1 0 0 CHIP_NO_ERROR, h1] at h2
    simp only [Nat.zero_add] at h2
    rw [keyGenLoop_succ] at h2
    split_ifs at h2 with h0
    simp only [keyGenLoop, Flow.done.injEq, Prod.mk.injEq, add32] at h2
    obtain ⟨hs', -⟩ := h2
    subst hs'
    exact ⟨rfl, add32_le_iff _ _ hlt hd⟩
  · intro err ss vs ss' vs' h1 h2
    have hlt := signVerifyLoop_lt env err k 0 0 0 ss vs (by norm_num) (by norm_num) h1
    have hd1 := sub32_lt (env.stop Site.sign k) (env.start Site.sign k)
    have hd2 := sub32_lt (env.stop Site.validate k) (env.start Site.validate k)
    rw [signVerifyLoop_add env err k 1 0 0 0, h1] at h2
    simp only [Nat.zero_add] at h2
    rw [signVerifyLoop_succ] at h2
    split_ifs at h2 with h0 h0'
    simp only [signVerifyLoop, Flow.done.injEq, Prod.mk.injEq, add32] at h2
    obtain ⟨hs', hv'⟩ := h2
    subst hs' hv'
    exact ⟨rfl, add32_le_iff _ _ hlt.1 hd1, rfl, add32_le_iff _ _ hlt.2 hd2⟩
  · intro s e s' e' h1 h2
    have hlt := ecdhLoop_lt env k 0 0 CHIP_NO_ERROR s e (by norm_num) h1
    have hd1 := sub32_lt (env.stop Site.derive1 k) (env.start Site.derive1 k)
    have hd2 := sub32_lt (env.stop Site.derive2 k) (env.start Site.derive2 k)
    rw [ecdhLoop_add env k 1 0 0 CHIP_NO_ERROR, h1] at h2
    simp only [Nat.zero_add] at h2
    rw [ecdhLoop_succ] at h2
    split_ifs at h2 with h01 h02 h03 h04 h05
    simp only [ecdhLoop, Flow.done.injEq, Prod.mk.injEq, add32] at h2
    obtain ⟨hs', -⟩ := h2
    subst hs'
    exact ⟨rfl, add32_le_iff _ _ hlt hd1, add32_le_iff _ _ (add32_lt _ _) hd2⟩

/-- C12 (witness): in the run in which every `Initialize` takes 4 ms, `sum` goes
from 8 to 12 in the third iteration, and from `2 ^ 32 - 4` to 0 in iteration
`2 ^ 30`. -/
theorem C12_sum_monotone_unless_wrap_witness :
    (12 = (8 + sub32 (envOk.stop Site.keyGenInitialize 2)
        (envOk.start Site.keyGenInitialize 2)) % 2 ^ 32 ∧
      (8 ≤ 12 ↔ 8 + sub32 (envOk.stop Site.keyGenInitialize 2)
        (envOk.start Site.keyGenInitialize 2) < 2 ^ 32)) ∧
    (0 = (2 ^ 32 - 4 + sub32 (envOk.stop Site.keyGenInitialize (2 ^ 30 - 1))
        (envOk.start Site.keyGenInitialize (2 ^ 30 - 1))) % 2 ^ 32 ∧
      (2 ^ 32 - 4 ≤ 0 ↔ 2 ^ 32 - 4 + sub32 (envOk.stop Site.keyGenInitialize (2 ^ 30 - 1))
        (envOk.start Site.keyGenInitialize (2 ^ 30 - 1)) < 2 ^ 32)) :=
  ⟨(C12_sum_monotone_unless_wrap envOk 2).1 8 CHIP_NO_ERROR 12 CHIP_NO_ERROR
      (by decide) (by decide),
   (C12_sum_monotone_unless_wrap envOk (2 ^ 30 - 1)).1 (2 ^ 32 - 4) CHIP_NO_ERROR 0
      CHIP_NO_ERROR
      (by rw [envOk_keyGen_sum _ (by norm_num)]; norm_num)
      (by
        rw [show 2 ^ 30 - 1 + 1 = 2 ^ 30 by norm_num, envOk_keyGen_sum _ (by norm_num)]
        norm_num)⟩

/-! ## Properties of `TestECC_Operations` and `main_task` -/

/-- C13 (counterexample): `TestECC_Operations(0)` calls
`TestECDSA_KeyGeneration(0)`, which divides `sum` by zero; the function does
not get to call `TestECDSA_Sign_and_Verify`. -/
theorem C13_counterexample_zero_iterations :
    TestECC_Operations false envOk 0 =
      ⟨[SuiteEvent.log "Standard mbedtls used" none, SuiteEvent.log "Iterations: %lu" (some 0),
        SuiteEvent.invoke Routine.TestECDSA_KeyGeneration 0
          ⟨[Event.log "Start ECDSA key generation test" none], none⟩], false⟩ := by
  decide

/-- C13 (amended): whenever the three benchmark routines return for the count
`N` (none of them divides by zero; by C3 this holds for every `N` with
`1 ≤ N < 2 ^ 32` other than `2 ^ 31`), `TestECC_Operations(N)` calls
`TestECDSA_KeyGeneration`, `TestECDSA_Sign_and_Verify` and
`TestECDH_EstablishSecret` once each, in that order and with argument `N`,
whatever each returns, logs the line "<routine> error" after exactly those
calls whose value is not `CHIP_NO_ERROR`, and returns. -/
theorem C13_suite_runs_all (tc : Bool) (env : Env) (N : Nat)
    (h1 : (TestECDSA_KeyGeneration env N).ret ≠ none)
    (h2 : (TestECDSA_Sign_and_Verify env N).ret ≠ none)
    (h3 : (TestECDH_EstablishSecret env N).ret ≠ none) :
    TestECC_Operations tc env N =
      ⟨[SuiteEvent.log (if tc then "Tinycrypt used" else "Standard mbedtls used") none,
        SuiteEvent.log "Iterations: %lu" (some N),
        SuiteEvent.invoke Routine.TestECDSA_KeyGeneration N (TestECDSA_KeyGeneration env N)] ++
        (if (TestECDSA_KeyGeneration env N).ret = some CHIP_NO_ERROR then []
          else [SuiteEvent.log "TestECDSA_KeyGeneration error" none]) ++
        [SuiteEvent.invoke Routine.TestECDSA_Sign_and_Verify N
          (TestECDSA_Sign_and_Verify env N)] ++
        (if (TestECDSA_Sign_and_Verify env N).ret = some CHIP_NO_ERROR then []
          else [SuiteEvent.log "TestECDSA_Sign_and_Verify error" none]) ++
        [SuiteEvent.invoke Routine.TestECDH_EstablishSecret N
          (TestECDH_EstablishSecret env N)] ++
        (if (TestECDH_EstablishSecret env N).ret = some CHIP_NO_ERROR then []
          else [SuiteEvent.log "TestECDH_EstablishSecret error" none]),
       true⟩ := by
  unfold TestECC_Operations
  generalize TestECDSA_KeyGeneration env N = r1 at h1 ⊢
  generalize TestECDSA_Sign_and_Verify env N = r2 at h2 ⊢
  generalize TestECDH_EstablishSecret env N = r3 at h3 ⊢
  rcases r1 with ⟨tr1, _ | ret1⟩
  · exact absurd rfl h1
  rcases r2 with ⟨tr2, _ | ret2⟩
  · exact absurd rfl h2
  rcases r3 with ⟨tr3, _ | ret3⟩
  · exact absurd rfl h3
  by_cases e1 : ret1 = CHIP_NO_ERROR <;> by_cases e2 : ret2 = CHIP_NO_ERROR <;>
    by_cases e3 : ret3 = CHIP_NO_ERROR <;> simp [e1, e2, e3]

/-- C13 (witness): three iterations in which key generation and the ECDH test
fail, while `TestECDSA_Sign_and_Verify` returns `CHIP_NO_ERROR`. -/
theorem C13_suite_runs_all_witness :
    (TestECDSA_KeyGeneration envLateFailures 3).ret ≠ none ∧
    (TestECDSA_Sign_and_Verify envLateFailures 3).ret ≠ none ∧
    (TestECDH_EstablishSecret envLateFailures 3).ret ≠ none ∧
    TestECC_Operations true envLateFailures 3 =
      ⟨[SuiteEvent.log "Tinycrypt used" none, SuiteEvent.log "Iterations: %lu" (some 3),
        SuiteEvent.invoke Routine.TestECDSA_KeyGeneration 3
          (TestECDSA_KeyGeneration envLateFailures 3),
        SuiteEvent.log "TestECDSA_KeyGeneration error" none,
        SuiteEvent.invoke Routine.TestECDSA_Sign_and_Verify 3
          (TestECDSA_Sign_and_Verify envLateFailures 3),
        SuiteEvent.invoke Routine.TestECDH_EstablishSecret 3
          (TestECDH_EstablishSecret envLateFailures 3),
        SuiteEvent.log "TestECDH_EstablishSecret error" none], true⟩ := by
  refine ⟨by decide, by decide, by decide, ?_⟩
  rw [C13_suite_runs_all true envLateFailures 3 (by decide) (by decide) (by decide)]
  decide

/-- C17: in `main_task` of the ecc-testing example, when `InitChipStack`,
`InitThreadStack`, `SetThreadDeviceType` and `StartEventLoopTask` all return
`CHIP_NO_ERROR`, they are called in that order and `TestECC_Operations` is then
called once, with 30 iterations, as the last thing the task does; when one of
them returns an error, `TestECC_Operations` is not called: the task returns
after the first failing call and its log line, if it has one. -/
theorem C17_main_task_runs_suite (tc : Bool) (status : BringUp → CHIP_ERROR) (env : Env) :
    ((∀ s, status s = CHIP_NO_ERROR) →
      main_task tc status env =
        mainPrelude ++
          [MainEvent.bringUp BringUp.InitChipStack CHIP_NO_ERROR,
           MainEvent.bringUp BringUp.InitThreadStack CHIP_NO_ERROR,
           MainEvent.bringUp BringUp.SetThreadDeviceType CHIP_NO_ERROR,
           MainEvent.bringUp BringUp.StartEventLoopTask CHIP_NO_ERROR,
           MainEvent.suite 30 (TestECC_Operations tc env 30)]) ∧
    ((∃ s, status s ≠ CHIP_NO_ERROR) →
      ∀ n run, MainEvent.suite n run ∉ main_task tc status env) ∧
    (status BringUp.InitChipStack ≠ CHIP_NO_ERROR →
      main_task tc status env =
        mainPrelude ++
          [MainEvent.bringUp BringUp.InitChipStack (status BringUp.InitChipStack),
           MainEvent.log "Error during PlatformMgr().InitWeaveStack()"]) ∧
    (status BringUp.InitChipStack = CHIP_NO_ERROR →
      status BringUp.InitThreadStack ≠ CHIP_NO_ERROR →
      main_task tc status env =
        mainPrelude ++
          [MainEvent.bringUp BringUp.InitChipStack CHIP_NO_ERROR,
           MainEvent.bringUp BringUp.InitThreadStack (status BringUp.InitThreadStack),
           MainEvent.log "Error during ThreadStackMgr().InitThreadStack()"]) ∧
    (status BringUp.InitChipStack = CHIP_NO_ERROR →
      status BringUp.InitThreadStack = CHIP_NO_ERROR →
      status BringUp.SetThreadDeviceType ≠ CHIP_NO_ERROR →
      main_task tc status env =
        mainPrelude ++
          [MainEvent.bringUp BringUp.InitChipStack CHIP_NO_ERROR,
           MainEvent.bringUp BringUp.InitThreadStack CHIP_NO_ERROR,
           MainEvent.bringUp BringUp.SetThreadDeviceType
            (status BringUp.SetThreadDeviceType)]) ∧
    (status BringUp.InitChipStack = CHIP_NO_ERROR →
      status BringUp.InitThreadStack = CHIP_NO_ERROR →
      status BringUp.SetThreadDeviceType = CHIP_NO_ERROR →
      status BringUp.StartEventLoopTask ≠ CHIP_NO_ERROR →
      main_task tc status env =
        mainPrelude ++
          [MainEvent.bringUp BringUp.InitChipStack CHIP_NO_ERROR,
           MainEvent.bringUp BringUp.InitThreadStack CHIP_NO_ERROR,
           MainEvent.bringUp BringUp.SetThreadDeviceType CHIP_NO_ERROR,
           MainEvent.bringUp BringUp.StartEventLoopTask (status BringUp.StartEventLoopTask),
           MainEvent.log "Error during PlatformMgr().StartEventLoopTask();"]) := by
  refine ⟨fun h => by simp [main_task, h], ?_, fun h1 => by simp [main_task, h1],
    fun h1 h2 => by simp [main_task, h1, h2], fun h1 h2 h3 => by simp [main_task, h1, h2, h3],
    fun h1 h2 h3 h4 => by simp [main_task, h1, h2, h3, h4]⟩
  rintro ⟨s, hs⟩ n run
  by_cases h1 : status BringUp.InitChipStack = CHIP_NO_ERROR
  · by_cases h2 : status BringUp.InitThreadStack = CHIP_NO_ERROR
    · by_cases h3 : status BringUp.SetThreadDeviceType = CHIP_NO_ERROR
      · have h4 : status BringUp.StartEventLoopTask ≠ CHIP_NO_ERROR := by
          intro h4
          cases s <;> simp_all
        simp [main_task, mainPrelude, h1, h2, h3, h4]
      · simp [main_task, mainPrelude, h1, h2, h3]
    · simp [main_task, mainPrelude, h1, h2]
  · simp [main_task, mainPrelude, h1]

/-- C17 (witness): a bring-up in which every call succeeds, and one in which
`SetThreadDeviceType` fails. -/
theorem C17_main_task_runs_suite_witness :
    main_task false (fun _ => CHIP_NO_ERROR) envOk =
      mainPrelude ++
        [MainEvent.bringUp BringUp.InitChipStack CHIP_NO_ERROR,
         MainEvent.bringUp BringUp.InitThreadStack CHIP_NO_ERROR,
         MainEvent.bringUp BringUp.SetThreadDeviceType CHIP_NO_ERROR,
         MainEvent.bringUp BringUp.StartEventLoopTask CHIP_NO_ERROR,
         MainEvent.suite 30 (TestECC_Operations false envOk 30)] ∧
    ∀ n run, MainEvent.suite n run ∉
      main_task false
        (fun s => if s = BringUp.SetThreadDeviceType then CHIP_ERROR_INTERNAL
          else CHIP_NO_ERROR) envOk :=
  ⟨(C17_main_task_runs_suite false (fun _ => CHIP_NO_ERROR) envOk).1 (fun _ => rfl),
   (C17_main_task_runs_suite false
      (fun s => if s = BringUp.SetThreadDeviceType then CHIP_ERROR_INTERNAL
        else CHIP_NO_ERROR) envOk).2.1 ⟨BringUp.SetThreadDeviceType, by decide⟩⟩

/-! ## The measured interval -/

/-- C23: when the timer read after a call is `(start + d) mod 2 ^ 32` for an
elapsed time `d < 2 ^ 32`, the difference `stop - start` the routines compute
in 32-bit unsigned arithmetic is `d`, whether or not the timer wrapped between
the two reads; and `d` is what an iteration that passes its checks adds to the
accumulator, in each of the three loops. -/
theorem C23_interval_wrap_safe (env : Env) (i : Nat) :
    (∀ s d, d < 2 ^ 32 → env.stop s i = (env.start s i + d) % 2 ^ 32 →
      sub32 (env.stop s i) (env.start s i) = d) ∧
    (∀ d sum e, d < 2 ^ 32 →
      env.stop Site.keyGenInitialize i = (env.start Site.keyGenInitialize i + d) % 2 ^ 32 →
      env.status Site.keyGenInitialize i = CHIP_NO_ERROR →
      (keyGenLoop env 1 i sum e).2 = Flow.done (add32 sum d, CHIP_NO_ERROR)) ∧
    (∀ d1 d2 err ss vs, d1 < 2 ^ 32 → d2 < 2 ^ 32 →
      env.stop Site.sign i = (env.start Site.sign i + d1) % 2 ^ 32 →
      env.stop Site.validate i = (env.start Site.validate i + d2) % 2 ^ 32 →
      env.status Site.sign i = CHIP_NO_ERROR → env.status Site.validate i = CHIP_NO_ERROR →
      (signVerifyLoop env err 1 i ss vs).2 = Flow.done (add32 ss d1, add32 vs d2)) ∧
    (∀ d1 d2 sum e, d1 < 2 ^ 32 → d2 < 2 ^ 32 →
      env.stop Site.derive1 i = (env.start Site.derive1 i + d1) % 2 ^ 32 →
      env.stop Site.derive2 i = (env.start Site.derive2 i + d2) % 2 ^ 32 →
      ecdhIterationOk env i →
      (ecdhLoop env 1 i sum e).2 = Flow.done (add32 (add32 sum d1) d2, CHIP_NO_ERROR)) := by
  have key : ∀ s d, d < 2 ^ 32 → env.stop s i = (env.start s i + d) % 2 ^ 32 →
      sub32 (env.stop s i) (env.start s i) = d := by
    intro s d hd hstop
    rw [hstop]
    unfold sub32
    omega
  refine ⟨key, ?_, ?_, ?_⟩
  · intro d sum e hd hstop hok
    have h0 : env.status Site.keyGenInitialize i = 0 := hok
    rw [keyGenLoop_succ, if_pos h0, key _ d hd hstop, h0]
    rfl
  · intro d1 d2 err ss vs hd1 hd2 hs1 hs2 hok1 hok2
    have h1 : env.status Site.sign i = 0 := hok1
    have h2 : env.status Site.validate i = 0 := hok2
    rw [signVerifyLoop_succ, if_pos h1, if_pos h2, key _ d1 hd1 hs1, key _ d2 hd2 hs2]
    rfl
  · intro d1 d2 sum e hd1 hd2 hs1 hs2 hok
    rw [ecdhLoop_succ_ok env 0 i sum e hok, key _ d1 hd1 hs1, key _ d2 hd2 hs2]
    rfl

/-- C23 (witness): the timer reads `2 ^ 32 - 3` before each call and 5 after it;
the interval computed is 8, and one iteration of each loop adds 8. -/
theorem C23_interval_wrap_safe_witness :
    sub32 5 (2 ^ 32 - 3) = 8 ∧
    (keyGenLoop envTimerWraps 1 0 100 CHIP_NO_ERROR).2 = Flow.done (108, CHIP_NO_ERROR) ∧
    (signVerifyLoop envTimerWraps CHIP_NO_ERROR 1 0 100 200).2 = Flow.done (108, 208) ∧
    (ecdhLoop envTimerWraps 1 0 100 CHIP_NO_ERROR).2 = Flow.done (116, CHIP_NO_ERROR) :=
  have h := C23_interval_wrap_safe envTimerWraps 0
  ⟨h.1 Site.sign 8 (by norm_num) (by decide),
   h.2.1 8 100 CHIP_NO_ERROR (by norm_num) (by decide) rfl,
   h.2.2.1 8 8 CHIP_NO_ERROR 100 200 (by norm_num) (by norm_num) (by decide) (by decide)
     rfl rfl,
   h.2.2.2 8 8 100 CHIP_NO_ERROR (by norm_num) (by norm_num) (by decide) (by decide)
     ⟨rfl, rfl, rfl, rfl, rfl, by decide⟩⟩

end EccTesting

namespace TinycryptTest

open EccTesting (CHIP_ERROR CHIP_NO_ERROR CHIP_ERROR_INTERNAL)

/-! ## Properties of the tinycrypt test -/

theorem toInt_of_le (size : Nat) (h : size ≤ 2 ^ 31 - 1) : toInt size = (size : Int) := by
  unfold toInt
  have h1 : size % 2 ^ 32 = size := Nat.mod_eq_of_lt (by omega)
  rw [h1, if_pos (by omega)]

/-- C16: `uecc_rng_wrapper(dest, size)` returns `size` (converted to `int`)
when `DRBG_get_bytes(dest, size)` returns `CHIP_NO_ERROR` and 0 otherwise; for
`size ≤ INT_MAX` the conversion changes nothing, and for `0 < size ≤ INT_MAX`
the value returned is non-zero exactly when the random fill succeeded. -/
theorem C16_rng_wrapper (drbg : CHIP_ERROR) (size : Nat) :
    (drbg = CHIP_NO_ERROR → uecc_rng_wrapper drbg size = toInt size) ∧
    (drbg ≠ CHIP_NO_ERROR → uecc_rng_wrapper drbg size = 0) ∧
    (size ≤ 2 ^ 31 - 1 → drbg = CHIP_NO_ERROR → uecc_rng_wrapper drbg size = (size : Int)) ∧
    (0 < size → size ≤ 2 ^ 31 - 1 →
      (uecc_rng_wrapper drbg size ≠ 0 ↔ drbg = CHIP_NO_ERROR)) := by
  refine ⟨?_, ?_, ?_, ?_⟩
  · intro h
    simp [uecc_rng_wrapper, h]
  · intro h
    simp [uecc_rng_wrapper, h, toInt]
  · intro hs h
    simp [uecc_rng_wrapper, h, toInt_of_le size hs]
  · intro h0 hs
    by_cases h : drbg = CHIP_NO_ERROR
    · simp only [uecc_rng_wrapper, h, beq_self_eq_true, if_true, toInt_of_le size hs]
      simp
      omega
    · simp [uecc_rng_wrapper, h, toInt]

/-- C16 (witness): the fill of the 32-byte hash. -/
theorem C16_rng_wrapper_witness :
    0 < NUM_ECC_BYTES ∧ NUM_ECC_BYTES ≤ 2 ^ 31 - 1 ∧
    uecc_rng_wrapper CHIP_NO_ERROR NUM_ECC_BYTES = 32 ∧
    uecc_rng_wrapper CHIP_ERROR_INTERNAL NUM_ECC_BYTES = 0 ∧
    (uecc_rng_wrapper CHIP_ERROR_INTERNAL NUM_ECC_BYTES ≠ 0 ↔
      CHIP_ERROR_INTERNAL = CHIP_NO_ERROR) :=
  have h := C16_rng_wrapper CHIP_ERROR_INTERNAL NUM_ECC_BYTES
  ⟨by decide, by decide,
   (C16_rng_wrapper CHIP_NO_ERROR NUM_ECC_BYTES).2.2.1 (by decide) rfl,
   h.2.1 (by decide), h.2.2.2 (by decide) (by decide)⟩

/-- C14: `test_ecdh` returns `CHIP_NO_ERROR` exactly when both
`uECC_make_key` calls and both `uECC_shared_secret` calls return
`UECC_SUCCESS` and `memcmp` finds the two 32-byte secrets equal; in every
other case it returns `CHIP_ERROR_INTERNAL`; and the steps it executes are
those up to and including the first one whose check fails. -/
theorem C14_test_ecdh (env : Env) :
    ((test_ecdh env).ret = CHIP_NO_ERROR ↔
      env.result Site.makeKey1 = env.UECC_SUCCESS ∧
      env.result Site.makeKey2 = env.UECC_SUCCESS ∧
      env.result Site.sharedSecret1 = env.UECC_SUCCESS ∧
      env.result Site.sharedSecret2 = env.UECC_SUCCESS ∧
      env.memcmp env.secret1 env.secret2 NUM_ECC_BYTES = 0) ∧
    ((test_ecdh env).ret ≠ CHIP_NO_ERROR → (test_ecdh env).ret = CHIP_ERROR_INTERNAL) ∧
    steps (test_ecdh env).trace =
      throughFirstFailure (stepPasses env)
        [Event.call Site.makeKey1 (env.result Site.makeKey1),
         Event.call Site.makeKey2 (env.result Site.makeKey2),
         Event.call Site.sharedSecret1 (env.result Site.sharedSecret1),
         Event.call Site.sharedSecret2 (env.result Site.sharedSecret2),
         Event.compare (env.memcmp env.secret1 env.secret2 NUM_ECC_BYTES)] ∧
    ((env.memcmp env.secret1 env.secret2 NUM_ECC_BYTES = 0 ↔
        env.secret1.take NUM_ECC_BYTES = env.secret2.take NUM_ECC_BYTES) →
      ((test_ecdh env).ret = CHIP_NO_ERROR ↔
        env.result Site.makeKey1 = env.UECC_SUCCESS ∧
        env.result Site.makeKey2 = env.UECC_SUCCESS ∧
        env.result Site.sharedSecret1 = env.UECC_SUCCESS ∧
        env.result Site.sharedSecret2 = env.UECC_SUCCESS ∧
        env.secret1.take NUM_ECC_BYTES = env.secret2.take NUM_ECC_BYTES)) := by
  have hne : CHIP_ERROR_INTERNAL ≠ CHIP_NO_ERROR := by decide
  have main : ((test_ecdh env).ret = CHIP_NO_ERROR ↔
      env.result Site.makeKey1 = env.UECC_SUCCESS ∧
      env.result Site.makeKey2 = env.UECC_SUCCESS ∧
      env.result Site.sharedSecret1 = env.UECC_SUCCESS ∧
      env.result Site.sharedSecret2 = env.UECC_SUCCESS ∧
      env.memcmp env.secret1 env.secret2 NUM_ECC_BYTES = 0) := by
    unfold test_ecdh
    by_cases h1 : env.result Site.makeKey1 = env.UECC_SUCCESS <;>
      by_cases h2 : env.result Site.makeKey2 = env.UECC_SUCCESS <;>
      by_cases h3 : env.result Site.sharedSecret1 = env.UECC_SUCCESS <;>
      by_cases h4 : env.result Site.sharedSecret2 = env.UECC_SUCCESS <;>
      by_cases h5 : env.memcmp env.secret1 env.secret2 NUM_ECC_BYTES = 0 <;>
      simp [h1, h2, h3, h4, h5, hne]
  refine ⟨main, ?_, ?_, ?_⟩
  · unfold test_ecdh
    by_cases h1 : env.result Site.makeKey1 = env.UECC_SUCCESS <;>
      by_cases h2 : env.result Site.makeKey2 = env.UECC_SUCCESS <;>
      by_cases h3 : env.result Site.sharedSecret1 = env.UECC_SUCCESS <;>
      by_cases h4 : env.result Site.sharedSecret2 = env.UECC_SUCCESS <;>
      by_cases h5 : env.memcmp env.secret1 env.secret2 NUM_ECC_BYTES = 0 <;>
      simp [h1, h2, h3, h4, h5]
  · unfold test_ecdh
    by_cases h1 : env.result Site.makeKey1 = env.UECC_SUCCESS <;>
      by_cases h2 : env.result Site.makeKey2 = env.UECC_SUCCESS <;>
      by_cases h3 : env.result Site.sharedSecret1 = env.UECC_SUCCESS <;>
      by_cases h4 : env.result Site.sharedSecret2 = env.UECC_SUCCESS <;>
      by_cases h5 : env.memcmp env.secret1 env.secret2 NUM_ECC_BYTES = 0 <;>
      simp [h1, h2, h3, h4, h5, steps, throughFirstFailure, stepPasses]
  · intro hm
    rw [main, hm]

/-- C15: `test_ecdsa` returns `CHIP_NO_ERROR` exactly when the random fill of
the hash returns `NUM_ECC_BYTES` and `uECC_make_key`, `uECC_sign` and
`uECC_verify` each return `UECC_SUCCESS`; in every other case it returns
`CHIP_ERROR_INTERNAL`; and the steps it executes are those up to and including
the first one whose check fails. -/
theorem C15_test_ecdsa (env : Env) :
    ((test_ecdsa env).ret = CHIP_NO_ERROR ↔
      uecc_rng_wrapper env.drbg NUM_ECC_BYTES = (NUM_ECC_BYTES : Int) ∧
      env.result Site.makeKey = env.UECC_SUCCESS ∧
      env.result Site.sign = env.UECC_SUCCESS ∧
      env.result Site.verify = env.UECC_SUCCESS) ∧
    ((test_ecdsa env).ret ≠ CHIP_NO_ERROR → (test_ecdsa env).ret = CHIP_ERROR_INTERNAL) ∧
    steps (test_ecdsa env).trace =
      throughFirstFailure (stepPasses env)
        [Event.fillHash (uecc_rng_wrapper env.drbg NUM_ECC_BYTES),
         Event.call Site.makeKey (env.result Site.makeKey),
         Event.call Site.sign (env.result Site.sign),
         Event.call Site.verify (env.result Site.verify)] ∧
    (uecc_rng_wrapper env.drbg NUM_ECC_BYTES = (NUM_ECC_BYTES : Int) ↔
      env.drbg = CHIP_NO_ERROR) := by
  have hne : CHIP_ERROR_INTERNAL ≠ CHIP_NO_ERROR := by decide
  refine ⟨?_, ?_, ?_, ?_⟩
  · unfold test_ecdsa
    by_cases h1 : uecc_rng_wrapper env.drbg NUM_ECC_BYTES = (NUM_ECC_BYTES : Int) <;>
      by_cases h2 : env.result Site.makeKey = env.UECC_SUCCESS <;>
      by_cases h3 : env.result Site.sign = env.UECC_SUCCESS <;>
      by_cases h4 : env.result Site.verify = env.UECC_SUCCESS <;>
      simp [h1, h2, h3, h4, hne]
  · unfold test_ecdsa
    by_cases h1 : uecc_rng_wrapper env.drbg NUM_ECC_BYTES = (NUM_ECC_BYTES : Int) <;>
      by_cases h2 : env.result Site.makeKey = env.UECC_SUCCESS <;>
      by_cases h3 : env.result Site.sign = env.UECC_SUCCESS <;>
      by_cases h4 : env.result Site.verify = env.UECC_SUCCESS <;>
      simp [h1, h2, h3, h4]
  · unfold test_ecdsa
    by_cases h1 : uecc_rng_wrapper env.drbg NUM_ECC_BYTES = (NUM_ECC_BYTES : Int) <;>
      by_cases h2 : env.result Site.makeKey = env.UECC_SUCCESS <;>
      by_cases h3 : env.result Site.sign = env.UECC_SUCCESS <;>
      by_cases h4 : env.result Site.verify = env.UECC_SUCCESS <;>
      simp [h1, h2, h3, h4, steps, throughFirstFailure, stepPasses]
  · by_cases h : env.drbg = CHIP_NO_ERROR
    · simp [uecc_rng_wrapper, h, toInt, NUM_ECC_BYTES]
    · simp [uecc_rng_wrapper, h, toInt, NUM_ECC_BYTES]

/-- C14 (witness): a run in which everything succeeds, one in which the two
secrets differ, and one in which the first `uECC_shared_secret` fails. -/
theorem C14_test_ecdh_witness :
    (envSecretsDiffer.memcmp envSecretsDiffer.secret1 envSecretsDiffer.secret2
        NUM_ECC_BYTES = 0 ↔
      envSecretsDiffer.secret1.take NUM_ECC_BYTES =
        envSecretsDiffer.secret2.take NUM_ECC_BYTES) ∧
    (test_ecdh envGood).ret = CHIP_NO_ERROR ∧
    (test_ecdh envSecretsDiffer).ret = CHIP_ERROR_INTERNAL ∧
    steps (test_ecdh envCallFails).trace =
      [Event.call Site.makeKey1 0, Event.call Site.makeKey2 0,
       Event.call Site.sharedSecret1 0x75555555] := by
  refine ⟨by decide, (C14_test_ecdh envGood).1.2 (by decide),
    (C14_test_ecdh envSecretsDiffer).2.1 ?_, ?_⟩
  · intro h
    have := ((C14_test_ecdh envSecretsDiffer).2.2.2 (by decide)).1 h
    exact absurd this.2.2.2.2 (by decide)
  · rw [(C14_test_ecdh envCallFails).2.2.1]
    decide

/-- C15 (witness): a run in which everything succeeds, one in which the random
fill fails, and one in which `uECC_sign` fails. -/
theorem C15_test_ecdsa_witness :
    (test_ecdsa envGood).ret = CHIP_NO_ERROR ∧
    (test_ecdsa envNoRandom).ret = CHIP_ERROR_INTERNAL ∧
    steps (test_ecdsa envNoRandom).trace = [Event.fillHash 0] ∧
    steps (test_ecdsa envCallFails).trace =
      [Event.fillHash 32, Event.call Site.makeKey 0, Event.call Site.sign 0x75555555] := by
  refine ⟨(C15_test_ecdsa envGood).1.2 (by decide), (C15_test_ecdsa envNoRandom).2.1 ?_, ?_, ?_⟩
  · intro h
    have := (C15_test_ecdsa envNoRandom).1.1 h
    exact absurd this.1 (by decide)
  · rw [(C15_test_ecdsa envNoRandom).2.2.1]
    decide
  · rw [(C15_test_ecdsa envCallFails).2.2.1]
    decide

/-! ## Properties of `main_task` -/

/-- C24: in the tinycrypt-test `main_task`, `test_ecdsa` is called exactly when
the four bring-up calls all return `CHIP_NO_ERROR` and `test_ecdh` returns
`CHIP_NO_ERROR`, and then once; `test_ecdh` is called only when the four
bring-up calls succeed, and when it returns an error the trace ends with the
line "Error test_ecdh" and holds no call of `test_ecdsa`. -/
theorem C24_main_task_runs_ecdsa (status : EccTesting.BringUp → CHIP_ERROR) (env : Env) :
    (ecdsaCalls (main_task status env) ≠ [] ↔
      status EccTesting.BringUp.InitChipStack = CHIP_NO_ERROR ∧
      status EccTesting.BringUp.InitThreadStack = CHIP_NO_ERROR ∧
      status EccTesting.BringUp.SetThreadDeviceType = CHIP_NO_ERROR ∧
      status EccTesting.BringUp.StartEventLoopTask = CHIP_NO_ERROR ∧
      (test_ecdh env).ret = CHIP_NO_ERROR) ∧
    (ecdsaCalls (main_task status env) ≠ [] →
      ecdsaCalls (main_task status env) = [test_ecdsa env]) ∧
    ((∃ run, MainEvent.test_ecdh run ∈ main_task status env) →
      status EccTesting.BringUp.InitChipStack = CHIP_NO_ERROR ∧
      status EccTesting.BringUp.InitThreadStack = CHIP_NO_ERROR ∧
      status EccTesting.BringUp.SetThreadDeviceType = CHIP_NO_ERROR ∧
      status EccTesting.BringUp.StartEventLoopTask = CHIP_NO_ERROR) ∧
    (status EccTesting.BringUp.InitChipStack = CHIP_NO_ERROR →
      status EccTesting.BringUp.InitThreadStack = CHIP_NO_ERROR →
      status EccTesting.BringUp.SetThreadDeviceType = CHIP_NO_ERROR →
      status EccTesting.BringUp.StartEventLoopTask = CHIP_NO_ERROR →
      (test_ecdh env).ret ≠ CHIP_NO_ERROR →
      main_task status env =
        mainPrelude ++
          [MainEvent.bringUp EccTesting.BringUp.InitChipStack CHIP_NO_ERROR,
           MainEvent.bringUp EccTesting.BringUp.InitThreadStack CHIP_NO_ERROR,
           MainEvent.bringUp EccTesting.BringUp.SetThreadDeviceType CHIP_NO_ERROR,
           MainEvent.bringUp EccTesting.BringUp.StartEventLoopTask CHIP_NO_ERROR,
           MainEvent.test_ecdh (test_ecdh env), MainEvent.log "Error test_ecdh"] ∧
      ecdsaCalls (main_task status env) = []) := by
  by_cases h1 : status EccTesting.BringUp.InitChipStack = CHIP_NO_ERROR <;>
    by_cases h2 : status EccTesting.BringUp.InitThreadStack = CHIP_NO_ERROR <;>
    by_cases h3 : status EccTesting.BringUp.SetThreadDeviceType = CHIP_NO_ERROR <;>
    by_cases h4 : status EccTesting.BringUp.StartEventLoopTask = CHIP_NO_ERROR <;>
    by_cases h5 : (test_ecdh env).ret = CHIP_NO_ERROR <;>
    by_cases h6 : (test_ecdsa env).ret = CHIP_NO_ERROR <;>
    simp [main_task, ecdsaCalls, mainPrelude, h1, h2, h3, h4, h5, h6]

/-- C24 (witness): with the bring-up succeeding, a run in which `test_ecdh`
finds two different secrets, and one in which both tests are called. -/
theorem C24_main_task_runs_ecdsa_witness :
    (main_task (fun _ => CHIP_NO_ERROR) envSecretsDiffer =
        mainPrelude ++
          [MainEvent.bringUp EccTesting.BringUp.InitChipStack CHIP_NO_ERROR,
           MainEvent.bringUp EccTesting.BringUp.InitThreadStack CHIP_NO_ERROR,
           MainEvent.bringUp EccTesting.BringUp.SetThreadDeviceType CHIP_NO_ERROR,
           MainEvent.bringUp EccTesting.BringUp.StartEventLoopTask CHIP_NO_ERROR,
           MainEvent.test_ecdh (test_ecdh envSecretsDiffer), MainEvent.log "Error test_ecdh"] ∧
      ecdsaCalls (main_task (fun _ => CHIP_NO_ERROR) envSecretsDiffer) = []) ∧
    ecdsaCalls (main_task (fun _ => CHIP_NO_ERROR) envCallFails) = [] ∧
    ecdsaCalls (main_task (fun _ => CHIP_NO_ERROR) envGood) = [test_ecdsa envGood] ∧
    ecdsaCalls (main_task statusEventLoopFails envGood) = [] :=
  ⟨(C24_main_task_runs_ecdsa (fun _ => CHIP_NO_ERROR) envSecretsDiffer).2.2.2
      rfl rfl rfl rfl (by decide),
   ((C24_main_task_runs_ecdsa (fun _ => CHIP_NO_ERROR) envCallFails).2.2.2
      rfl rfl rfl rfl (by decide)).2,
   (C24_main_task_runs_ecdsa (fun _ => CHIP_NO_ERROR) envGood).2.1
     ((C24_main_task_runs_ecdsa (fun _ => CHIP_NO_ERROR) envGood).1.2
       ⟨rfl, rfl, rfl, rfl, by decide⟩),
   by decide⟩

end TinycryptTest

namespace EndpointConfig

/-! ## Properties of the generated tables -/

set_option maxRecDepth 100000

/-- C18: the 18 entries of `GENERATED_CLUSTERS` tile `GENERATED_ATTRIBUTES`
without gap or overlap: the first cluster starts at attribute 0, every later
cluster starts where the previous one ends (its index plus its
`attributeCount`), and the last one ends at `GENERATED_ATTRIBUTE_COUNT`, which
is 170 and is the number of entries of `GENERATED_ATTRIBUTES`. -/
theorem C18_clusters_tile_attributes :
    GENERATED_CLUSTERS.length = 18 ∧
    GENERATED_CLUSTERS.head?.map (fun c => c.attributes) = some 0 ∧
    (∀ i, i < 17 →
      GENERATED_CLUSTERS[i + 1]?.map (fun c => c.attributes) =
        GENERATED_CLUSTERS[i]?.map (fun c => c.attributes + c.attributeCount)) ∧
    GENERATED_CLUSTERS.getLast?.map (fun c => c.attributes + c.attributeCount) =
      some GENERATED_ATTRIBUTE_COUNT ∧
    GENERATED_ATTRIBUTE_COUNT = 170 ∧
    GENERATED_ATTRIBUTES.length = GENERATED_ATTRIBUTE_COUNT := by
  decide

/-- C19: every command list a cluster of `GENERATED_CLUSTERS` points to starts
a list of `GENERATED_COMMANDS`: its index is 0 or comes right after a
`chip::kInvalidCommandId`; the comment of that list under the same endpoint
and cluster states this index (and stands at that position of the array); and
a `chip::kInvalidCommandId` occurs at or after the index, inside the array. -/
theorem C19_command_lists_well_formed :
    ∀ c ∈ GENERATED_CLUSTERS, ∀ p ∈ c.commandLists,
      (p.2 = 0 ∨ GENERATED_COMMANDS[p.2 - 1]? = some kInvalidCommandId) ∧
      (⟨c.endpoint, c.name, p.1, p.2, p.2⟩ : CommandListComment) ∈
        commandListComments GENERATED_COMMANDS_TEXT 0 "" 0 ∧
      ∃ j, j < GENERATED_COMMANDS.length ∧ p.2 ≤ j ∧
        GENERATED_COMMANDS[j]? = some kInvalidCommandId := by
  decide

/-- C19 (witness): the generated command list of the General Commissioning
cluster of endpoint 0, which starts at index 6, right after the terminator of
the accepted list that starts at index 2. -/
theorem C19_command_lists_well_formed_witness :
    (⟨0, "General Commissioning (server)", 0x00000030, 32, 7, 14,
        [.SERVER], none, some 2, some 6⟩ : EmberAfCluster) ∈ GENERATED_CLUSTERS ∧
    GENERATED_COMMANDS[6 - 1]? = some kInvalidCommandId ∧
    (⟨0, "General Commissioning (server)", false, 6, 6⟩ : CommandListComment) ∈
      commandListComments GENERATED_COMMANDS_TEXT 0 "" 0 ∧
    ∃ j, j < GENERATED_COMMANDS.length ∧ 6 ≤ j ∧
      GENERATED_COMMANDS[j]? = some kInvalidCommandId :=
  have h := C19_command_lists_well_formed
    ⟨0, "General Commissioning (server)", 0x00000030, 32, 7, 14, [.SERVER], none, some 2, some 6⟩
    (by decide) (false, 6) (by decide)
  ⟨by decide, h.1.resolve_left (by decide), h.2.1, h.2.2⟩

/-- C20: `ATTRIBUTE_MAX_SIZE`, 203, is the sum of the `endpointSize` fields of
`GENERATED_ENDPOINT_TYPES`, 156 and 47; each `endpointSize` is the sum of
`clusterSize` over the clusters of its range, clusters 0 to 12 and clusters 13
to 17; and the two ranges follow each other and end at
`GENERATED_CLUSTER_COUNT`, 18, the number of entries of `GENERATED_CLUSTERS`. -/
theorem C20_attribute_storage_size :
    ATTRIBUTE_MAX_SIZE = 203 ∧
    GENERATED_ENDPOINT_TYPES.map (fun e => e.endpointSize) = [156, 47] ∧
    ATTRIBUTE_MAX_SIZE = (GENERATED_ENDPOINT_TYPES.map (fun e => e.endpointSize)).sum ∧
    (∀ e ∈ GENERATED_ENDPOINT_TYPES,
      e.endpointSize =
        (((GENERATED_CLUSTERS.drop e.cluster).take e.clusterCount).map
          (fun c => c.clusterSize)).sum) ∧
    GENERATED_ENDPOINT_TYPES.map (fun e => (e.cluster, e.cluster + e.clusterCount)) =
      [(0, 13), (13, 18)] ∧
    GENERATED_CLUSTER_COUNT = 18 ∧
    GENERATED_CLUSTERS.length = GENERATED_CLUSTER_COUNT := by
  decide

/-- C21 (counterexample): the maximum of the `size` field over
`GENERATED_ATTRIBUTES` is 65, no entry has size 66, and `ATTRIBUTE_LARGEST` is
66. -/
theorem C21_counterexample_largest_is_not_maximum :
    (sizes GENERATED_ATTRIBUTES).max? = some 65 ∧
    ATTRIBUTE_LARGEST = 66 ∧
    (sizes GENERATED_ATTRIBUTES).max? ≠ some ATTRIBUTE_LARGEST ∧
    ATTRIBUTE_LARGEST ∉ sizes GENERATED_ATTRIBUTES := by
  decide

/-- C21 (amended): `ATTRIBUTE_LARGEST`, 66, is one more than the maximum, 65,
of the `size` field over the entries of `GENERATED_ATTRIBUTES`; every entry is
smaller than `ATTRIBUTE_LARGEST`, and the entries of size 65 are
HardwareVersionString and SoftwareVersionString of the Basic cluster. -/
theorem C21_largest_is_maximum_plus_one :
    ATTRIBUTE_LARGEST = 66 ∧
    (sizes GENERATED_ATTRIBUTES).max? = some 65 ∧
    ((sizes GENERATED_ATTRIBUTES).max?).map (fun m => m + 1) = some ATTRIBUTE_LARGEST ∧
    (∀ a ∈ GENERATED_ATTRIBUTES, a.size < ATTRIBUTE_LARGEST) ∧
    (GENERATED_ATTRIBUTES.filter (fun a => a.size + 1 == ATTRIBUTE_LARGEST)).map
        (fun a => (a.attributeId, a.attributeType)) =
      [(0x00000008, ZAP_TYPE.CHAR_STRING), (0x0000000A, ZAP_TYPE.CHAR_STRING)] := by
  decide

/-- C22: `ATTRIBUTE_SINGLETONS_SIZE`, 35, is the sum of the `size` fields of the
entries of `GENERATED_ATTRIBUTES` whose mask includes `SINGLETON` and does not
include `EXTERNAL_STORAGE`: NodeLabel (33) and ClusterRevision (2) of the Basic
cluster.  The entries with `SINGLETON` add up to 246 when those with
`EXTERNAL_STORAGE` are counted too. -/
theorem C22_singletons_size :
    ATTRIBUTE_SINGLETONS_SIZE = 35 ∧
    (sizes (GENERATED_ATTRIBUTES.filter (fun a =>
        a.hasMask ZAP_ATTRIBUTE_MASK.SINGLETON &&
          !a.hasMask ZAP_ATTRIBUTE_MASK.EXTERNAL_STORAGE))).sum =
      ATTRIBUTE_SINGLETONS_SIZE ∧
    (GENERATED_ATTRIBUTES.filter (fun a =>
        a.hasMask ZAP_ATTRIBUTE_MASK.SINGLETON &&
          !a.hasMask ZAP_ATTRIBUTE_MASK.EXTERNAL_STORAGE)).map
        (fun a => (a.attributeId, a.size)) = [(0x00000005, 33), (0x0000FFFD, 2)] ∧
    (sizes (GENERATED_ATTRIBUTES.filter (fun a =>
        a.hasMask ZAP_ATTRIBUTE_MASK.SINGLETON))).sum = 246 := by
  decide

/-- C25: for each of the 18 entries of `GENERATED_CLUSTERS`, `clusterSize` is
the sum of the `size` fields of the attributes of the cluster's range of
`GENERATED_ATTRIBUTES` whose mask does not include `EXTERNAL_STORAGE`; a
cluster with `attributeCount` 0 has `clusterSize` 0, and there is one.  The
sum over the whole range is a different number for 11 of the clusters. -/
theorem C25_cluster_size :
    GENERATED_CLUSTERS.length = 18 ∧
    (∀ c ∈ GENERATED_CLUSTERS,
      c.clusterSize =
        (sizes (c.attributeRange.filter (fun a =>
          !a.hasMask ZAP_ATTRIBUTE_MASK.EXTERNAL_STORAGE))).sum ∧
      c.attributeRange.length = c.attributeCount ∧
      (c.attributeCount = 0 → c.clusterSize = 0)) ∧
    (GENERATED_CLUSTERS.filter (fun c => c.attributeCount == 0)).map
        (fun c => (c.name, c.clusterSize)) =
      [("OTA Software Update Provider (client)", 0)] ∧
    (GENERATED_CLUSTERS.filter (fun c =>
      c.clusterSize != (sizes c.attributeRange).sum)).length = 11 := by
  decide

end EndpointConfig
